import Mathlib

/-!
# Prepress file analyzers: a shallow embedding

The repository holds two copies of the analyzer module:

* `src/src/analyzers.js`  (loaded by `main.js`, works on a Node `Buffer`), embedded in
  namespace `Src`;
* `src/docs/analyzers.js` (browser build, works on a `Uint8Array`), embedded in namespace `Docs`.

The printability blocks at the end of every analyzer are textually identical in the two copies,
so each of them is embedded once (`pdfPrintability`, `jpgPrintability`, `tiffPrintability`,
`epsPrintability`).

Conventions of the embedding.

* A byte buffer is a list of bytes; `bytes[i]` is `byteAt bytes i`, with `none` for JavaScript's
  `undefined` (any index outside the buffer, negative ones included).
* JavaScript numbers that hold offsets and sizes are integers (`Int`): all of them stay far below
  `2^53`, so the double arithmetic on them is exact.
* Bitwise operators work on 32-bit integers: `toInt32` is the wrap-around of `<<` and `|`,
  `toUint32` the one of `>>> 0`.
* Non-integral doubles only arise from `/` and `* 2.54`; they are embedded exactly as dyadic
  rationals (`Dbl`) with round-to-nearest-even.
* The `while` loops of `analyzeJPG` run on fuel; running out of fuel is the outcome
  `Outcome.outOfFuel`.  The `for` loops are bounded by a 16-bit entry count and are total.
* The report keeps the fields the verdict is made of.  `fileName`, `fileSize`, the `details` and
  `message` texts are presentation only and are left out, and so are the millimetre
  `dimensions` of `analyzePDF` and `analyzeEPS`.
-/

namespace Prepress

/-! ## JavaScript primitives -/

abbrev Byte := Fin 256

abbrev Bytes := List Byte

/-- The expression `bytes[i]`: the byte at index `i`, or `none` (`undefined`) outside the buffer. -/
def byteAt (bytes : Bytes) (i : Int) : Option Nat :=
  if i < 0 then none else (bytes[i.toNat]?).map (fun b => b.val)

/-- The value `bytes[i]` takes as an operand of `<<` or `|`: `undefined` converts to 0. -/
def u8 (bytes : Bytes) (i : Int) : Int :=
  ((byteAt bytes i).getD 0 : Nat)

/-- Conversion ToInt32: the result type of `<<`, `|` and `&`. -/
def toInt32 (n : Int) : Int :=
  Int.emod (n + 2147483648) 4294967296 - 2147483648

/-- Conversion ToUint32: the result of `>>> 0`. -/
def toUint32 (n : Int) : Int :=
  Int.emod n 4294967296

/-- The remainder `a % 2` of JavaScript, which takes the sign of `a`. -/
def jsRem2 (a : Int) : Int :=
  if a < 0 then -(Int.emod (-a) 2) else Int.emod a 2

/-- The expression `x & ~1` on a 32-bit integer: clears the lowest bit. -/
def clearBit0 (x : Int) : Int :=
  let y := toInt32 x
  y - Int.emod y 2

/-- The expression `(bytes[p] << 8) | bytes[p + 1]`. -/
def be16 (bytes : Bytes) (p : Int) : Int :=
  u8 bytes p * 256 + u8 bytes (p + 1)

/-- The expression `bytes[p] | (bytes[p + 1] << 8)`. -/
def le16 (bytes : Bytes) (p : Int) : Int :=
  u8 bytes p + u8 bytes (p + 1) * 256

/-- The expression `(bytes[p] << 24) | (bytes[p + 1] << 16) | (bytes[p + 2] << 8) | bytes[p + 3]`,
a signed 32-bit integer. -/
def be32 (bytes : Bytes) (p : Int) : Int :=
  toInt32 (u8 bytes p * 16777216 + u8 bytes (p + 1) * 65536 + u8 bytes (p + 2) * 256
    + u8 bytes (p + 3))

/-- The expression `bytes[p] | (bytes[p + 1] << 8) | (bytes[p + 2] << 16) | (bytes[p + 3] << 24)`,
a signed 32-bit integer. -/
def le32 (bytes : Bytes) (p : Int) : Int :=
  toInt32 (u8 bytes p + u8 bytes (p + 1) * 256 + u8 bytes (p + 2) * 65536
    + u8 bytes (p + 3) * 16777216)

/-- Index adjustment of `slice`: a negative index counts from the end, and the result is clamped
to `[0, len]`. -/
def sliceIndex (len : Nat) (i : Int) : Nat :=
  if i < 0 then (i + len).toNat else min i.toNat len

/-- The call `bytes.slice(start, end)` of `Buffer` and of `Uint8Array`. -/
def jsSlice (bytes : Bytes) (start stop : Int) : Bytes :=
  let k := sliceIndex bytes.length start
  let f := sliceIndex bytes.length stop
  (bytes.drop k).take (f - k)

/-- The char codes of an ASCII keyword. -/
def ascii (s : String) : List Nat :=
  s.toList.map Char.toNat

/-- Whether `needle` starts the list `hay`. -/
def startsWithCodes : List Nat → List Nat → Bool
  | _, [] => true
  | [], _ :: _ => false
  | h :: hs, n :: ns => h == n && startsWithCodes hs ns

/-- Whether `needle` occurs in `hay` as a contiguous run. -/
def includesCodes : List Nat → List Nat → Bool
  | [], needle => needle.isEmpty
  | h :: hs, needle => startsWithCodes (h :: hs) needle || includesCodes hs needle

/-- The call `text.includes(keyword)` on the Latin-1 text of a buffer (`toString('latin1')` in
`src`, `bytesToString` in `docs`): the char codes of the text are the byte values. -/
def includes (text : Bytes) (keyword : String) : Bool :=
  includesCodes (text.map (fun b => b.val)) (ascii keyword)

/-! ## Doubles -/

/-- A finite double, as the dyadic rational `man / 2 ^ ex`. -/
structure Dbl where
  man : Int
  ex : Nat
deriving DecidableEq, Repr

/-- Number of binary digits of `n`, on fuel (`bitLen` gives it enough). -/
def bitLenAux : Nat → Nat → Nat
  | 0, _ => 0
  | fuel + 1, n => if n = 0 then 0 else bitLenAux fuel (n / 2) + 1

def bitLen (n : Nat) : Nat :=
  bitLenAux n n

/-- The double nearest to `n / d` (ties to even) as mantissa and exponent `(q, ex)`, value
`q / 2 ^ ex`, for `0 < d` and `n / d < 2 ^ 53` (all quotients and products below are). -/
def roundNearest (n d : Nat) : Nat × Nat :=
  if n = 0 then (0, 0) else
  let ex0 := 53 + bitLen d - bitLen n
  let q0 := n * 2 ^ ex0 / d
  let ex := if q0 < 2 ^ 53 then ex0 else ex0 - 1
  let q := n * 2 ^ ex / d
  let r := n * 2 ^ ex % d
  let up := decide (d < 2 * r) || (decide (2 * r = d) && decide (q % 2 = 1))
  (if up then q + 1 else q, ex)

namespace Dbl

/-- An integer as a double (exact below `2 ^ 53`). -/
def ofInt (n : Int) : Dbl :=
  ⟨n, 0⟩

/-- The quotient `n / d` of two integers, `d` not 0. -/
def div (n d : Int) : Dbl :=
  let r := roundNearest n.natAbs d.natAbs
  ⟨if decide (n < 0) != decide (d < 0) then -(r.1 : Int) else (r.1 : Int), r.2⟩

/-- The product `x * y`. -/
def mul (x y : Dbl) : Dbl :=
  let r := roundNearest (x.man.natAbs * y.man.natAbs) (2 ^ (x.ex + y.ex))
  ⟨if decide (x.man < 0) != decide (y.man < 0) then -(r.1 : Int) else (r.1 : Int), r.2⟩

/-- The product `x * 2.54`; the literal `2.54` is the double `5719571526760530 / 2 ^ 51`. -/
def mul254 (x : Dbl) : Dbl :=
  let r := roundNearest (x.man.natAbs * 5719571526760530) (2 ^ (x.ex + 51))
  ⟨if x.man < 0 then -(r.1 : Int) else (r.1 : Int), r.2⟩

/-- The call `Math.round(x)`: the nearest integer, a tie going up. -/
def round (x : Dbl) : Int :=
  Int.fdiv (2 * x.man + 2 ^ x.ex) (2 ^ (x.ex + 1))

/-- The comparison `x < y`. -/
def lt (x y : Dbl) : Bool :=
  decide (x.man * 2 ^ y.ex < y.man * 2 ^ x.ex)

/-- The comparison `x <= y`. -/
def le (x y : Dbl) : Bool :=
  decide (x.man * 2 ^ y.ex ≤ y.man * 2 ^ x.ex)

end Dbl

/-- A millimetre value of `physicalDimensions`: a finite double, or `Infinity` / `NaN` (what a
division by a resolution of 0 gives). -/
inductive Mm where
  | finite (x : Dbl)
  | notFinite
deriving DecidableEq, Repr

/-- The function `pxToMm`: `Math.round((px / dpi) * 25.4 * 10) / 10`; the literal `25.4` is the
double `3574732204225331 / 2 ^ 47`. -/
def pxToMm (px dpi : Int) : Mm :=
  if dpi = 0 then .notFinite
  else
    .finite (Dbl.div (((Dbl.div px dpi).mul ⟨3574732204225331, 47⟩).mul (Dbl.ofInt 10)).round 10)

/-- The test `x >= 1 && x <= 10000`. -/
def inDpiRange (x : Dbl) : Bool :=
  Dbl.le (Dbl.ofInt 1) x && Dbl.le x (Dbl.ofInt 10000)

/-! ## Reports -/

inductive ColorSpace where
  | RGB
  | CMYK
  | Grayscale
  | unknown
deriving DecidableEq, Repr

inductive Status where
  | ready
  | warning
  | error
deriving DecidableEq, Repr

inductive ReadStatus where
  | legible
  | warning
  | noLegible
  | unknown
deriving DecidableEq, Repr

inductive ResValue where
  | dpi (value : Int)
  | vector
deriving DecidableEq, Repr

inductive ResStatus where
  | detected
  | default
  | vector
deriving DecidableEq, Repr

structure Resolution where
  value : ResValue
  status : ResStatus
deriving DecidableEq, Repr

structure TextReadability where
  isLegible : Bool
  status : ReadStatus
deriving DecidableEq, Repr

structure Printability where
  status : Status
  issues : List String
deriving DecidableEq, Repr

/-- The report object every analyzer returns. -/
structure Report where
  fileType : String
  resolution : Resolution
  colorSpace : ColorSpace
  hasICCProfile : Bool
  iccProfile : Option String
  textReadability : TextReadability
  printability : Printability
  recommendations : List String
deriving DecidableEq, Repr

/-- The report of a raster analyzer: with the pixel dimensions, and `physicalDimensions`
(width and height in millimetres) when present. -/
structure RasterReport extends Report where
  width : Int
  height : Int
  physicalDimensions : Option (Mm × Mm)
deriving DecidableEq, Repr

/-- What a call does: it returns, it throws `new Error(msg)`, or its loops use up the fuel. -/
inductive Outcome (α : Type) where
  | returned (r : α)
  | threw (msg : String)
  | outOfFuel
deriving DecidableEq, Repr

/-! ## Profile names -/

/-- The keyword chain of `analyzePDF`: the name assigned to `iccProfile`, `none` when no keyword
occurs (no assignment). -/
def pdfProfileName (text : Bytes) : Option String :=
  if includes text "ISONewspaper" || includes text "ISOnewspaper" then some "ISONewspaper"
  else if includes text "Eurostandard" || includes text "EuroStandard" then some "Euroestándar"
  else if includes text "sRGB" then some "sRGB"
  else if includes text "AdobeRGB" then some "Adobe RGB"
  else none

/-- The keyword chain of `analyzeTIFF` (both copies). -/
def tiffProfileName (profileData : Bytes) : Option String :=
  if includes profileData "ISONewspaper" || includes profileData "ISOnewspaper" then
    some "ISONewspaper"
  else if includes profileData "Eurostandard" || includes profileData "EuroStandard" then
    some "Euroestándar"
  else if includes profileData "sRGB" then some "sRGB"
  else if includes profileData "AdobeRGB" || includes profileData "Adobe RGB" then
    some "Adobe RGB"
  else none

/-- The truthiness test `iccProfile && ![...].includes(iccProfile)` of the printability blocks. -/
def notOptimal (iccProfile : Option String) (optimal : List String) : Bool :=
  match iccProfile with
  | none => false
  | some name => name != "" && !(optimal.contains name)

/-- The text of the issue built from the template with `iccProfile` in it. -/
def notOptimalIssue (iccProfile : Option String) : String :=
  "Perfil ICC \"" ++ iccProfile.getD "undefined" ++ "\" no es óptimo para papel prensa"

/-! ## analyzePDF -/

/-- Colour space detection of `analyzePDF`. -/
def pdfColorSpace (text : Bytes) : ColorSpace :=
  if includes text "/DeviceCMYK" || (includes text "/ICCBased" && includes text "CMYK") then .CMYK
  else if includes text "/DeviceRGB" then .RGB
  else if includes text "/DeviceGray" then .Grayscale
  else .unknown

/-- ICC detection of `analyzePDF`: the pair `(hasICCProfile, iccProfile)`. -/
def pdfICC (text : Bytes) : Bool × Option String :=
  if includes text "/ICCBased" || includes text "/OutputIntent" then (true, pdfProfileName text)
  else (false, none)

/-- The smallest element, the call `Math.min(...fontSizes)` on a non-empty array. -/
def minSize (first : Dbl) (rest : List Dbl) : Dbl :=
  rest.foldl (fun m s => if Dbl.lt s m then s else m) first

/-- Text readability of `analyzePDF`.  `sizes` are the numbers `size` that `parseFloat` yields for
the matches of the two regular expressions, in order; the array `fontSizes` keeps those in
`(0, 200)`, and `MIN_FONT_SIZE_NEWSPAPER` is 6. -/
def pdfTextReadability (sizes : List Dbl) : TextReadability :=
  let fontSizes := sizes.filter (fun size => Dbl.lt (Dbl.ofInt 0) size && Dbl.lt size (Dbl.ofInt 200))
  match fontSizes with
  | [] => { isLegible := true, status := .unknown }
  | first :: rest =>
    if Dbl.lt (minSize first rest) (Dbl.ofInt 6) then { isLegible := false, status := .noLegible }
    else { isLegible := true, status := .legible }

/-- The printability block of `analyzePDF`: `(status, issues, recommendations)`. -/
def pdfPrintability (colorSpace : ColorSpace) (hasICCProfile : Bool) (iccProfile : Option String)
    (isLegible : Bool) : Status × List String × List String :=
  let issues : List String := []
  let recommendations : List String := []
  let (issues, recommendations) :=
    if colorSpace = .RGB then
      (issues ++ ["El archivo está en RGB, se requiere conversión a CMYK"],
       recommendations ++ ["Convertir a CMYK con perfil ISONewspaper o Euroestándar"])
    else if colorSpace = .unknown then
      (issues ++ ["No se pudo detectar el espacio de color"], recommendations)
    else (issues, recommendations)
  let (issues, recommendations) :=
    if !hasICCProfile then
      (issues ++ ["No se detectó perfil ICC embebido"],
       recommendations ++
         ["Se recomienda embeber perfil ISONewspaper para impresión en papel prensa"])
    else if notOptimal iccProfile ["ISONewspaper", "Euroestándar"] then
      (issues ++ [notOptimalIssue iccProfile],
       recommendations ++ ["Convertir a perfil ISONewspaper o Euroestándar"])
    else (issues, recommendations)
  let (issues, recommendations) :=
    if !isLegible then
      (issues ++ ["Texto con tamaño insuficiente para impresión en papel prensa"],
       recommendations ++
         ["Aumentar tamaño de fuente a mínimo 6pt para garantizar legibilidad"])
    else (issues, recommendations)
  let status : Status :=
    if colorSpace = .RGB ∨ colorSpace = .unknown then .error
    else if !isLegible then .warning
    else if issues.length > 0 then .warning
    else .ready
  let recommendations :=
    if recommendations.length = 0 ∧ status = .ready then
      recommendations ++ ["Archivo listo para impresión en papel prensa"]
    else recommendations
  (status, issues, recommendations)

/-- The function `analyzePDF` (the same in both copies).  `text` is the buffer read as Latin-1
text, `sizes` the font sizes parsed from it (see `pdfTextReadability`). -/
def analyzePDF (text : Bytes) (sizes : List Dbl) : Report :=
  let colorSpace := pdfColorSpace text
  let icc := pdfICC text
  let textReadability := pdfTextReadability sizes
  let verdict := pdfPrintability colorSpace icc.1 icc.2 textReadability.isLegible
  { fileType := "PDF"
    resolution := { value := .dpi 300, status := .default }
    colorSpace := colorSpace
    hasICCProfile := icc.1
    iccProfile := icc.2
    textReadability := textReadability
    printability := { status := verdict.1, issues := verdict.2.1 }
    recommendations := verdict.2.2 }

/-! ## analyzeEPS -/

/-- Colour space detection of `analyzeEPS`. -/
def epsColorSpace (text : Bytes) : ColorSpace :=
  if includes text "setcmykcolor" || includes text "/DeviceCMYK" then .CMYK
  else if includes text "setrgbcolor" || includes text "/DeviceRGB" then .RGB
  else if includes text "setgray" || includes text "/DeviceGray" then .Grayscale
  else .unknown

/-- The printability block of `analyzeEPS`: `(status, issues, recommendations)`. -/
def epsPrintability (colorSpace : ColorSpace) : Status × List String × List String :=
  let issues : List String := []
  let recommendations : List String := []
  let (issues, recommendations) :=
    if colorSpace = .RGB then
      (issues ++ ["El archivo utiliza colores RGB"],
       recommendations ++ ["Convertir a CMYK para impresión"])
    else if colorSpace = .unknown then
      (issues ++ ["No se pudo determinar el espacio de color"],
       recommendations ++ ["Verificar manualmente el espacio de color"])
    else (issues, recommendations)
  let status : Status :=
    if colorSpace = .RGB ∨ colorSpace = .unknown then .warning else .ready
  let recommendations :=
    if recommendations.length = 0 ∧ status = .ready then
      recommendations ++ ["Archivo vectorial listo para impresión"]
    else recommendations
  (status, issues, recommendations)

/-- The function `analyzeEPS` (the same in both copies), on the buffer read as Latin-1 text. -/
def analyzeEPS (text : Bytes) : Report :=
  let colorSpace := epsColorSpace text
  let verdict := epsPrintability colorSpace
  { fileType := "EPS"
    resolution := { value := .vector, status := .vector }
    colorSpace := colorSpace
    hasICCProfile := false
    iccProfile := none
    textReadability := { isLegible := true, status := .legible }
    printability := { status := verdict.1, issues := verdict.2.1 }
    recommendations := verdict.2.2 }

/-! ## The raster verdicts -/

/-- Text readability of `analyzeJPG` and of `analyzeTIFF` (the same block in both, and in both
copies). -/
def rasterTextReadability (dpi : Int) : TextReadability :=
  if dpi < 150 then { isLegible := false, status := .noLegible }
  else if dpi < 200 then { isLegible := true, status := .warning }
  else { isLegible := true, status := .legible }

/-- The printability block of `analyzeJPG`: `(status, issues, recommendations)`. -/
def jpgPrintability (dpi : Int) (colorSpace : ColorSpace) (hasICCProfile : Bool)
    (iccProfile : Option String) (isLegible : Bool) : Status × List String × List String :=
  let issues : List String := []
  let recommendations : List String := []
  let (issues, recommendations) :=
    if dpi < 200 then
      (issues ++ ["Resolución de " ++ toString dpi ++ " dpi es inferior al mínimo de 200 dpi"],
       recommendations ++ ["Redimensionar imagen o usar una versión de mayor resolución"])
    else (issues, recommendations)
  let (issues, recommendations) :=
    if colorSpace = .RGB then
      (issues ++ ["El archivo está en RGB, se recomienda convertir a CMYK"],
       recommendations ++ ["Convertir a CMYK con perfil ISONewspaper o Euroestándar"])
    else (issues, recommendations)
  let (issues, recommendations) :=
    if !hasICCProfile then
      (issues ++ ["No se detectó perfil ICC embebido"],
       recommendations ++ ["Se recomienda embeber perfil ICC apropiado"])
    else if notOptimal iccProfile ["ISONewspaper", "Euroestándar", "CMYK Profile"] then
      (issues ++ [notOptimalIssue iccProfile],
       recommendations ++ ["Convertir a perfil ISONewspaper o Euroestándar"])
    else (issues, recommendations)
  let issues :=
    if !isLegible then issues ++ ["Resolución insuficiente para texto legible en impresión"]
    else issues
  let status : Status :=
    if dpi < 200 then .error
    else if colorSpace = .RGB ∨ issues.length > 0 then .warning
    else .ready
  let recommendations :=
    if recommendations.length = 0 ∧ status = .ready then
      recommendations ++ ["Archivo listo para impresión en papel prensa"]
    else recommendations
  (status, issues, recommendations)

/-- The printability block of `analyzeTIFF`: `(status, issues, recommendations)`. -/
def tiffPrintability (dpi : Int) (colorSpace : ColorSpace) (hasICCProfile : Bool)
    (isLegible : Bool) : Status × List String × List String :=
  let issues : List String := []
  let recommendations : List String := []
  let (issues, recommendations) :=
    if dpi < 200 then
      (issues ++ ["Resolución de " ++ toString dpi ++ " dpi es inferior al mínimo de 200 dpi"],
       recommendations ++ ["Redimensionar imagen o usar una versión de mayor resolución"])
    else (issues, recommendations)
  let (issues, recommendations) :=
    if colorSpace = .RGB then
      (issues ++ ["El archivo está en RGB, se recomienda convertir a CMYK"],
       recommendations ++ ["Convertir a CMYK con perfil ISONewspaper o Euroestándar"])
    else if colorSpace = .unknown then
      (issues ++ ["No se pudo detectar el espacio de color"], recommendations)
    else (issues, recommendations)
  let (issues, recommendations) :=
    if !hasICCProfile then
      (issues ++ ["No se detectó perfil ICC embebido"],
       recommendations ++ ["Se recomienda embeber perfil ICC apropiado"])
    else (issues, recommendations)
  let issues :=
    if !isLegible then issues ++ ["Resolución insuficiente para texto legible en impresión"]
    else issues
  let status : Status :=
    if dpi < 200 ∨ colorSpace = .unknown then .error
    else if colorSpace = .RGB ∨ issues.length > 0 then .warning
    else .ready
  let recommendations :=
    if recommendations.length = 0 ∧ status = .ready then
      recommendations ++ ["Archivo listo para impresión en papel prensa"]
    else recommendations
  (status, issues, recommendations)

/-- The local variables of `analyzeJPG` (and, with `resolutionUnit`, of `analyzeTIFF`) that the
decoding loop updates. -/
structure Decoded where
  width : Int
  height : Int
  dpiX : Int
  dpiY : Int
  colorSpace : ColorSpace
  hasICCProfile : Bool
  iccProfile : Option String
  dpiDetected : Bool
deriving DecidableEq, Repr

/-- The local variables of `analyzeTIFF`. -/
structure TiffDecoded extends Decoded where
  resolutionUnit : Int
deriving DecidableEq, Repr

/-- The tail of `analyzeJPG`, from `const dpi = Math.max(dpiX, dpiY)` to the returned object. -/
def jpgReport (s : Decoded) : RasterReport :=
  let dpi := max s.dpiX s.dpiY
  let textReadability := rasterTextReadability dpi
  let verdict :=
    jpgPrintability dpi s.colorSpace s.hasICCProfile s.iccProfile textReadability.isLegible
  { fileType := "JPG"
    width := s.width
    height := s.height
    physicalDimensions :=
      if s.dpiDetected then some (pxToMm s.width dpi, pxToMm s.height dpi) else none
    resolution := { value := .dpi dpi, status := if s.dpiDetected then .detected else .default }
    colorSpace := s.colorSpace
    hasICCProfile := s.hasICCProfile
    iccProfile := s.iccProfile
    textReadability := textReadability
    printability := { status := verdict.1, issues := verdict.2.1 }
    recommendations := verdict.2.2 }

/-- The tail of `analyzeTIFF`, from the centimetre conversion to the returned object. -/
def tiffReport (s : TiffDecoded) : RasterReport :=
  let dpiX := if s.resolutionUnit = 3 then (Dbl.ofInt s.dpiX).mul254.round else s.dpiX
  let dpiY := if s.resolutionUnit = 3 then (Dbl.ofInt s.dpiY).mul254.round else s.dpiY
  let dpi := max dpiX dpiY
  let textReadability := rasterTextReadability dpi
  let verdict := tiffPrintability dpi s.colorSpace s.hasICCProfile textReadability.isLegible
  { fileType := "TIFF"
    width := s.width
    height := s.height
    physicalDimensions :=
      if s.dpiDetected then some (pxToMm s.width dpi, pxToMm s.height dpi) else none
    resolution := { value := .dpi dpi, status := if s.dpiDetected then .detected else .default }
    colorSpace := s.colorSpace
    hasICCProfile := s.hasICCProfile
    iccProfile := s.iccProfile
    textReadability := textReadability
    printability := { status := verdict.1, issues := verdict.2.1 }
    recommendations := verdict.2.2 }

/-! ## Pieces shared by the two copies of the raster decoders -/

/-- The test `String.fromCharCode(bytes[p], bytes[p + 1], ...) === sig` (also `startsWith` on a
signature of the same length): `fromCharCode` turns `undefined` into char code 0. -/
def sigAt (bytes : Bytes) (p : Int) : List Nat → Bool
  | [] => true
  | c :: cs => (byteAt bytes p).getD 0 == c && sigAt bytes (p + 1) cs

/-- The test `marker === 0xD8 || marker === 0x01 || (marker >= 0xD0 && marker <= 0xD7)`. -/
def isStandalone (marker : Option Nat) : Bool :=
  match marker with
  | some m => m == 0xD8 || m == 0x01 || (decide (0xD0 ≤ m) && decide (m ≤ 0xD7))
  | none => false

/-- The start-of-frame test on `marker`. -/
def isSOF (marker : Option Nat) : Bool :=
  match marker with
  | some m =>
    (decide (0xC0 ≤ m) && decide (m ≤ 0xC3)) || (decide (0xC5 ≤ m) && decide (m ≤ 0xC7)) ||
    (decide (0xC9 ≤ m) && decide (m ≤ 0xCB)) || (decide (0xCD ≤ m) && decide (m ≤ 0xCF))
  | none => false

/-- The chain on `components` of the start-of-frame handler. -/
def componentsColorSpace (components : Option Nat) (current : ColorSpace) : ColorSpace :=
  if components = some 1 then .Grayscale
  else if components = some 3 then .RGB
  else if components = some 4 then .CMYK
  else current

/-- The two assignments the EXIF and Photoshop handlers end with: a value in `[1, 10000]` is
rounded into `dpiX` (resp. `dpiY`) and sets `dpiDetected`. -/
def applyDpi (x y : Option Dbl) (s : Decoded) : Decoded :=
  let s :=
    match x with
    | some v => if inDpiRange v then { s with dpiX := v.round, dpiDetected := true } else s
    | none => s
  match y with
  | some v => if inDpiRange v then { s with dpiY := v.round, dpiDetected := true } else s
  | none => s

/-- The two assignments the Photoshop handlers end with: the test is on the resolution as
stored, the value assigned is converted from centimetres when `hResUnit` is 2. -/
def applyPsDpi (hRes vRes : Dbl) (hResUnit : Int) (s : Decoded) : Decoded :=
  let s :=
    if inDpiRange hRes then
      { s with dpiX := if hResUnit = 2 then hRes.mul254.round else hRes.round
               dpiDetected := true }
    else s
  if inDpiRange vRes then
    { s with dpiY := if hResUnit = 2 then vRes.mul254.round else vRes.round
             dpiDetected := true }
  else s

/-- One step of a `while` loop over the Photoshop resources: the loop ends (`break`) or goes on
at a new `pos`. -/
inductive PsStep where
  | done (s : Decoded)
  | next (pos : Int)
deriving DecidableEq, Repr

/-- One step of the marker loop: the loop ends (`break`) or goes on at a new `offset`. -/
inductive WalkStep where
  | stop (s : Decoded)
  | next (offset : Int) (s : Decoded)
deriving DecidableEq, Repr

/-- The initial values of the local variables of `analyzeJPG`. -/
def jpgInit : Decoded :=
  { width := 0, height := 0, dpiX := 72, dpiY := 72, colorSpace := .RGB,
    hasICCProfile := false, iccProfile := none, dpiDetected := false }

/-- The initial values of the local variables of `analyzeTIFF`. -/
def tiffInit : TiffDecoded :=
  { width := 0, height := 0, dpiX := 72, dpiY := 72, colorSpace := .unknown,
    hasICCProfile := false, iccProfile := none, dpiDetected := false, resolutionUnit := 2 }

/-- The chain on the PhotometricInterpretation value of `analyzeTIFF`. -/
def photometricColorSpace (value : Int) (current : ColorSpace) : ColorSpace :=
  if value = 0 ∨ value = 1 then .Grayscale
  else if value = 2 then .RGB
  else if value = 5 then .CMYK
  else current

/-- The expression `denominator > 0 ? Math.round(numerator / denominator) : 72`. -/
def tiffDpi (numerator denominator : Int) : Int :=
  if denominator > 0 then (Dbl.div numerator denominator).round else 72

/-! ## The copy `src/src/analyzers.js` -/

namespace Src

/-- The closure `readUint16` of `analyzeTIFF` and of the EXIF handler: no bounds check. -/
def readUint16 (bytes : Bytes) (littleEndian : Bool) (pos : Int) : Int :=
  if littleEndian then le16 bytes pos else be16 bytes pos

/-- The closure `readUint32` of `analyzeTIFF` and of the EXIF handler: no bounds check, and the
result is a signed 32-bit integer. -/
def readUint32 (bytes : Bytes) (littleEndian : Bool) (pos : Int) : Int :=
  if littleEndian then le32 bytes pos else be32 bytes pos

/-- The body of the entry loop of `analyzeTIFF`, for entry `i`. -/
def tiffEntry (bytes : Bytes) (littleEndian : Bool) (ifdOffset : Int) (s : TiffDecoded)
    (i : Nat) : TiffDecoded :=
  let entryOffset := ifdOffset + 2 + (i : Int) * 12
  let tag := readUint16 bytes littleEndian entryOffset
  let type := readUint16 bytes littleEndian (entryOffset + 2)
  let count := readUint32 bytes littleEndian (entryOffset + 4)
  let s :=
    if tag = 256 then
      { s with width := if type = 3 then readUint16 bytes littleEndian (entryOffset + 8)
                        else readUint32 bytes littleEndian (entryOffset + 8) }
    else s
  let s :=
    if tag = 257 then
      { s with height := if type = 3 then readUint16 bytes littleEndian (entryOffset + 8)
                         else readUint32 bytes littleEndian (entryOffset + 8) }
    else s
  let s :=
    if tag = 282 then
      let valueOffset := readUint32 bytes littleEndian (entryOffset + 8)
      let numerator := readUint32 bytes littleEndian valueOffset
      let denominator := readUint32 bytes littleEndian (valueOffset + 4)
      { s with dpiX := tiffDpi numerator denominator, dpiDetected := true }
    else s
  let s :=
    if tag = 283 then
      let valueOffset := readUint32 bytes littleEndian (entryOffset + 8)
      let numerator := readUint32 bytes littleEndian valueOffset
      let denominator := readUint32 bytes littleEndian (valueOffset + 4)
      { s with dpiY := tiffDpi numerator denominator, dpiDetected := true }
    else s
  let s :=
    if tag = 296 then { s with resolutionUnit := readUint16 bytes littleEndian (entryOffset + 8) }
    else s
  let s :=
    if tag = 262 then
      { s with colorSpace :=
          photometricColorSpace (readUint16 bytes littleEndian (entryOffset + 8)) s.colorSpace }
    else s
  if tag = 34675 then
    let profileOffset := readUint32 bytes littleEndian (entryOffset + 8)
    let profileData := jsSlice bytes profileOffset (profileOffset + min count 500)
    { s with hasICCProfile := true
             iccProfile := (tiffProfileName profileData).orElse (fun _ => s.iccProfile) }
  else s

/-- The function `analyzeTIFF` of `src/src/analyzers.js`. -/
def analyzeTIFF (bytes : Bytes) : Outcome RasterReport :=
  let byteOrder := be16 bytes 0
  let littleEndian := decide (byteOrder = 0x4949)
  let magic := readUint16 bytes littleEndian 2
  if magic ≠ 42 then .threw "Archivo TIFF inválido"
  else
    let ifdOffset := readUint32 bytes littleEndian 4
    let numEntries := readUint16 bytes littleEndian ifdOffset
    let s := (List.range numEntries.toNat).foldl (tiffEntry bytes littleEndian ifdOffset) tiffInit
    .returned (tiffReport s)

/-- The keyword chain of the APP2 handler. -/
def jpgProfileName (profileData : Bytes) : Option String :=
  if includes profileData "ISONewspaper" || includes profileData "ISOnewspaper" then
    some "ISONewspaper"
  else if includes profileData "Eurostandard" || includes profileData "EuroStandard" then
    some "Euroestándar"
  else if includes profileData "sRGB" then some "sRGB"
  else if includes profileData "AdobeRGB" || includes profileData "Adobe RGB" then
    some "Adobe RGB"
  else if includes profileData "CMYK" then some "CMYK Profile"
  else none

/-- The APP0 (JFIF) handler. -/
def app0 (bytes : Bytes) (offset : Int) (s : Decoded) : Decoded :=
  if sigAt bytes (offset + 4) (ascii "JFIF") then
    let units := byteAt bytes (offset + 11)
    let dpiX := be16 bytes (offset + 12)
    let dpiY := be16 bytes (offset + 14)
    if units = some 1 then { s with dpiX := dpiX, dpiY := dpiY, dpiDetected := true }
    else if units = some 2 then
      { s with dpiX := (Dbl.ofInt dpiX).mul254.round, dpiY := (Dbl.ofInt dpiY).mul254.round,
               dpiDetected := true }
    else { s with dpiX := dpiX, dpiY := dpiY }
  else s

/-- The variables `exifDpiX`, `exifDpiY`, `exifResolutionUnit` of the EXIF handler. -/
structure ExifAcc where
  exifDpiX : Option Dbl
  exifDpiY : Option Dbl
  exifResolutionUnit : Int

/-- The body of the entry loop of the EXIF handler, for entry `i`. -/
def exifEntry (bytes : Bytes) (littleEndian : Bool) (tiffOffset ifdOffset : Int) (a : ExifAcc)
    (i : Nat) : ExifAcc :=
  let entryOffset := tiffOffset + ifdOffset + 2 + (i : Int) * 12
  let tag := readUint16 bytes littleEndian entryOffset
  if tag = 296 then
    { a with exifResolutionUnit := readUint16 bytes littleEndian (entryOffset + 8) }
  else if tag = 282 ∨ tag = 283 then
    let valueOffset := readUint32 bytes littleEndian (entryOffset + 8)
    let numerator := readUint32 bytes littleEndian (tiffOffset + valueOffset)
    let denominator := readUint32 bytes littleEndian (tiffOffset + valueOffset + 4)
    if denominator > 0 ∧ numerator > 0 then
      let resolution := Dbl.div numerator denominator
      if tag = 282 then { a with exifDpiX := some resolution }
      else { a with exifDpiY := some resolution }
    else a
  else a

/-- The APP1 (EXIF) handler. -/
def app1 (bytes : Bytes) (offset : Int) (s : Decoded) : Decoded :=
  if sigAt bytes (offset + 4) (ascii "Exif") then
    let tiffOffset := offset + 10
    let byteOrder := be16 bytes tiffOffset
    let littleEndian := decide (byteOrder = 0x4949)
    let ifdOffset := readUint32 bytes littleEndian (tiffOffset + 4)
    let numEntries := readUint16 bytes littleEndian (tiffOffset + ifdOffset)
    let a := (List.range numEntries.toNat).foldl
      (exifEntry bytes littleEndian tiffOffset ifdOffset)
      { exifDpiX := none, exifDpiY := none, exifResolutionUnit := 2 }
    if a.exifDpiX.isSome || a.exifDpiY.isSome then
      let x := if a.exifResolutionUnit = 3 then a.exifDpiX.map Dbl.mul254 else a.exifDpiX
      let y := if a.exifResolutionUnit = 3 then a.exifDpiY.map Dbl.mul254 else a.exifDpiY
      if !s.dpiDetected then applyDpi x y s else s
    else s
  else s

/-- The APP2 (ICC profile) handler. -/
def app2 (bytes : Bytes) (offset segmentLength : Int) (s : Decoded) : Decoded :=
  if sigAt bytes (offset + 4) (ascii "ICC_PROF") then
    let profileData := jsSlice bytes (offset + 18) (offset + 2 + segmentLength)
    { s with hasICCProfile := true
             iccProfile := (jpgProfileName profileData).orElse (fun _ => s.iccProfile) }
  else s

/-- The expression `nameLen + (nameLen % 2 === 0 ? 1 : 0) + 1`. -/
def paddedNameLen (nameLen : Int) : Int :=
  nameLen + (if Int.emod nameLen 2 = 0 then 1 else 0) + 1

/-- The body of the `while` loop over the 8BIM resources of `segmentData`, at `pos`. -/
def psStep (segmentData : Bytes) (s : Decoded) (pos : Int) : PsStep :=
  if byteAt segmentData pos = some 0x38 ∧ byteAt segmentData (pos + 1) = some 0x42 ∧
      byteAt segmentData (pos + 2) = some 0x49 ∧ byteAt segmentData (pos + 3) = some 0x4D then
    let resourceId := be16 segmentData (pos + 4)
    if resourceId = 0x03ED then
      let nameLen := u8 segmentData (pos + 6)
      let dataStart := pos + 6 + paddedNameLen nameLen
      if dataStart + 8 ≤ segmentData.length then
        let hRes := Dbl.div (be32 segmentData (dataStart + 4)) 65536
        let hResUnit := be16 segmentData (dataStart + 8)
        if dataStart + 14 ≤ segmentData.length then
          let vRes := Dbl.div (be32 segmentData (dataStart + 10)) 65536
          .done (applyPsDpi hRes vRes hResUnit s)
        else .done s
      else .done s
    else
      let nLen := u8 segmentData (pos + 6)
      let dStart := pos + 6 + paddedNameLen nLen
      if dStart + 4 > segmentData.length then .done s
      else
        let dSize := be32 segmentData dStart
        let padding := jsRem2 dSize
        .next (dStart + 4 + dSize + padding)
  else .next (pos + 1)

/-- The `while (pos < segmentData.length - 12)` loop over the 8BIM resources, on fuel. -/
def psLoop : Nat → Bytes → Decoded → Int → Option Decoded
  | 0, _, _, _ => none
  | fuel + 1, segmentData, s, pos =>
    if pos < (segmentData.length : Int) - 12 then
      match psStep segmentData s pos with
      | .done s1 => some s1
      | .next pos1 => psLoop fuel segmentData s pos1
    else some s

/-- The APP13 (Photoshop) handler; `none` when the resource loop runs out of fuel. -/
def app13 (fuel : Nat) (bytes : Bytes) (offset segmentLength : Int) (s : Decoded) :
    Option Decoded :=
  if sigAt bytes (offset + 4) (ascii "Photoshop") then
    psLoop fuel (jsSlice bytes (offset + 4) (offset + 2 + segmentLength)) s 0
  else some s

/-- The start-of-frame handler. -/
def sof (bytes : Bytes) (offset : Int) (s : Decoded) : Decoded :=
  { s with height := be16 bytes (offset + 5)
           width := be16 bytes (offset + 7)
           colorSpace := componentsColorSpace (byteAt bytes (offset + 9)) s.colorSpace }

/-- The body of the marker loop at `offset`; `inner` is the fuel of the resource loop. -/
def walkStep (inner : Nat) (bytes : Bytes) (offset : Int) (s : Decoded) : Option WalkStep :=
  if byteAt bytes offset ≠ some 0xFF then some (.next (offset + 1) s)
  else
    let marker := byteAt bytes (offset + 1)
    if marker = some 0xD9 then some (.stop s)
    else if isStandalone marker then some (.next (offset + 2) s)
    else
      let segmentLength := be16 bytes (offset + 2)
      let s := if marker = some 0xE0 then app0 bytes offset s else s
      let s := if marker = some 0xE1 then app1 bytes offset s else s
      let s := if marker = some 0xE2 then app2 bytes offset segmentLength s else s
      let r :=
        if marker = some 0xED ∧ s.dpiDetected = false then app13 inner bytes offset segmentLength s
        else some s
      match r with
      | none => none
      | some s =>
        let s := if isSOF marker then sof bytes offset s else s
        some (.next (offset + 2 + segmentLength) s)

/-- The `while (offset < bytes.length - 1)` marker loop, on fuel. -/
def walk (inner : Nat) : Nat → Bytes → Int → Decoded → Option Decoded
  | 0, _, _, _ => none
  | fuel + 1, bytes, offset, s =>
    if offset < (bytes.length : Int) - 1 then
      match walkStep inner bytes offset s with
      | none => none
      | some (.stop s1) => some s1
      | some (.next offset1 s1) => walk inner fuel bytes offset1 s1
    else some s

/-- The function `analyzeJPG` of `src/src/analyzers.js`; every loop may take `fuel`
iterations. -/
def analyzeJPG (fuel : Nat) (bytes : Bytes) : Outcome RasterReport :=
  if byteAt bytes 0 ≠ some 0xFF ∨ byteAt bytes 1 ≠ some 0xD8 then .threw "Archivo JPG inválido"
  else
    match walk fuel fuel bytes 2 jpgInit with
    | none => .outOfFuel
    | some s => .returned (jpgReport s)

end Src

/-! ## The copy `src/docs/analyzers.js` -/

namespace Docs

/-- The closure `readUint16` of `analyzeTIFF`, and `readU16` of the EXIF handler: 0 when the two
bytes do not end inside the buffer. -/
def readUint16 (bytes : Bytes) (littleEndian : Bool) (pos : Int) : Int :=
  if pos + 1 ≥ bytes.length then 0
  else if littleEndian then le16 bytes pos else be16 bytes pos

/-- The closure `readUint32` of `analyzeTIFF`: 0 when the four bytes do not end inside the
buffer; the result is a signed 32-bit integer. -/
def readUint32 (bytes : Bytes) (littleEndian : Bool) (pos : Int) : Int :=
  if pos + 3 ≥ bytes.length then 0
  else if littleEndian then le32 bytes pos else be32 bytes pos

/-- The closure `readU32` of the EXIF handler: as `readUint32`, made unsigned by `>>> 0`. -/
def readU32 (bytes : Bytes) (littleEndian : Bool) (pos : Int) : Int :=
  if pos + 3 ≥ bytes.length then 0
  else toUint32 (if littleEndian then le32 bytes pos else be32 bytes pos)

/-- The body of the entry loop of `analyzeTIFF` after the `break` test, for the entry at
`entryOffset`. -/
def tiffEntry (bytes : Bytes) (littleEndian : Bool) (entryOffset : Int) (s : TiffDecoded) :
    TiffDecoded :=
  let tag := readUint16 bytes littleEndian entryOffset
  let type := readUint16 bytes littleEndian (entryOffset + 2)
  let count := readUint32 bytes littleEndian (entryOffset + 4)
  let s :=
    if tag = 256 then
      { s with width := if type = 3 then readUint16 bytes littleEndian (entryOffset + 8)
                        else readUint32 bytes littleEndian (entryOffset + 8) }
    else s
  let s :=
    if tag = 257 then
      { s with height := if type = 3 then readUint16 bytes littleEndian (entryOffset + 8)
                         else readUint32 bytes littleEndian (entryOffset + 8) }
    else s
  let s :=
    if tag = 282 then
      let valueOffset := readUint32 bytes littleEndian (entryOffset + 8)
      if valueOffset + 8 ≤ bytes.length then
        let numerator := readUint32 bytes littleEndian valueOffset
        let denominator := readUint32 bytes littleEndian (valueOffset + 4)
        { s with dpiX := tiffDpi numerator denominator, dpiDetected := true }
      else s
    else s
  let s :=
    if tag = 283 then
      let valueOffset := readUint32 bytes littleEndian (entryOffset + 8)
      if valueOffset + 8 ≤ bytes.length then
        let numerator := readUint32 bytes littleEndian valueOffset
        let denominator := readUint32 bytes littleEndian (valueOffset + 4)
        { s with dpiY := tiffDpi numerator denominator, dpiDetected := true }
      else s
    else s
  let s :=
    if tag = 296 then { s with resolutionUnit := readUint16 bytes littleEndian (entryOffset + 8) }
    else s
  let s :=
    if tag = 262 then
      { s with colorSpace :=
          photometricColorSpace (readUint16 bytes littleEndian (entryOffset + 8)) s.colorSpace }
    else s
  if tag = 34675 then
    let profileOffset := readUint32 bytes littleEndian (entryOffset + 8)
    let profileEnd := min (min (profileOffset + count) (profileOffset + 500)) (bytes.length : Int)
    let profileData := jsSlice bytes profileOffset profileEnd
    { s with hasICCProfile := true
             iccProfile := (tiffProfileName profileData).orElse (fun _ => s.iccProfile) }
  else s

/-- The loop `for (let i = 0; i < numEntries && i < 100; i++)` of `analyzeTIFF`, with
`remaining` iterations left before the bound on `i` is hit. -/
def tiffEntries (bytes : Bytes) (littleEndian : Bool) (ifdOffset : Int) :
    Nat → Nat → TiffDecoded → TiffDecoded
  | 0, _, s => s
  | remaining + 1, i, s =>
    let entryOffset := ifdOffset + 2 + (i : Int) * 12
    if entryOffset + 12 > bytes.length then s
    else tiffEntries bytes littleEndian ifdOffset remaining (i + 1)
      (tiffEntry bytes littleEndian entryOffset s)

/-- The function `analyzeTIFF` of `src/docs/analyzers.js`. -/
def analyzeTIFF (bytes : Bytes) : Outcome RasterReport :=
  let byteOrder := be16 bytes 0
  let littleEndian := decide (byteOrder = 0x4949)
  let magic := readUint16 bytes littleEndian 2
  if magic ≠ 42 then .threw "Archivo TIFF inválido"
  else
    let ifdOffset := readUint32 bytes littleEndian 4
    let numEntries := readUint16 bytes littleEndian ifdOffset
    let s := tiffEntries bytes littleEndian ifdOffset (min numEntries.toNat 100) 0 tiffInit
    .returned (tiffReport s)

/-- The keyword chain of the APP2 handler. -/
def jpgProfileName (profileData : Bytes) : Option String :=
  if includes profileData "ISONewspaper" || includes profileData "ISOnewspaper" then
    some "ISONewspaper"
  else if includes profileData "Eurostandard" || includes profileData "EuroStandard" then
    some "Euroestándar"
  else if includes profileData "sRGB" then some "sRGB"
  else if includes profileData "AdobeRGB" || includes profileData "Adobe RGB" then
    some "Adobe RGB"
  else if includes profileData "Display P3" then some "Display P3"
  else if includes profileData "CMYK" then some "CMYK Profile"
  else none

/-- The loop `while (offset < bytes.length - 1 && bytes[offset + 1] === 0xFF) offset++`,
on fuel: the offset it stops at. -/
def skipFill : Nat → Bytes → Int → Option Int
  | 0, _, _ => none
  | fuel + 1, bytes, offset =>
    if offset < (bytes.length : Int) - 1 ∧ byteAt bytes (offset + 1) = some 0xFF then
      skipFill fuel bytes (offset + 1)
    else some offset

/-- The APP0 (JFIF) handler, after the test on `marker` and on the segment size. -/
def app0 (bytes : Bytes) (segmentStart : Int) (s : Decoded) : Decoded :=
  if sigAt bytes segmentStart (ascii "JFIF" ++ [0]) then
    let units := byteAt bytes (segmentStart + 7)
    let densityX := be16 bytes (segmentStart + 8)
    let densityY := be16 bytes (segmentStart + 10)
    if units = some 1 ∧ densityX > 0 ∧ densityX ≤ 10000 then
      { s with dpiX := densityX, dpiY := if densityY > 0 then densityY else densityX,
               dpiDetected := true }
    else if units = some 2 ∧ densityX > 0 ∧ densityX ≤ 10000 then
      { s with dpiX := (Dbl.ofInt densityX).mul254.round
               dpiY := (Dbl.ofInt (if densityY > 0 then densityY else densityX)).mul254.round
               dpiDetected := true }
    else s
  else s

/-- The variables `exifDpiX`, `exifDpiY`, `exifResUnit` of the EXIF handler. -/
structure ExifAcc where
  exifDpiX : Option Dbl
  exifDpiY : Option Dbl
  exifResUnit : Int

/-- The body of the entry loop of the EXIF handler after the `break` test, for the entry at
`entryPos`. -/
def exifEntry (bytes : Bytes) (littleEndian : Bool) (tiffStart segmentEnd entryPos : Int)
    (a : ExifAcc) : ExifAcc :=
  let tag := readUint16 bytes littleEndian entryPos
  let type := readUint16 bytes littleEndian (entryPos + 2)
  let count := readU32 bytes littleEndian (entryPos + 4)
  let a :=
    if tag = 296 ∧ type = 3 then
      { a with exifResUnit := readUint16 bytes littleEndian (entryPos + 8) }
    else a
  if (tag = 282 ∨ tag = 283) ∧ type = 5 ∧ count = 1 then
    let valueOffsetRel := readU32 bytes littleEndian (entryPos + 8)
    let valuePos := tiffStart + valueOffsetRel
    if valuePos + 8 ≤ segmentEnd ∧ valueOffsetRel < 65536 then
      let numerator := readU32 bytes littleEndian valuePos
      let denominator := readU32 bytes littleEndian (valuePos + 4)
      if denominator > 0 ∧ numerator > 0 then
        let res := Dbl.div numerator denominator
        if inDpiRange res then
          if tag = 282 then { a with exifDpiX := some res } else { a with exifDpiY := some res }
        else a
      else a
    else a
  else a

/-- The loop `for (let i = 0; i < numEntries; i++)` of the EXIF handler, with `remaining`
iterations left. -/
def exifEntries (bytes : Bytes) (littleEndian : Bool) (tiffStart segmentEnd ifdOffset : Int) :
    Nat → Nat → ExifAcc → ExifAcc
  | 0, _, a => a
  | remaining + 1, i, a =>
    let entryPos := ifdOffset + 2 + (i : Int) * 12
    if entryPos + 12 > segmentEnd then a
    else exifEntries bytes littleEndian tiffStart segmentEnd ifdOffset remaining (i + 1)
      (exifEntry bytes littleEndian tiffStart segmentEnd entryPos a)

/-- The EXIF handler up to its two final assignments: the values of `exifDpiX` and `exifDpiY`
there (after the conversion from centimetres), `none` for `null`, and both `none` when one of
the enclosing tests fails. -/
def exifDpi (bytes : Bytes) (segmentStart segmentEnd : Int) : Option Dbl × Option Dbl :=
  if sigAt bytes segmentStart (ascii "Exif" ++ [0, 0]) then
    let tiffStart := segmentStart + 6
    if tiffStart + 8 < segmentEnd then
      let byteOrderMark := be16 bytes tiffStart
      let littleEndian := decide (byteOrderMark = 0x4949)
      let bigEndian := decide (byteOrderMark = 0x4D4D)
      if littleEndian || bigEndian then
        let magic := readUint16 bytes littleEndian (tiffStart + 2)
        if magic = 42 then
          let ifdOffsetRel := readU32 bytes littleEndian (tiffStart + 4)
          let ifdOffset := tiffStart + ifdOffsetRel
          if ifdOffset + 2 < segmentEnd ∧ ifdOffsetRel < 65536 then
            let numEntries := readUint16 bytes littleEndian ifdOffset
            if numEntries > 0 ∧ numEntries < 200 then
              let a := exifEntries bytes littleEndian tiffStart segmentEnd ifdOffset
                numEntries.toNat 0 { exifDpiX := none, exifDpiY := none, exifResUnit := 2 }
              if a.exifDpiX.isSome || a.exifDpiY.isSome then
                (if a.exifResUnit = 3 then a.exifDpiX.map Dbl.mul254 else a.exifDpiX,
                 if a.exifResUnit = 3 then a.exifDpiY.map Dbl.mul254 else a.exifDpiY)
              else (none, none)
            else (none, none)
          else (none, none)
        else (none, none)
      else (none, none)
    else (none, none)
  else (none, none)

/-- The APP1 (EXIF) handler, after the test on `marker` and on the segment size: the two final
assignments, `if (exifDpiX !== null && exifDpiX >= 1 && exifDpiX <= 10000)` and the same for
`exifDpiY`, are made whatever was detected before. -/
def app1 (bytes : Bytes) (segmentStart segmentEnd : Int) (s : Decoded) : Decoded :=
  applyDpi (exifDpi bytes segmentStart segmentEnd).1 (exifDpi bytes segmentStart segmentEnd).2 s

/-- The APP2 (ICC profile) handler, after the test on `marker` and on the segment size. -/
def app2 (bytes : Bytes) (segmentStart segmentEnd : Int) (s : Decoded) : Decoded :=
  if sigAt bytes segmentStart (ascii "ICC_PROFILE" ++ [0]) then
    let profileData := jsSlice bytes (segmentStart + 14) segmentEnd
    { s with hasICCProfile := true
             iccProfile := (jpgProfileName profileData).orElse (fun _ => s.iccProfile) }
  else s

/-- The expression `(nameLen + 1 + 1) & ~1`, with `nameLen = bytes[pos + 6]` (`undefined` makes
the sum `NaN`, which `&` turns into 0). -/
def paddedNameLen (nameLen : Option Nat) : Int :=
  match nameLen with
  | some n => clearBit0 ((n : Int) + 1 + 1)
  | none => 0

/-- The body of the `while` loop over the 8BIM resources of the segment, at `pos`. -/
def psStep (bytes : Bytes) (segmentEnd : Int) (s : Decoded) (pos : Int) : PsStep :=
  if byteAt bytes pos ≠ some 0x38 ∨ byteAt bytes (pos + 1) ≠ some 0x42 ∨
      byteAt bytes (pos + 2) ≠ some 0x49 ∨ byteAt bytes (pos + 3) ≠ some 0x4D then
    .next (pos + 1)
  else
    let resourceId := be16 bytes (pos + 4)
    let dataSizePos := pos + 6 + paddedNameLen (byteAt bytes (pos + 6))
    if dataSizePos + 4 > segmentEnd then .done s
    else
      let dataSize := be32 bytes dataSizePos
      let dataPos := dataSizePos + 4
      if resourceId = 0x03ED ∧ dataPos + 16 ≤ segmentEnd then
        let hRes := Dbl.div (be32 bytes dataPos) 65536
        let hResUnit := be16 bytes (dataPos + 4)
        let vRes := Dbl.div (be32 bytes (dataPos + 8)) 65536
        .done (applyPsDpi hRes vRes hResUnit s)
      else
        let paddedDataSize := clearBit0 (dataSize + 1)
        .next (dataPos + paddedDataSize)

/-- The `while (pos + 12 < segmentEnd)` loop over the 8BIM resources, on fuel. -/
def psLoop : Nat → Bytes → Int → Decoded → Int → Option Decoded
  | 0, _, _, _, _ => none
  | fuel + 1, bytes, segmentEnd, s, pos =>
    if pos + 12 < segmentEnd then
      match psStep bytes segmentEnd s pos with
      | .done s1 => some s1
      | .next pos1 => psLoop fuel bytes segmentEnd s pos1
    else some s

/-- The APP13 (Photoshop) handler, after the test on `marker`, `dpiDetected` and the segment
size; `none` when the resource loop runs out of fuel. -/
def app13 (fuel : Nat) (bytes : Bytes) (segmentStart segmentEnd : Int) (s : Decoded) :
    Option Decoded :=
  if sigAt bytes segmentStart (ascii "Photoshop 3.0" ++ [0]) then
    psLoop fuel bytes segmentEnd s (segmentStart + 14)
  else some s

/-- The start-of-frame handler, after the test on `marker`. -/
def sof (bytes : Bytes) (segmentStart segmentEnd : Int) (s : Decoded) : Decoded :=
  if segmentEnd ≥ segmentStart + 6 then
    { s with height := be16 bytes (segmentStart + 1)
             width := be16 bytes (segmentStart + 3)
             colorSpace := componentsColorSpace (byteAt bytes (segmentStart + 5)) s.colorSpace }
  else s

/-- The body of the marker loop at `offset`; `inner` is the fuel of the two inner loops. -/
def walkStep (inner : Nat) (bytes : Bytes) (offset : Int) (s : Decoded) : Option WalkStep :=
  if byteAt bytes offset ≠ some 0xFF then some (.next (offset + 1) s)
  else
    match skipFill inner bytes offset with
    | none => none
    | some offset =>
      if offset ≥ (bytes.length : Int) - 1 then some (.stop s)
      else
        let marker := byteAt bytes (offset + 1)
        if marker = some 0xD9 then some (.stop s)
        else if isStandalone marker then some (.next (offset + 2) s)
        else if offset + 3 ≥ bytes.length then some (.stop s)
        else
          let segmentLength := be16 bytes (offset + 2)
          if segmentLength < 2 then some (.next (offset + 2) s)
          else
            let segmentStart := offset + 4
            let segmentEnd := min (offset + 2 + segmentLength) (bytes.length : Int)
            let s :=
              if marker = some 0xE0 ∧ segmentEnd ≥ segmentStart + 12 then
                app0 bytes segmentStart s
              else s
            let s :=
              if marker = some 0xE1 ∧ segmentEnd ≥ segmentStart + 8 then
                app1 bytes segmentStart segmentEnd s
              else s
            let s :=
              if marker = some 0xE2 ∧ segmentEnd ≥ segmentStart + 14 then
                app2 bytes segmentStart segmentEnd s
              else s
            let r :=
              if marker = some 0xED ∧ s.dpiDetected = false ∧ segmentEnd ≥ segmentStart + 14 then
                app13 inner bytes segmentStart segmentEnd s
              else some s
            match r with
            | none => none
            | some s =>
              let s := if isSOF marker then sof bytes segmentStart segmentEnd s else s
              some (.next (offset + 2 + segmentLength) s)

/-- The `while (offset < bytes.length - 1)` marker loop, on fuel. -/
def walk (inner : Nat) : Nat → Bytes → Int → Decoded → Option Decoded
  | 0, _, _, _ => none
  | fuel + 1, bytes, offset, s =>
    if offset < (bytes.length : Int) - 1 then
      match walkStep inner bytes offset s with
      | none => none
      | some (.stop s1) => some s1
      | some (.next offset1 s1) => walk inner fuel bytes offset1 s1
    else some s

/-- The function `analyzeJPG` of `src/docs/analyzers.js`; every loop may take `fuel`
iterations. -/
def analyzeJPG (fuel : Nat) (bytes : Bytes) : Outcome RasterReport :=
  if byteAt bytes 0 ≠ some 0xFF ∨ byteAt bytes 1 ≠ some 0xD8 then .threw "Archivo JPG inválido"
  else
    match walk fuel fuel bytes 2 jpgInit with
    | none => .outOfFuel
    | some s => .returned (jpgReport s)

end Docs

/-! ## Reports that the analyzers return, and sample files -/

/-- The report `r` is returned by `analyzeJPG`, in one of the two copies. -/
def JpgReturns (r : RasterReport) : Prop :=
  ∃ fuel bytes, Src.analyzeJPG fuel bytes = .returned r ∨ Docs.analyzeJPG fuel bytes = .returned r

/-- The report `r` is returned by `analyzeTIFF`, in one of the two copies. -/
def TiffReturns (r : RasterReport) : Prop :=
  ∃ bytes, Src.analyzeTIFF bytes = .returned r ∨ Docs.analyzeTIFF bytes = .returned r

/-- The report `r` is returned by one of the four analyzers. -/
def Returned (r : Report) : Prop :=
  (∃ text sizes, r = analyzePDF text sizes) ∨ (∃ text, r = analyzeEPS text) ∨
  (∃ rr, JpgReturns rr ∧ r = rr.toReport) ∨ (∃ rr, TiffReturns rr ∧ r = rr.toReport)

/-- The text contains `keyword`. -/
def Contains (text : Bytes) (keyword : String) : Prop :=
  ∃ s t, text.map (fun b => b.val) = s ++ ascii keyword ++ t

/-- A text as the bytes of its Latin-1 encoding. -/
def latin1 (s : String) : Bytes :=
  s.toList.map (fun c => Fin.ofNat c.toNat)

/-- A JPEG whose APP13 segment holds, after `Photoshop 3.0\0`, one 8BIM resource with id 0,
an empty name and the data size `FF FF FF F4`, which is -12 as a signed 32-bit integer. -/
def hangJpg : Bytes :=
  [0xFF, 0xD8, 0xFF, 0xED, 0x00, 0x1D,
   0x50, 0x68, 0x6F, 0x74, 0x6F, 0x73, 0x68, 0x6F, 0x70, 0x20, 0x33, 0x2E, 0x30, 0x00,
   0x38, 0x42, 0x49, 0x4D, 0x00, 0x00, 0x00, 0x00, 0xFF, 0xFF, 0xFF, 0xF4, 0x00, 0xFF, 0xD9]

/-- The smallest JPEG: SOI and EOI. -/
def emptyJpg : Bytes :=
  [0xFF, 0xD8, 0xFF, 0xD9]

/-- A buffer that starts with `XX`, not a byte-order mark, then the big-endian word 42, the
IFD offset 8 and an empty IFD. -/
def noMarkTiff : Bytes :=
  [0x58, 0x58, 0x00, 0x2A, 0x00, 0x00, 0x00, 0x08, 0x00, 0x00]

/-- The three bytes `II*`: the buffer ends inside the magic word. -/
def shortTiff : Bytes :=
  [0x49, 0x49, 0x2A]

/-- A little-endian TIFF: PhotometricInterpretation 5 (CMYK), X and Y resolution 300/1, and an
ICC profile entry whose four bytes of data are `sRGB`. -/
def cmykTiff : Bytes :=
  [0x49, 0x49, 0x2A, 0x00, 0x08, 0x00, 0x00, 0x00, 0x04, 0x00,
   0x06, 0x01, 0x03, 0x00, 0x01, 0x00, 0x00, 0x00, 0x05, 0x00, 0x00, 0x00,
   0x1A, 0x01, 0x05, 0x00, 0x01, 0x00, 0x00, 0x00, 0x3E, 0x00, 0x00, 0x00,
   0x1B, 0x01, 0x05, 0x00, 0x01, 0x00, 0x00, 0x00, 0x3E, 0x00, 0x00, 0x00,
   0x73, 0x87, 0x07, 0x00, 0x04, 0x00, 0x00, 0x00, 0x46, 0x00, 0x00, 0x00,
   0x00, 0x00, 0x00, 0x00,
   0x2C, 0x01, 0x00, 0x00, 0x01, 0x00, 0x00, 0x00,
   0x73, 0x52, 0x47, 0x42]

/-- A JPEG with the same attributes as `cmykTiff`: JFIF density 300 x 300 dots per inch, an
ICC profile segment whose data are `sRGB`, and a frame of 200 x 100 with 4 components. -/
def cmykJpg : Bytes :=
  [0xFF, 0xD8,
   0xFF, 0xE0, 0x00, 0x10, 0x4A, 0x46, 0x49, 0x46, 0x00, 0x01, 0x01, 0x01, 0x01, 0x2C, 0x01, 0x2C,
   0x00, 0x00,
   0xFF, 0xE2, 0x00, 0x14, 0x49, 0x43, 0x43, 0x5F, 0x50, 0x52, 0x4F, 0x46, 0x49, 0x4C, 0x45, 0x00,
   0x01, 0x01, 0x73, 0x52, 0x47, 0x42,
   0xFF, 0xC0, 0x00, 0x14, 0x08, 0x00, 0x64, 0x00, 0xC8, 0x04,
   0x01, 0x11, 0x00, 0x02, 0x11, 0x00, 0x03, 0x11, 0x00, 0x04, 0x11, 0x00,
   0xFF, 0xD9]

/-- A PDF text with an output intent and no colour-space keyword. -/
def outputIntentPdf : Bytes :=
  latin1 "/OutputIntent"

/-- A PDF text in RGB without a profile. -/
def rgbPdf : Bytes :=
  latin1 "/DeviceRGB"

/-- A PDF text in CMYK with an ISOnewspaper output intent. -/
def readyPdf : Bytes :=
  latin1 "/DeviceCMYK /OutputIntent ISOnewspaper"

/-- A PDF text in CMYK with an output intent whose profile name is none of the keywords. -/
def unnamedProfilePdf : Bytes :=
  latin1 "/DeviceCMYK /OutputIntent"

/-- The file `cmykJpg` with the profile data `XXXX`, which is none of the keywords. -/
def unnamedProfileJpg : Bytes :=
  [0xFF, 0xD8,
   0xFF, 0xE0, 0x00, 0x10, 0x4A, 0x46, 0x49, 0x46, 0x00, 0x01, 0x01, 0x01, 0x01, 0x2C, 0x01, 0x2C,
   0x00, 0x00,
   0xFF, 0xE2, 0x00, 0x14, 0x49, 0x43, 0x43, 0x5F, 0x50, 0x52, 0x4F, 0x46, 0x49, 0x4C, 0x45, 0x00,
   0x01, 0x01, 0x58, 0x58, 0x58, 0x58,
   0xFF, 0xC0, 0x00, 0x14, 0x08, 0x00, 0x64, 0x00, 0xC8, 0x04,
   0x01, 0x11, 0x00, 0x02, 0x11, 0x00, 0x03, 0x11, 0x00, 0x04, 0x11, 0x00,
   0xFF, 0xD9]

/-- A JPEG with a JFIF APP0 segment of unit `units` and densities `xHi xLo`, `yHi yLo`, and
nothing else. -/
def jfifJpg (units xHi xLo yHi yLo : Byte) : Bytes :=
  [0xFF, 0xD8,
   0xFF, 0xE0, 0x00, 0x10, 0x4A, 0x46, 0x49, 0x46, 0x00, 0x01, 0x01, units, xHi, xLo, yHi, yLo,
   0x00, 0x00,
   0xFF, 0xD9]

/-- A little-endian TIFF whose IFD holds the single entry `tag`, of type `type`, count 1 and
value bytes `v0 v1 v2 v3`. -/
def oneEntryTiff (tagLo tagHi type v0 v1 v2 v3 : Byte) : Bytes :=
  [0x49, 0x49, 0x2A, 0x00, 0x08, 0x00, 0x00, 0x00, 0x01, 0x00,
   tagLo, tagHi, type, 0x00, 0x01, 0x00, 0x00, 0x00, v0, v1, v2, v3,
   0x00, 0x00, 0x00, 0x00]

/-- A JPEG with a JFIF APP0 segment of 300 x 300 dots per inch followed by an APP1 Exif block
whose IFD holds XResolution = YResolution = 72/1. -/
def exifJpg : Bytes :=
  [0xFF, 0xD8,
   0xFF, 0xE0, 0x00, 0x10, 0x4A, 0x46, 0x49, 0x46, 0x00, 0x01, 0x01, 0x01, 0x01, 0x2C, 0x01, 0x2C,
   0x00, 0x00,
   0xFF, 0xE1, 0x00, 0x36, 0x45, 0x78, 0x69, 0x66, 0x00, 0x00,
   0x49, 0x49, 0x2A, 0x00, 0x08, 0x00, 0x00, 0x00, 0x02, 0x00,
   0x1A, 0x01, 0x05, 0x00, 0x01, 0x00, 0x00, 0x00, 0x26, 0x00, 0x00, 0x00,
   0x1B, 0x01, 0x05, 0x00, 0x01, 0x00, 0x00, 0x00, 0x26, 0x00, 0x00, 0x00,
   0x00, 0x00, 0x00, 0x00,
   0x48, 0x00, 0x00, 0x00, 0x01, 0x00, 0x00, 0x00,
   0xFF, 0xD9]

/-- The file `jfifJpg` for 300 x 300 dots per inch with one more `FF` before the APP0 marker. -/
def fillJpg : Bytes :=
  [0xFF, 0xD8, 0xFF,
   0xFF, 0xE0, 0x00, 0x10, 0x4A, 0x46, 0x49, 0x46, 0x00, 0x01, 0x01, 0x01, 0x01, 0x2C, 0x01, 0x2C,
   0x00, 0x00,
   0xFF, 0xD9]

/-- The report a call returns, if it returns one. -/
def Outcome.report? {α : Type} : Outcome α → Option α
  | .returned r => some r
  | .threw _ => none
  | .outOfFuel => none

/-- The state `analyzeJPG` decodes from `cmykJpg`. -/
def cmykState : Decoded :=
  { width := 200, height := 100, dpiX := 300, dpiY := 300, colorSpace := .CMYK,
    hasICCProfile := true, iccProfile := some "sRGB", dpiDetected := true }

/-- The high byte of a 16-bit number. -/
def hiByte (n : Nat) : Byte :=
  Fin.ofNat (n / 256)

/-- The low byte of a 16-bit number. -/
def loByte (n : Nat) : Byte :=
  Fin.ofNat (n % 256)

/-- The JPEG made of SOI, a JFIF APP0 segment (length 16, version 1.1, unit 1, X and Y density
`dHi dLo`, no thumbnail), an SOF0 segment (length 17, precision 8, height `hHi hLo`, width
`wHi wLo`, 3 components) and EOI. -/
def jfifSofBytes (dHi dLo hHi hLo wHi wLo : Byte) : Bytes :=
  [0xFF, 0xD8,
   0xFF, 0xE0, 0x00, 0x10, 0x4A, 0x46, 0x49, 0x46, 0x00, 0x01, 0x01, 0x01, dHi, dLo, dHi, dLo,
   0x00, 0x00,
   0xFF, 0xC0, 0x00, 0x11, 0x08, hHi, hLo, wHi, wLo, 0x03,
   0x01, 0x22, 0x00, 0x02, 0x11, 0x01, 0x03, 0x11, 0x01,
   0xFF, 0xD9]

/-- The file `jfifSofBytes` for the density `d`, the width `w` and the height `h`. -/
def jfifSofJpg (d w h : Nat) : Bytes :=
  jfifSofBytes (hiByte d) (loByte d) (hiByte h) (loByte h) (hiByte w) (loByte w)

/-! ## Numbers of the text analyzers -/

/-- A JavaScript number: a finite double, an infinity, or `NaN`.  Finite values are kept in lowest
terms (`Dbl.norm`), so equal numbers are equal terms; the sign of a zero is not kept (every
difference below goes through `Math.abs`). -/
inductive Number where
  | fin (x : Dbl)
  | inf (neg : Bool)
  | nan
deriving DecidableEq, Repr

/-- The dyadic rational `man / 2 ^ ex` in lowest terms. -/
def Dbl.norm : Int → Nat → Dbl
  | man, 0 => ⟨man, 0⟩
  | man, ex + 1 => if man % 2 = 0 then Dbl.norm (man / 2) ex else ⟨man, ex + 1⟩

/-- The value of a finite double. -/
def Dbl.toRat (x : Dbl) : ℚ :=
  x.man / 2 ^ x.ex

/-- The pair `(n1, d1)` with `n1 / d1 = n / d * 2 ^ e`. -/
def scale2 (n d : Nat) (e : Int) : Nat × Nat :=
  if 0 ≤ e then (n * 2 ^ e.toNat, d) else (n, d * 2 ^ (-e).toNat)

/-- The integer nearest to `n / d`, a tie going to the even one. -/
def roundHalfEven (n d : Nat) : Nat :=
  let q := n / d
  let r := n % d
  if decide (d < 2 * r) || (decide (2 * r = d) && decide (q % 2 = 1)) then q + 1 else q

/-- The double nearest to `n / d` (`0 < d`), ties to even: 53 significant bits, multiples of
`2 ^ (-1074)` below `2 ^ (-1022)`, and `none` (an infinity) when the rounded value reaches
`2 ^ 1024`. -/
def toDouble (n d : Nat) : Option Dbl :=
  if n = 0 then some ⟨0, 0⟩ else
  let e0 : Int := 53 + (bitLen d : Int) - (bitLen n : Int)
  let s0 := scale2 n d e0
  let e1 : Int := if s0.1 / s0.2 < 2 ^ 53 then e0 else e0 - 1
  let e : Int := min e1 1074
  let s := scale2 n d e
  let q := roundHalfEven s.1 s.2
  if 0 ≤ e then some (Dbl.norm q e.toNat)
  else if 2 ^ 1024 ≤ q * 2 ^ (-e).toNat then none
  else some ⟨q * 2 ^ (-e).toNat, 0⟩

namespace Number

/-- The number nearest to `n / d`, negated when `neg`. -/
def ofRatio (neg : Bool) (n d : Nat) : Number :=
  match toDouble n d with
  | some x => .fin (if neg then ⟨-x.man, x.ex⟩ else x)
  | none => .inf neg

def ofInt (n : Int) : Number :=
  ofRatio (decide (n < 0)) n.natAbs 1

/-- The difference `x - y`. -/
def sub : Number → Number → Number
  | .nan, _ => .nan
  | _, .nan => .nan
  | .inf a, .inf b => if a = b then .nan else .inf a
  | .inf a, .fin _ => .inf a
  | .fin _, .inf b => .inf (!b)
  | .fin x, .fin y =>
    let num : Int := x.man * 2 ^ y.ex - y.man * 2 ^ x.ex
    ofRatio (decide (num < 0)) num.natAbs (2 ^ (x.ex + y.ex))

/-- The call `Math.abs(x)`. -/
def abs : Number → Number
  | .nan => .nan
  | .inf _ => .inf false
  | .fin x => .fin ⟨x.man.natAbs, x.ex⟩

/-- The product `x * c` with a positive finite constant `c`. -/
def mul : Number → Dbl → Number
  | .nan, _ => .nan
  | .inf a, _ => .inf a
  | .fin x, c => ofRatio (decide (x.man < 0)) (x.man.natAbs * c.man.natAbs) (2 ^ (x.ex + c.ex))

/-- The call `Math.round(x)`: the nearest integer, a tie going up. -/
def round : Number → Number
  | .nan => .nan
  | .inf a => .inf a
  | .fin x => .fin ⟨x.round, 0⟩

/-- The quotient `x / k` with a positive integer constant `k`. -/
def divNat : Number → Nat → Number
  | .nan, _ => .nan
  | .inf a, _ => .inf a
  | .fin x, k => ofRatio (decide (x.man < 0)) x.man.natAbs (2 ^ x.ex * k)

end Number

/-- The expression `Math.round(x * 10) / 10`. -/
def round1 (x : Number) : Number :=
  ((x.mul (Dbl.ofInt 10)).round).divNat 10

/-- Points to millimetres, `Math.round(points * 0.352778 * 10) / 10`; the literal `0.352778` is
the double `6355083477378035 / 2 ^ 54`. -/
def pointsToMm (points : Number) : Number :=
  round1 (points.mul ⟨6355083477378035, 54⟩)

/-! ## Regular expressions and number parsing -/

/-- The class `\d`. -/
def isDigit (c : Nat) : Bool :=
  decide (48 ≤ c) && decide (c ≤ 57)

/-- The class `\s` on Latin-1 text: tab, line feed, vertical tab, form feed, carriage return,
space and no-break space. -/
def isSpace (c : Nat) : Bool :=
  (decide (9 ≤ c) && decide (c ≤ 13)) || c == 32 || c == 160

/-- The class `[\d.-]`. -/
def isNumChar (c : Nat) : Bool :=
  isDigit c || c == 46 || c == 45

/-- An item of a regular expression without alternatives: a literal text, a character class
repeated from `lo` to `hi` times (`none`: no upper bound) greedily, or a parenthesis of a capture
group (groups are not nested). -/
inductive Item where
  | lit (s : List Nat)
  | rep (p : Nat → Bool) (lo : Nat) (hi : Option Nat)
  | openGroup
  | closeGroup

/-- The first `k` in `lo..hi`, from `hi` downwards, at which `f` succeeds: the backtracking of a
greedy quantifier. -/
def tryLengths {α : Type} (f : Nat → Option α) (lo : Nat) : Nat → Option α
  | 0 => if lo = 0 then f 0 else none
  | hi + 1 =>
    if hi + 1 < lo then none
    else match f (hi + 1) with
      | some r => some r
      | none => tryLengths f lo hi

/-- Matches the items at the start of `input`, with backtracking; `groupStart` is the input at the
last `(`.  Gives the captured groups and the input left after the match. -/
def matchItems : List Item → List Nat → List Nat → List (List Nat) →
    Option (List (List Nat) × List Nat)
  | [], input, _, caps => some (caps, input)
  | .lit s :: items, input, groupStart, caps =>
    if startsWithCodes input s then matchItems items (input.drop s.length) groupStart caps
    else none
  | .rep p lo hi :: items, input, groupStart, caps =>
    let run := (input.takeWhile p).length
    let most := match hi with
      | some h => min h run
      | none => run
    tryLengths (fun k => matchItems items (input.drop k) groupStart caps) lo most
  | .openGroup :: items, input, _, caps => matchItems items input input caps
  | .closeGroup :: items, input, groupStart, caps =>
    matchItems items input groupStart
      (caps ++ [groupStart.take (groupStart.length - input.length)])

/-- A match: the captured groups, the matched text and the input after it. -/
structure Match where
  groups : List (List Nat)
  text : List Nat
  rest : List Nat
deriving DecidableEq, Repr

/-- The call `text.match(re)` without the `g` flag: the leftmost match, `none` for `null`. -/
def regexMatch (items : List Item) : List Nat → Option Match
  | [] =>
    (matchItems items [] [] []).map (fun r => ⟨r.1, [], r.2⟩)
  | c :: cs =>
    match matchItems items (c :: cs) (c :: cs) [] with
    | some r => some ⟨r.1, (c :: cs).take ((c :: cs).length - r.2.length), r.2⟩
    | none => regexMatch items cs

/-- The matched texts from `input` on, each search starting where the last match ended (the
expressions used here match no empty text). -/
def matchAllFrom (items : List Item) : Nat → List Nat → List (List Nat)
  | 0, _ => []
  | fuel + 1, input =>
    match regexMatch items input with
    | none => []
    | some m => m.text :: matchAllFrom items fuel m.rest

/-- The call `text.match(re)` with the `g` flag: all matched texts, `[]` for `null`. -/
def matchAll (items : List Item) (text : List Nat) : List (List Nat) :=
  matchAllFrom items text.length text

def digitPlus : Item := .rep isDigit 1 none
def digitStar : Item := .rep isDigit 0 none
def spacePlus : Item := .rep isSpace 1 none
def spaceStar : Item := .rep isSpace 0 none

/-- The group `([\d.-]+)`. -/
def numGroup : List Item :=
  [.openGroup, .rep isNumChar 1 none, .closeGroup]

/-- The group `(-?\d+)`. -/
def intGroup : List Item :=
  [.openGroup, .rep (fun c => c == 45) 0 (some 1), digitPlus, .closeGroup]

/-- The expression `/(\d+\.?\d*)/`. -/
def numberRe : List Item :=
  [.openGroup, digitPlus, .rep (fun c => c == 46) 0 (some 1), digitStar, .closeGroup]

/-- The expression `/(\d+\.?\d*)\s+Tf/g`. -/
def tfRe : List Item :=
  numberRe ++ [spacePlus, .lit (ascii "Tf")]

/-- The expression `/\/FontSize\s+(\d+\.?\d*)/g`. -/
def fontSizeRe : List Item :=
  [.lit (ascii "/FontSize"), spacePlus] ++ numberRe

/-- The expression `/\/MediaBox\s*\[\s*([\d.-]+)\s+([\d.-]+)\s+([\d.-]+)\s+([\d.-]+)\s*\]/`. -/
def mediaBoxRe : List Item :=
  [.lit (ascii "/MediaBox"), spaceStar, .lit (ascii "["), spaceStar] ++ numGroup ++ [spacePlus]
    ++ numGroup ++ [spacePlus] ++ numGroup ++ [spacePlus] ++ numGroup
    ++ [spaceStar, .lit (ascii "]")]

/-- The expression `/%%BoundingBox:\s*(-?\d+)\s+(-?\d+)\s+(-?\d+)\s+(-?\d+)/`. -/
def boundingBoxRe : List Item :=
  [.lit (ascii "%%BoundingBox:"), spaceStar] ++ intGroup ++ [spacePlus] ++ intGroup
    ++ [spacePlus] ++ intGroup ++ [spacePlus] ++ intGroup

/-- The expression
`/%%HiResBoundingBox:\s*([\d.-]+)\s+([\d.-]+)\s+([\d.-]+)\s+([\d.-]+)/`. -/
def hiResBoundingBoxRe : List Item :=
  [.lit (ascii "%%HiResBoundingBox:"), spaceStar] ++ numGroup ++ [spacePlus] ++ numGroup
    ++ [spacePlus] ++ numGroup ++ [spacePlus] ++ numGroup

/-- The number written by a run of decimal digits. -/
def digitsValue (digits : List Nat) : Nat :=
  digits.foldl (fun v c => 10 * v + (c - 48)) 0

/-- The call `parseFloat(s)` on a text of digits, `.` and `-` (what the groups above capture): an
optional `-`, digits, and a `.` with digits after it; the longest such prefix counts, and `NaN`
comes when it has no digit. -/
def parseFloat (s : List Nat) : Number :=
  let neg := s.head? == some 45
  let body := if neg then s.drop 1 else s
  let int := body.takeWhile isDigit
  let afterInt := body.drop int.length
  let frac := if afterInt.head? == some 46 then (afterInt.drop 1).takeWhile isDigit else []
  if int.isEmpty && frac.isEmpty then .nan
  else Number.ofRatio neg (digitsValue (int ++ frac)) (10 ^ frac.length)

/-- The call `parseInt(s)` on a text of an optional `-` and digits. -/
def parseInt (s : List Nat) : Number :=
  let neg := s.head? == some 45
  let body := if neg then s.drop 1 else s
  let digits := body.takeWhile isDigit
  if digits.isEmpty then .nan else Number.ofRatio neg (digitsValue digits) 1

/-! ## The text analyzers on a buffer -/

/-- The report of `analyzePDF` and of `analyzeEPS` with `dimensions.width` and
`dimensions.height` (millimetres) and, for a PDF, `textReadability.minFontSize` (`none` for
`null`, and for an EPS, which has no such field). -/
structure DocReport extends Report where
  width : Number
  height : Number
  unit : String
  minFontSize : Option Number

/-- The page size of `analyzePDF` in points, `(width, height)`: from the groups of the first
MediaBox match, 595 x 842 without one. -/
def pdfPoints (text : List Nat) : Number × Number :=
  match regexMatch mediaBoxRe text with
  | some mediaBoxMatch =>
    let g := fun i => parseFloat (mediaBoxMatch.groups.getD i [])
    (((g 2).sub (g 0)).abs, ((g 3).sub (g 1)).abs)
  | none => (.fin (Dbl.ofInt 595), .fin (Dbl.ofInt 842))

/-- The numbers `size` of `analyzePDF`: `parseFloat` of the number found in each match of the `Tf`
expression, then of the `/FontSize` expression.  Each match holds a number, so the inner `match`
never gives `null`; an infinite `size` never passes `size < 200` and is left out here. -/
def parsedSizes (text : List Nat) : List Dbl :=
  (matchAll tfRe text ++ matchAll fontSizeRe text).filterMap (fun m =>
    match regexMatch numberRe m with
    | some inner =>
      match parseFloat (inner.groups.getD 0 []) with
      | .fin size => some size
      | _ => none
    | none => none)

/-- The array `fontSizes` of `analyzePDF` on the text of the buffer: the parsed sizes in
`(0, 200)`. -/
def fontSizes (text : Bytes) : List Dbl :=
  (parsedSizes (text.map (fun b => b.val))).filter
    (fun size => Dbl.lt (Dbl.ofInt 0) size && Dbl.lt size (Dbl.ofInt 200))

/-- The field `textReadability.minFontSize` of `analyzePDF`: `Math.round(minSize * 10) / 10` when
`fontSizes` is not empty.  `sizes` is as in `pdfTextReadability`. -/
def pdfMinFontSize (sizes : List Dbl) : Option Number :=
  let fontSizes := sizes.filter (fun size => Dbl.lt (Dbl.ofInt 0) size && Dbl.lt size (Dbl.ofInt 200))
  match fontSizes with
  | [] => none
  | first :: rest => some (round1 (.fin (minSize first rest)))

/-- The whole of `analyzePDF` on the text of the buffer. -/
def pdfReport (text : Bytes) : DocReport :=
  let codes := text.map (fun b => b.val)
  let points := pdfPoints codes
  let sizes := parsedSizes codes
  { toReport := analyzePDF text sizes
    width := pointsToMm points.1
    height := pointsToMm points.2
    unit := "mm"
    minFontSize := pdfMinFontSize sizes }

/-- The box size of `analyzeEPS` in points, `(width, height)`: 0 x 0, replaced by the integers of
the first `%%BoundingBox:` match, replaced by the numbers of the first `%%HiResBoundingBox:`
match. -/
def epsPoints (text : List Nat) : Number × Number :=
  let box : Number × Number :=
    match regexMatch boundingBoxRe text with
    | some bbMatch =>
      let g := fun i => parseInt (bbMatch.groups.getD i [])
      (((g 2).sub (g 0)).abs, ((g 3).sub (g 1)).abs)
    | none => (.fin (Dbl.ofInt 0), .fin (Dbl.ofInt 0))
  match regexMatch hiResBoundingBoxRe text with
  | some hrbbMatch =>
    let g := fun i => parseFloat (hrbbMatch.groups.getD i [])
    (((g 2).sub (g 0)).abs, ((g 3).sub (g 1)).abs)
  | none => box

/-- The whole of `analyzeEPS` on the text of the buffer. -/
def epsReport (text : Bytes) : DocReport :=
  let points := epsPoints (text.map (fun b => b.val))
  { toReport := analyzeEPS text
    width := pointsToMm points.1
    height := pointsToMm points.2
    unit := "mm"
    minFontSize := none }

namespace Src

/-- The function `analyzePDF` of `src/src/analyzers.js`; the text is
`bytes.toString('latin1')`, whose char codes are the bytes. -/
def analyzePDF (bytes : Bytes) : DocReport :=
  pdfReport bytes

/-- The function `analyzeEPS` of `src/src/analyzers.js`. -/
def analyzeEPS (bytes : Bytes) : DocReport :=
  epsReport bytes

end Src

namespace Docs

/-- The function `bytesToString`: the char codes of the result are the bytes of the slice. -/
def bytesToString (bytes : Bytes) (start stop : Int) : Bytes :=
  jsSlice bytes start stop

/-- The function `analyzePDF` of `src/docs/analyzers.js`. -/
def analyzePDF (bytes : Bytes) : DocReport :=
  pdfReport (bytesToString bytes 0 bytes.length)

/-- The function `analyzeEPS` of `src/docs/analyzers.js`. -/
def analyzeEPS (bytes : Bytes) : DocReport :=
  epsReport (bytesToString bytes 0 bytes.length)

end Docs

/-! ## The handler `analyze-file` of main.js -/

/-- The library calls of the handler: `fs.readFileSync` (the buffer, or the message of the error
it throws), `path.basename`, `path.extname` and `toLowerCase`. -/
structure Host where
  readFileSync : String → Except String Bytes
  basename : String → String
  extname : String → String
  toLowerCase : String → String

/-- The report an analyzer returns to the handler: which analyzer ran, the `fileName` it was
given, and the rest of the report. -/
inductive FileReport where
  | pdf (fileName : String) (r : DocReport)
  | jpg (fileName : String) (r : RasterReport)
  | tiff (fileName : String) (r : RasterReport)
  | eps (fileName : String) (r : DocReport)

/-- The object the handler resolves to: `{ success: true, data }` or
`{ success: false, error }`. -/
inductive Reply where
  | success (data : FileReport)
  | failure (error : String)

/-- The end of the `try` block around a raster analyzer: its report goes into
`{ success: true, data: result }`, the message of its error into the reply of the `catch`. -/
def rasterReply (wrap : RasterReport → FileReport) : Outcome RasterReport → Outcome Reply
  | .returned r => .returned (.success (wrap r))
  | .threw message => .returned (.failure message)
  | .outOfFuel => .outOfFuel

/-- The lower-cased extension of the handler,
`path.extname(filePath).toLowerCase().slice(1)`. -/
def extensionOf (host : Host) (filePath : String) : String :=
  String.mk ((host.toLowerCase (host.extname filePath)).toList.drop 1)

/-- The handler of `analyze-file` in `main.js`, which calls the analyzers of
`src/src/analyzers.js`; `fuel` is for the loops of `analyzeJPG`. -/
def analyzeFile (host : Host) (fuel : Nat) (filePath : String) : Outcome Reply :=
  match host.readFileSync filePath with
  | .error message => .returned (.failure message)
  | .ok buffer =>
    let fileName := host.basename filePath
    let extension := extensionOf host filePath
    if extension = "pdf" then .returned (.success (.pdf fileName (Src.analyzePDF buffer)))
    else if extension = "jpg" ∨ extension = "jpeg" then
      rasterReply (.jpg fileName) (Src.analyzeJPG fuel buffer)
    else if extension = "tif" ∨ extension = "tiff" then
      rasterReply (.tiff fileName) (Src.analyzeTIFF buffer)
    else if extension = "eps" then .returned (.success (.eps fileName (Src.analyzeEPS buffer)))
    else .returned (.failure ("Formato no soportado: " ++ extension))

/-- The part of `s` after the last `c`, `none` when `c` does not occur. -/
def afterLast (c : Char) : List Char → Option (List Char)
  | [] => none
  | x :: xs =>
    match afterLast c xs with
    | some r => some r
    | none => if x = c then some xs else none

/-- A host for the examples: its disk holds the listed files, a read of any other path fails as
Node does for a missing file; names are split at the last `/` and at the last `.` after the
first character of the base name, and ASCII letters are lower-cased. -/
def sampleHost (files : List (String × Bytes)) : Host :=
  { readFileSync := fun p =>
      match files.lookup p with
      | some bytes => .ok bytes
      | none => .error ("ENOENT: no such file or directory, open \x27" ++ p ++ "\x27")
    basename := fun p => String.mk ((afterLast '/' p.toList).getD p.toList)
    extname := fun p =>
      match (afterLast '/' p.toList).getD p.toList with
      | [] => ""
      | _ :: rest =>
        match afterLast '.' rest with
        | some e => String.mk ('.' :: e)
        | none => ""
    toLowerCase := fun s => String.mk (s.toList.map Char.toLower) }

/-! ## More sample files -/

/-- A little-endian TIFF whose IFD declares 101 entries: entries 0 to 99 are zero bytes (tag 0),
entry 100 is `last` (12 bytes). -/
def longTiff (last : Bytes) : Bytes :=
  [0x49, 0x49, 0x2A, 0x00, 0x08, 0x00, 0x00, 0x00, 0x65, 0x00] ++ List.replicate 1200 0 ++ last
    ++ [0x00, 0x00, 0x00, 0x00]

/-- The entry PhotometricInterpretation = 5 (CMYK). -/
def cmykEntry : Bytes :=
  [0x06, 0x01, 0x03, 0x00, 0x01, 0x00, 0x00, 0x00, 0x05, 0x00, 0x00, 0x00]

/-- An entry of zero bytes. -/
def zeroEntry : Bytes :=
  [0x00, 0x00, 0x00, 0x00, 0x00, 0x00, 0x00, 0x00, 0x00, 0x00, 0x00, 0x00]

/-- A little-endian TIFF header whose IFD offset is `FF FF FF FF`. -/
def negativeIfdTiff : Bytes :=
  [0x49, 0x49, 0x2A, 0x00, 0xFF, 0xFF, 0xFF, 0xFF]

/-- A little-endian TIFF header that ends after the first byte of the IFD offset. -/
def cutOffsetTiff : Bytes :=
  [0x49, 0x49, 0x2A, 0x00, 0x08]

/-- A JPEG whose only segment is an APP13 `Photoshop 3.0` block with one 8BIM resource of id
0x03ED, an empty name, the data size 16 and the data hRes = 72 (Fixed 16.16), hResUnit = 1,
widthUnit = 1, vRes = 300 (Fixed 16.16), vResUnit = 1, heightUnit = 1. -/
def photoshopJpg : Bytes :=
  [0xFF, 0xD8, 0xFF, 0xED, 0x00, 0x2C,
   0x50, 0x68, 0x6F, 0x74, 0x6F, 0x73, 0x68, 0x6F, 0x70, 0x20, 0x33, 0x2E, 0x30, 0x00,
   0x38, 0x42, 0x49, 0x4D, 0x03, 0xED, 0x00, 0x00, 0x00, 0x00, 0x00, 0x10,
   0x00, 0x48, 0x00, 0x00, 0x00, 0x01, 0x00, 0x01,
   0x01, 0x2C, 0x00, 0x00, 0x00, 0x01, 0x00, 0x01,
   0xFF, 0xD9]

/-! ## Predicates on the boxes of a text -/

/-- The MediaBox of `text` is absent or reads `[0 0 595 842]`. -/
def A4Box (text : List Nat) : Prop :=
  regexMatch mediaBoxRe text = none ∨
  ∃ m, regexMatch mediaBoxRe text = some m ∧
    m.groups.map parseFloat =
      [.fin ⟨0, 0⟩, .fin ⟨0, 0⟩, .fin ⟨595, 0⟩, .fin ⟨842, 0⟩]

/-- The size `(|c - a|, |d - b|)` in millimetres of a box whose four numbers are those of
`groups`, read by `parse`. -/
def boxMm (parse : List Nat → Number) (groups : List (List Nat)) : Number × Number :=
  (pointsToMm (((parse (groups.getD 2 [])).sub (parse (groups.getD 0 []))).abs),
   pointsToMm (((parse (groups.getD 3 [])).sub (parse (groups.getD 1 []))).abs))

/-! ## Sample files for the resolution and the profile name -/

/-- A little-endian TIFF with three entries: XResolution and YResolution, both the rational
`(n0 + 256 * n1) / d0` stored at offset 50, and ResolutionUnit = `unit`. -/
def resolutionTiff (n0 n1 d0 unit : Byte) : Bytes :=
  [0x49, 0x49, 0x2A, 0x00, 0x08, 0x00, 0x00, 0x00, 0x03, 0x00,
   0x1A, 0x01, 0x05, 0x00, 0x01, 0x00, 0x00, 0x00, 0x32, 0x00, 0x00, 0x00,
   0x1B, 0x01, 0x05, 0x00, 0x01, 0x00, 0x00, 0x00, 0x32, 0x00, 0x00, 0x00,
   0x28, 0x01, 0x03, 0x00, 0x01, 0x00, 0x00, 0x00, unit, 0x00, 0x00, 0x00,
   0x00, 0x00, 0x00, 0x00,
   n0, n1, 0x00, 0x00, d0, 0x00, 0x00, 0x00]

/-- A JPEG whose only segment is an APP2 `ICC_PROFILE` block, chunk 1 of 1, with the profile
data `Display P3`. -/
def displayP3Jpg : Bytes :=
  [0xFF, 0xD8, 0xFF, 0xE2, 0x00, 0x1A,
   0x49, 0x43, 0x43, 0x5F, 0x50, 0x52, 0x4F, 0x46, 0x49, 0x4C, 0x45, 0x00, 0x01, 0x01,
   0x44, 0x69, 0x73, 0x70, 0x6C, 0x61, 0x79, 0x20, 0x50, 0x33,
   0xFF, 0xD9]

/-- A JPEG made of SOI, one segment with the marker `FF marker` and the content of a frame
header (precision 8, height `hHi hLo`, width `wHi wLo`, `c` components and the component
specifications `comps`), and EOI.  The declared length is that of the content plus 2. -/
def frameJpg (marker hHi hLo wHi wLo c : Byte) (comps : Bytes) : Bytes :=
  [0xFF, 0xD8, 0xFF, marker, hiByte (8 + comps.length), loByte (8 + comps.length),
   0x08, hHi, hLo, wHi, wLo, c] ++ comps ++ [0xFF, 0xD9]

/-- The entry PhotometricInterpretation = 2 (RGB). -/
def rgbEntry : Bytes :=
  [0x06, 0x01, 0x03, 0x00, 0x01, 0x00, 0x00, 0x00, 0x02, 0x00, 0x00, 0x00]

/-- A little-endian TIFF whose IFD declares 101 entries: entry 0 is `rgbEntry`, entries 1 to 99
are zero bytes (tag 0), entry 100 is `cmykEntry`. -/
def twoPhotometricTiff : Bytes :=
  [0x49, 0x49, 0x2A, 0x00, 0x08, 0x00, 0x00, 0x00, 0x65, 0x00] ++ rgbEntry
    ++ List.replicate 1188 0 ++ cmykEntry ++ [0x00, 0x00, 0x00, 0x00]

/-- The initial values of `analyzeTIFF` with the colour space `colorSpace`. -/
def tiffWith (colorSpace : ColorSpace) : TiffDecoded :=
  { tiffInit with colorSpace := colorSpace }

/-- The state `analyzeJPG` should decode from `frameJpg`: the frame header is read when `marker`
is a start-of-frame marker, and nothing is otherwise. -/
def frameState (marker hHi hLo wHi wLo c : Byte) : Decoded :=
  if isSOF (some marker.val) then
    { jpgInit with
      height := (hHi.val : Int) * 256 + hLo.val
      width := (wHi.val : Int) * 256 + wLo.val
      colorSpace := if c.val = 1 then .Grayscale else if c.val = 4 then .CMYK else .RGB }
  else jpgInit

end Prepress

/-! ## Theorems -/

namespace Prepress

set_option maxRecDepth 10000

/-! ### The verdict blocks -/

theorem pdfPrintability_status (cs : ColorSpace) (h : Bool) (icc : Option String) (leg : Bool) :
    (pdfPrintability cs h icc leg).1 =
      if cs = .RGB ∨ cs = .unknown then .error
      else if leg = false ∨ (pdfPrintability cs h icc leg).2.1 ≠ [] then .warning else .ready := by
  cases cs <;> cases h <;> cases leg <;>
    cases hn : notOptimal icc ["ISONewspaper", "Euroestándar"] <;>
    simp [pdfPrintability, hn]

theorem jpgPrintability_status (dpi : Int) (cs : ColorSpace) (h : Bool) (icc : Option String)
    (leg : Bool) :
    (jpgPrintability dpi cs h icc leg).1 =
      if dpi < 200 then .error
      else if cs = .RGB ∨ (jpgPrintability dpi cs h icc leg).2.1 ≠ [] then .warning
      else .ready := by
  by_cases hd : dpi < 200 <;> cases cs <;> cases h <;> cases leg <;>
    cases hn : notOptimal icc ["ISONewspaper", "Euroestándar", "CMYK Profile"] <;>
    simp [jpgPrintability, hn, hd]

theorem tiffPrintability_status (dpi : Int) (cs : ColorSpace) (h : Bool) (leg : Bool) :
    (tiffPrintability dpi cs h leg).1 =
      if dpi < 200 ∨ cs = .unknown then .error
      else if cs = .RGB ∨ (tiffPrintability dpi cs h leg).2.1 ≠ [] then .warning else .ready := by
  by_cases hd : dpi < 200 <;> cases cs <;> cases h <;> cases leg <;>
    simp [tiffPrintability, hd]

theorem pdfPrintability_recommendations (cs : ColorSpace) (h : Bool) (icc : Option String)
    (leg : Bool) (hc : cs ≠ .unknown ∨ (pdfPrintability cs h icc leg).1 = .ready) :
    (pdfPrintability cs h icc leg).2.2 ≠ [] := by
  revert hc
  cases cs <;> cases h <;> cases leg <;>
    cases hn : notOptimal icc ["ISONewspaper", "Euroestándar"] <;>
    simp [pdfPrintability, hn]

theorem epsPrintability_recommendations (cs : ColorSpace) : (epsPrintability cs).2.2 ≠ [] := by
  cases cs <;> simp [epsPrintability]

theorem jpgPrintability_recommendations (dpi : Int) (cs : ColorSpace) (h : Bool)
    (icc : Option String) :
    (jpgPrintability dpi cs h icc (rasterTextReadability dpi).isLegible).2.2 ≠ [] := by
  by_cases hd : dpi < 200 <;> by_cases hd2 : dpi < 150 <;> cases cs <;> cases h <;>
    cases hn : notOptimal icc ["ISONewspaper", "Euroestándar", "CMYK Profile"] <;>
    simp [jpgPrintability, rasterTextReadability, hn, hd, hd2] <;> omega

theorem tiffPrintability_recommendations (dpi : Int) (cs : ColorSpace) (h : Bool)
    (hc : cs ≠ .unknown ∨
      (tiffPrintability dpi cs h (rasterTextReadability dpi).isLegible).1 = .ready) :
    (tiffPrintability dpi cs h (rasterTextReadability dpi).isLegible).2.2 ≠ [] := by
  revert hc
  by_cases hd : dpi < 200 <;> by_cases hd2 : dpi < 150 <;> cases cs <;> cases h <;>
    simp [tiffPrintability, rasterTextReadability, hd, hd2] <;> omega

/-! ### What a returned report is made of -/

theorem jpgReturns_report {r : RasterReport} (h : JpgReturns r) : ∃ s, r = jpgReport s := by
  obtain ⟨fuel, bytes, h | h⟩ := h
  · unfold Src.analyzeJPG at h
    split at h
    · cases h
    · split at h
      · cases h
      · injection h with h
        exact ⟨_, h.symm⟩
  · unfold Docs.analyzeJPG at h
    split at h
    · cases h
    · split at h
      · cases h
      · injection h with h
        exact ⟨_, h.symm⟩

theorem tiffReturns_report {r : RasterReport} (h : TiffReturns r) : ∃ s, r = tiffReport s := by
  obtain ⟨bytes, h | h⟩ := h
  · unfold Src.analyzeTIFF at h
    simp only [] at h
    split at h
    · cases h
    · injection h with h
      exact ⟨_, h.symm⟩
  · unfold Docs.analyzeTIFF at h
    simp only [] at h
    split at h
    · cases h
    · injection h with h
      exact ⟨_, h.symm⟩

/-! ### C1: termination of `analyzeJPG` -/

theorem src_psStep_scan (p : Int) (h0 : 0 ≤ p) (h1 : p ≤ 14) :
    Src.psStep (jsSlice hangJpg 6 33) jpgInit p = .next (min (p + 1) 14) := by
  interval_cases p <;> decide

theorem src_psLoop_hang (fuel : Nat) : ∀ p : Int, 0 ≤ p → p ≤ 14 →
    Src.psLoop fuel (jsSlice hangJpg 6 33) jpgInit p = none := by
  induction fuel with
  | zero => intro p _ _; rfl
  | succ n ih =>
    intro p h0 h1
    have hq := src_psStep_scan p h0 h1
    have hlen : p < ((jsSlice hangJpg 6 33).length : Int) - 12 := by
      have : ((jsSlice hangJpg 6 33).length : Int) = 27 := by decide
      omega
    rw [Src.psLoop, if_pos hlen, hq]
    exact ih _ (by omega) (by omega)

theorem src_walkStep_hang (inner : Nat) : Src.walkStep inner hangJpg 2 jpgInit = none := by
  have h := src_psLoop_hang inner 0 (by decide) (by decide)
  have e : Src.walkStep inner hangJpg 2 jpgInit =
      (match Src.psLoop inner (jsSlice hangJpg 6 33) jpgInit 0 with
       | none => none
       | some s => some (.next 33 s)) := by
    rfl
  rw [e, h]

theorem src_walk_hang (inner fuel : Nat) : Src.walk inner fuel hangJpg 2 jpgInit = none := by
  cases fuel with
  | zero => rfl
  | succ n => rw [Src.walk, if_pos (by decide), src_walkStep_hang]

theorem docs_psLoop_hang (fuel : Nat) : Docs.psLoop fuel hangJpg 33 jpgInit 20 = none := by
  induction fuel with
  | zero => rfl
  | succ n ih =>
    have hq : Docs.psStep hangJpg 33 jpgInit 20 = .next 20 := by decide
    rw [Docs.psLoop, if_pos (by decide), hq]
    exact ih

theorem docs_walkStep_hang (inner : Nat) : Docs.walkStep inner hangJpg 2 jpgInit = none := by
  cases inner with
  | zero => rfl
  | succ n =>
    have h := docs_psLoop_hang (n + 1)
    have e : Docs.walkStep (n + 1) hangJpg 2 jpgInit =
        (match Docs.psLoop (n + 1) hangJpg 33 jpgInit 20 with
         | none => none
         | some s => some (.next 33 s)) := by
      rfl
    rw [e, h]

theorem docs_walk_hang (inner fuel : Nat) : Docs.walk inner fuel hangJpg 2 jpgInit = none := by
  cases fuel with
  | zero => rfl
  | succ n => rw [Docs.walk, if_pos (by decide), docs_walkStep_hang]

/-- C1 (fails on the code): on the 35-byte file `hangJpg` neither copy of `analyzeJPG` ever
returns.  The 8BIM resource declares the data size `FF FF FF F4`, which both copies read as the
signed number -12, so the step to the next resource leaves `pos` where it is (at 14 in
`segmentData` for `src`, at 20 in `bytes` for `docs`) and the resource loop runs out of every
amount of fuel. -/
theorem analyzeJPG_hangs (fuel : Nat) :
    Src.analyzeJPG fuel hangJpg = .outOfFuel ∧ Docs.analyzeJPG fuel hangJpg = .outOfFuel := by
  constructor
  · unfold Src.analyzeJPG
    rw [if_neg (by decide), src_walk_hang]
  · unfold Docs.analyzeJPG
    rw [if_neg (by decide), docs_walk_hang]

/-! ### C2, C3: recommendations -/

/-- C2 (fails on the code): the PDF text `/OutputIntent` has an ICC profile and no colour space
that `analyzePDF` knows.  Its report has the status `error`, the one issue on the colour space
and no recommendation at all: the `unknown` branch of `analyzePDF` pushes an issue only, and the
fallback message needs the status `ready`.  The same branch of `analyzeEPS` pushes the
recommendation `Verificar manualmente el espacio de color`, as on the empty text. -/
theorem pdf_error_without_recommendation :
    Returned (analyzePDF outputIntentPdf []) ∧
    (analyzePDF outputIntentPdf []).colorSpace = .unknown ∧
    (analyzePDF outputIntentPdf []).hasICCProfile = true ∧
    (analyzePDF outputIntentPdf []).printability =
      { status := .error, issues := ["No se pudo detectar el espacio de color"] } ∧
    (analyzePDF outputIntentPdf []).recommendations = [] ∧
    (analyzeEPS []).colorSpace = .unknown ∧
    (analyzeEPS []).printability =
      { status := .warning, issues := ["No se pudo determinar el espacio de color"] } ∧
    (analyzeEPS []).recommendations = ["Verificar manualmente el espacio de color"] :=
  ⟨Or.inl ⟨_, _, rfl⟩, by decide, by decide, by decide, by decide, by decide, by decide,
    by decide⟩

/-- The reports of `analyzePDF` without any recommendation are exactly those with an unknown
colour space, an ICC profile that raises no issue, and legible text: the `unknown` branch pushes
an issue and no recommendation, and the fallback message needs the status `ready`. -/
theorem pdf_recommendations_empty_iff (cs : ColorSpace) (h : Bool) (icc : Option String)
    (leg : Bool) :
    (pdfPrintability cs h icc leg).2.2 = [] ↔
      cs = .unknown ∧ h = true ∧ notOptimal icc ["ISONewspaper", "Euroestándar"] = false ∧
        leg = true := by
  cases cs <;> cases h <;> cases leg <;>
    cases hn : notOptimal icc ["ISONewspaper", "Euroestándar"] <;>
    simp [pdfPrintability, hn]

/-- The reports of `analyzeTIFF` without any recommendation are exactly those with an unknown
colour space, an ICC profile and at least 200 dots per inch. -/
theorem tiff_recommendations_empty_iff (dpi : Int) (cs : ColorSpace) (h : Bool) :
    (tiffPrintability dpi cs h (rasterTextReadability dpi).isLegible).2.2 = [] ↔
      cs = .unknown ∧ h = true ∧ ¬ dpi < 200 := by
  by_cases hd : dpi < 200 <;> by_cases hd2 : dpi < 150 <;> cases cs <;> cases h <;>
    simp [tiffPrintability, rasterTextReadability, hd, hd2] <;> omega

/-- A report of `analyzeJPG` or of `analyzeEPS`, and a report of `analyzePDF` or of
`analyzeTIFF` whose colour space is not `unknown`, has a recommendation whenever its status is
not `ready`. -/
theorem recommendations_of_not_ready (r : Report)
    (h : (∃ rr, JpgReturns rr ∧ r = rr.toReport) ∨ (∃ text, r = analyzeEPS text) ∨
      (Returned r ∧ r.colorSpace ≠ .unknown))
    (_hs : r.printability.status ≠ .ready) : r.recommendations ≠ [] := by
  rcases h with ⟨rr, hj, rfl⟩ | ⟨text, rfl⟩ | ⟨h, hc⟩
  · obtain ⟨s, rfl⟩ := jpgReturns_report hj
    exact jpgPrintability_recommendations _ _ _ _
  · exact epsPrintability_recommendations _
  · rcases h with ⟨text, sizes, rfl⟩ | ⟨text, rfl⟩ | ⟨rr, hj, rfl⟩ | ⟨rr, ht, rfl⟩
    · exact pdfPrintability_recommendations _ _ _ _ (Or.inl hc)
    · exact epsPrintability_recommendations _
    · obtain ⟨s, rfl⟩ := jpgReturns_report hj
      exact jpgPrintability_recommendations _ _ _ _
    · obtain ⟨s, rfl⟩ := tiffReturns_report ht
      exact tiffPrintability_recommendations _ _ _ (Or.inl hc)

theorem recommendations_of_not_ready_witness :
    (Returned (analyzePDF rgbPdf []) ∧ (analyzePDF rgbPdf []).colorSpace ≠ .unknown) ∧
    (analyzePDF rgbPdf []).printability.status ≠ .ready ∧
    (analyzePDF rgbPdf []).recommendations ≠ [] :=
  ⟨⟨Or.inl ⟨_, _, rfl⟩, by decide⟩, by decide,
    recommendations_of_not_ready (analyzePDF rgbPdf [])
      (Or.inr (Or.inr ⟨Or.inl ⟨_, _, rfl⟩, by decide⟩)) (by decide)⟩

/-- C3: a report of any of the four analyzers whose status is `ready` has a recommendation
(the fallback message). -/
theorem recommendations_of_ready (r : Report) (h : Returned r)
    (hs : r.printability.status = .ready) : r.recommendations ≠ [] := by
  rcases h with ⟨text, sizes, rfl⟩ | ⟨text, rfl⟩ | ⟨rr, hj, rfl⟩ | ⟨rr, ht, rfl⟩
  · exact pdfPrintability_recommendations _ _ _ _ (Or.inr hs)
  · exact epsPrintability_recommendations _
  · obtain ⟨s, rfl⟩ := jpgReturns_report hj
    exact jpgPrintability_recommendations _ _ _ _
  · obtain ⟨s, rfl⟩ := tiffReturns_report ht
    exact tiffPrintability_recommendations _ _ _ (Or.inr hs)

theorem recommendations_of_ready_witness :
    Returned (analyzePDF readyPdf []) ∧
    (analyzePDF readyPdf []).printability.status = .ready ∧
    (analyzePDF readyPdf []).recommendations ≠ [] :=
  ⟨Or.inl ⟨_, _, rfl⟩, by decide,
    recommendations_of_ready (analyzePDF readyPdf []) (Or.inl ⟨_, _, rfl⟩) (by decide)⟩

/-! ### C4: the JPEG signature -/

theorem byteAt_signature (bytes : Bytes) :
    (byteAt bytes 0 = some 0xFF ∧ byteAt bytes 1 = some 0xD8) ↔
      ∃ rest, bytes = 0xFF :: 0xD8 :: rest := by
  constructor
  · rintro ⟨h0, h1⟩
    match bytes, h0, h1 with
    | [], h0, _ => simp [byteAt] at h0
    | [a], _, h1 => simp [byteAt] at h1
    | a :: b :: rest, h0, h1 =>
      refine ⟨rest, ?_⟩
      have ha : a = 0xFF := by
        apply Fin.ext
        simpa [byteAt] using h0
      have hb : b = 0xD8 := by
        apply Fin.ext
        simpa [byteAt] using h1
      rw [ha, hb]
  · rintro ⟨rest, rfl⟩
    constructor <;> simp [byteAt] <;> rfl

/-- C4: each copy of `analyzeJPG` throws exactly when the buffer does not begin with the bytes
`FF D8` (the empty and the one-byte buffer included), and the error it throws is the invalid-JPEG
one. -/
theorem analyzeJPG_throws_iff (fuel : Nat) (bytes : Bytes) :
    ((∃ msg, Src.analyzeJPG fuel bytes = .threw msg) ↔ ¬ ∃ rest, bytes = 0xFF :: 0xD8 :: rest) ∧
    ((∃ msg, Docs.analyzeJPG fuel bytes = .threw msg) ↔ ¬ ∃ rest, bytes = 0xFF :: 0xD8 :: rest) ∧
    (∀ msg, Src.analyzeJPG fuel bytes = .threw msg ∨ Docs.analyzeJPG fuel bytes = .threw msg →
      msg = "Archivo JPG inválido") := by
  have key := byteAt_signature bytes
  by_cases hs : byteAt bytes 0 = some 0xFF ∧ byteAt bytes 1 = some 0xD8
  · have hn : ¬ (byteAt bytes 0 ≠ some 0xFF ∨ byteAt bytes 1 ≠ some 0xD8) := by
      rintro (h | h)
      · exact h hs.1
      · exact h hs.2
    have e1 : ∀ msg, Src.analyzeJPG fuel bytes ≠ .threw msg := by
      intro msg h
      unfold Src.analyzeJPG at h
      rw [if_neg hn] at h
      split at h <;> cases h
    have e2 : ∀ msg, Docs.analyzeJPG fuel bytes ≠ .threw msg := by
      intro msg h
      unfold Docs.analyzeJPG at h
      rw [if_neg hn] at h
      split at h <;> cases h
    refine ⟨⟨fun ⟨m, h⟩ => absurd h (e1 m), fun h => absurd (key.1 hs) h⟩,
      ⟨fun ⟨m, h⟩ => absurd h (e2 m), fun h => absurd (key.1 hs) h⟩, ?_⟩
    rintro msg (h | h)
    · exact absurd h (e1 msg)
    · exact absurd h (e2 msg)
  · have hn : byteAt bytes 0 ≠ some 0xFF ∨ byteAt bytes 1 ≠ some 0xD8 := by
      by_cases h0 : byteAt bytes 0 = some 0xFF
      · exact Or.inr (fun h1 => hs ⟨h0, h1⟩)
      · exact Or.inl h0
    have e1 : Src.analyzeJPG fuel bytes = .threw "Archivo JPG inválido" := by
      unfold Src.analyzeJPG
      rw [if_pos hn]
    have e2 : Docs.analyzeJPG fuel bytes = .threw "Archivo JPG inválido" := by
      unfold Docs.analyzeJPG
      rw [if_pos hn]
    refine ⟨⟨fun _ h => hs (key.2 h), fun _ => ⟨_, e1⟩⟩,
      ⟨fun _ h => hs (key.2 h), fun _ => ⟨_, e2⟩⟩, ?_⟩
    rintro msg (h | h)
    · rw [e1] at h
      injection h with h
      exact h.symm
    · rw [e2] at h
      injection h with h
      exact h.symm

/-! ### C5, C6: the TIFF header -/

/-- C5 (fails on the code): `noMarkTiff` starts with `XX`, which is neither `II` nor `MM`, and
both copies of `analyzeTIFF` return a report for it: whatever is not `II` is read as big-endian,
and the big-endian word at offset 2 is 42. -/
theorem analyzeTIFF_accepts_noMark :
    Src.analyzeTIFF noMarkTiff = .returned (tiffReport tiffInit) ∧
    Docs.analyzeTIFF noMarkTiff = .returned (tiffReport tiffInit) := by
  constructor <;> decide

/-- C6 (fails on the code of `src`): for the three bytes `II*` the copy in `src` returns a
report, because the missing byte at offset 3 reads as 0 and the magic word as 42; the copy in
`docs` throws the invalid-TIFF error. -/
theorem analyzeTIFF_short_magic :
    (∃ r, Src.analyzeTIFF shortTiff = .returned r) ∧
    Docs.analyzeTIFF shortTiff = .threw "Archivo TIFF inválido" := by
  refine ⟨?_, by decide⟩
  unfold Src.analyzeTIFF
  simp only []
  rw [if_neg (by decide)]
  exact ⟨_, rfl⟩

/-! ### C7 to C10: the status rules -/

/-- C7: the status of every `analyzePDF` report is `error` exactly when the colour space is RGB
or unknown, otherwise `warning` exactly when the text is not legible or there is an issue,
otherwise `ready`. -/
theorem analyzePDF_status (text : Bytes) (sizes : List Dbl) :
    (analyzePDF text sizes).printability.status =
      if (analyzePDF text sizes).colorSpace = .RGB ∨ (analyzePDF text sizes).colorSpace = .unknown
      then .error
      else if (analyzePDF text sizes).textReadability.isLegible = false ∨
        (analyzePDF text sizes).printability.issues ≠ [] then .warning
      else .ready :=
  pdfPrintability_status _ _ _ _

/-- C8: the status of every `analyzeJPG` report (either copy) is `error` exactly when the
resolution value is below 200, otherwise `warning` exactly when the colour space is RGB or there
is an issue, otherwise `ready`; and a `ready` report is not RGB, has an ICC profile and has at
least 200 dpi. -/
theorem analyzeJPG_status (r : RasterReport) (h : JpgReturns r) :
    ∃ dpi, r.resolution.value = .dpi dpi ∧
      r.printability.status =
        (if dpi < 200 then .error
         else if r.colorSpace = .RGB ∨ r.printability.issues ≠ [] then .warning
         else .ready) ∧
      (r.printability.status = .ready →
        r.colorSpace ≠ .RGB ∧ r.hasICCProfile = true ∧ 200 ≤ dpi) := by
  obtain ⟨s, rfl⟩ := jpgReturns_report h
  refine ⟨max s.dpiX s.dpiY, rfl, jpgPrintability_status _ _ _ _ _, ?_⟩
  intro hr
  have hst := jpgPrintability_status (max s.dpiX s.dpiY) s.colorSpace s.hasICCProfile
    s.iccProfile (rasterTextReadability (max s.dpiX s.dpiY)).isLegible
  have hr' : (jpgPrintability (max s.dpiX s.dpiY) s.colorSpace s.hasICCProfile s.iccProfile
      (rasterTextReadability (max s.dpiX s.dpiY)).isLegible).1 = .ready := hr
  rw [hr'] at hst
  by_cases hd : max s.dpiX s.dpiY < 200
  · rw [if_pos hd] at hst
    cases hst
  · rw [if_neg hd] at hst
    by_cases hc : s.colorSpace = .RGB ∨ (jpgPrintability (max s.dpiX s.dpiY) s.colorSpace
        s.hasICCProfile s.iccProfile
        (rasterTextReadability (max s.dpiX s.dpiY)).isLegible).2.1 ≠ []
    · rw [if_pos hc] at hst
      cases hst
    · refine ⟨fun hrgb => hc (Or.inl hrgb), ?_, by omega⟩
      have hi : (jpgPrintability (max s.dpiX s.dpiY) s.colorSpace s.hasICCProfile s.iccProfile
          (rasterTextReadability (max s.dpiX s.dpiY)).isLegible).2.1 = [] := by
        by_contra hne
        exact hc (Or.inr hne)
      show s.hasICCProfile = true
      cases hicc : s.hasICCProfile
      · rw [hicc] at hi
        revert hi
        cases s.colorSpace <;> cases (rasterTextReadability (max s.dpiX s.dpiY)).isLegible <;>
          simp [jpgPrintability, hd]
      · rfl

theorem analyzeJPG_status_witness :
    JpgReturns (jpgReport jpgInit) ∧
    ∃ dpi, (jpgReport jpgInit).resolution.value = .dpi dpi ∧
      (jpgReport jpgInit).printability.status =
        (if dpi < 200 then .error
         else if (jpgReport jpgInit).colorSpace = .RGB ∨
           (jpgReport jpgInit).printability.issues ≠ [] then .warning
         else .ready) ∧
      ((jpgReport jpgInit).printability.status = .ready →
        (jpgReport jpgInit).colorSpace ≠ .RGB ∧ (jpgReport jpgInit).hasICCProfile = true ∧
          200 ≤ dpi) :=
  ⟨⟨10, emptyJpg, Or.inl (by decide)⟩,
    analyzeJPG_status (jpgReport jpgInit) ⟨10, emptyJpg, Or.inl (by decide)⟩⟩

/-- C9: the status of every `analyzeTIFF` report (either copy) is `error` exactly when the
resolution value is below 200 or the colour space is unknown, otherwise `warning` exactly when
the colour space is RGB or there is an issue, otherwise `ready`. -/
theorem analyzeTIFF_status (r : RasterReport) (h : TiffReturns r) :
    ∃ dpi, r.resolution.value = .dpi dpi ∧
      r.printability.status =
        (if dpi < 200 ∨ r.colorSpace = .unknown then .error
         else if r.colorSpace = .RGB ∨ r.printability.issues ≠ [] then .warning
         else .ready) := by
  obtain ⟨s, rfl⟩ := tiffReturns_report h
  exact ⟨_, rfl, tiffPrintability_status _ _ _ _⟩

theorem analyzeTIFF_status_witness :
    TiffReturns (tiffReport tiffInit) ∧
    ∃ dpi, (tiffReport tiffInit).resolution.value = .dpi dpi ∧
      (tiffReport tiffInit).printability.status =
        (if dpi < 200 ∨ (tiffReport tiffInit).colorSpace = .unknown then .error
         else if (tiffReport tiffInit).colorSpace = .RGB ∨
           (tiffReport tiffInit).printability.issues ≠ [] then .warning
         else .ready) :=
  ⟨⟨noMarkTiff, Or.inr (by decide)⟩,
    analyzeTIFF_status (tiffReport tiffInit) ⟨noMarkTiff, Or.inr (by decide)⟩⟩

theorem tiffPrintability_eq_jpg (dpi : Int) (cs : ColorSpace) (h : Bool) (icc : Option String)
    (leg : Bool) (hc : cs ≠ .unknown)
    (hn : notOptimal icc ["ISONewspaper", "Euroestándar", "CMYK Profile"] = false) :
    tiffPrintability dpi cs h leg = jpgPrintability dpi cs h icc leg := by
  by_cases hd : dpi < 200 <;> cases cs <;> cases h <;> cases leg <;>
    simp [tiffPrintability, jpgPrintability, hn, hd] at hc ⊢

/-- C10 (fails on the code): for 300 dpi, CMYK, an embedded profile identified as `sRGB`, the
verdict block of `analyzeTIFF` answers `ready` with no issue, that of `analyzeJPG` answers
`warning` with the profile issue; `cmykTiff` and `cmykJpg` are files with these attributes, and
both copies report them so. -/
theorem tiff_verdict_differs :
    tiffPrintability 300 .CMYK true true =
      (.ready, [], ["Archivo listo para impresión en papel prensa"]) ∧
    jpgPrintability 300 .CMYK true (some "sRGB") true =
      (.warning, ["Perfil ICC \"sRGB\" no es óptimo para papel prensa"],
        ["Convertir a perfil ISONewspaper o Euroestándar"]) ∧
    (∀ analyze ∈ [Src.analyzeTIFF, Docs.analyzeTIFF], analyze cmykTiff = .returned
      { fileType := "TIFF"
        resolution := { value := .dpi 300, status := .detected }
        colorSpace := .CMYK
        hasICCProfile := true
        iccProfile := some "sRGB"
        textReadability := { isLegible := true, status := .legible }
        printability := { status := .ready, issues := [] }
        recommendations := ["Archivo listo para impresión en papel prensa"]
        width := 0
        height := 0
        physicalDimensions := some (pxToMm 0 300, pxToMm 0 300) }) ∧
    (∀ analyze ∈ [Src.analyzeJPG, Docs.analyzeJPG], analyze 10 cmykJpg = .returned
      { fileType := "JPG"
        resolution := { value := .dpi 300, status := .detected }
        colorSpace := .CMYK
        hasICCProfile := true
        iccProfile := some "sRGB"
        textReadability := { isLegible := true, status := .legible }
        printability :=
          { status := .warning, issues := ["Perfil ICC \"sRGB\" no es óptimo para papel prensa"] }
        recommendations := ["Convertir a perfil ISONewspaper o Euroestándar"]
        width := 200
        height := 100
        physicalDimensions := some (pxToMm 200 300, pxToMm 100 300) }) := by
  refine ⟨by decide, by decide, ?_, ?_⟩
  · intro analyze ha
    simp only [List.mem_cons, List.mem_singleton, List.not_mem_nil, or_false] at ha
    rcases ha with rfl | rfl <;> decide
  · intro analyze ha
    simp only [List.mem_cons, List.mem_singleton, List.not_mem_nil, or_false] at ha
    rcases ha with rfl | rfl <;> decide

/-! ### C11: the profile issue -/

theorem notOptimal_iff (icc : Option String) (optimal : List String) :
    notOptimal icc optimal = true ↔ ∃ name, icc = some name ∧ name ≠ "" ∧ name ∉ optimal := by
  cases icc with
  | none => simp [notOptimal]
  | some name => simp [notOptimal]

theorem notOptimalIssue_head (icc : Option String) :
    (notOptimalIssue icc).data.head? = some 'P' := by
  simp [notOptimalIssue, String.data_append]

theorem notOptimalIssue_ne (icc : Option String) (s : String) (h : s.data.head? ≠ some 'P') :
    notOptimalIssue icc ≠ s := by
  intro e
  apply h
  rw [← e]
  exact notOptimalIssue_head icc

theorem lowResolutionIssue_ne (icc : Option String) (dpi : Int) :
    notOptimalIssue icc ≠
      "Resolución de " ++ toString dpi ++ " dpi es inferior al mínimo de 200 dpi" := by
  apply notOptimalIssue_ne
  simp [String.data_append]

theorem pdfPrintability_profile (cs : ColorSpace) (h : Bool) (icc : Option String) (leg : Bool) :
    (notOptimalIssue icc ∈ (pdfPrintability cs h icc leg).2.1 ↔
      (h = true ∧ notOptimal icc ["ISONewspaper", "Euroestándar"] = true)) ∧
    ("Convertir a perfil ISONewspaper o Euroestándar" ∈ (pdfPrintability cs h icc leg).2.2 ↔
      (h = true ∧ notOptimal icc ["ISONewspaper", "Euroestándar"] = true)) := by
  have h1 := notOptimalIssue_ne icc "El archivo está en RGB, se requiere conversión a CMYK"
    (by decide)
  have h2 := notOptimalIssue_ne icc "No se pudo detectar el espacio de color" (by decide)
  have h3 := notOptimalIssue_ne icc "No se detectó perfil ICC embebido" (by decide)
  have h4 := notOptimalIssue_ne icc "Texto con tamaño insuficiente para impresión en papel prensa"
    (by decide)
  cases cs <;> cases h <;> cases leg <;>
    cases hn : notOptimal icc ["ISONewspaper", "Euroestándar"] <;>
    simp [pdfPrintability, hn, h1, h2, h3, h4]

theorem jpgPrintability_profile (dpi : Int) (cs : ColorSpace) (h : Bool) (icc : Option String)
    (leg : Bool) :
    (notOptimalIssue icc ∈ (jpgPrintability dpi cs h icc leg).2.1 ↔
      (h = true ∧ notOptimal icc ["ISONewspaper", "Euroestándar", "CMYK Profile"] = true)) ∧
    ("Convertir a perfil ISONewspaper o Euroestándar" ∈ (jpgPrintability dpi cs h icc leg).2.2 ↔
      (h = true ∧ notOptimal icc ["ISONewspaper", "Euroestándar", "CMYK Profile"] = true)) := by
  have h0 := lowResolutionIssue_ne icc dpi
  have h1 := notOptimalIssue_ne icc "El archivo está en RGB, se recomienda convertir a CMYK"
    (by decide)
  have h3 := notOptimalIssue_ne icc "No se detectó perfil ICC embebido" (by decide)
  have h4 := notOptimalIssue_ne icc "Resolución insuficiente para texto legible en impresión"
    (by decide)
  by_cases hd : dpi < 200 <;> cases cs <;> cases h <;> cases leg <;>
    cases hn : notOptimal icc ["ISONewspaper", "Euroestándar", "CMYK Profile"] <;>
    simp [jpgPrintability, hn, hd, h0, h1, h3, h4]

/-- C11 (fails on the code): a PDF and a JPEG (either copy) with an embedded profile whose name
is not identified get no profile issue; both are reported `ready` with no issue at all. -/
theorem unnamed_profile_no_issue :
    (analyzePDF unnamedProfilePdf []).hasICCProfile = true ∧
    (analyzePDF unnamedProfilePdf []).iccProfile = none ∧
    (analyzePDF unnamedProfilePdf []).printability = { status := .ready, issues := [] } ∧
    (∀ analyze ∈ [Src.analyzeJPG, Docs.analyzeJPG],
      ((analyze 10 unnamedProfileJpg).report?.map fun r =>
        (r.hasICCProfile, r.iccProfile, r.printability)) =
      some (true, none, { status := .ready, issues := [] })) := by
  refine ⟨by decide, by decide, by decide, ?_⟩
  intro analyze ha
  simp only [List.mem_cons, List.mem_singleton, List.not_mem_nil, or_false] at ha
  rcases ha with rfl | rfl <;> decide

/-- C11 (amended): in every report of `analyzePDF` and of `analyzeJPG` (either copy) the profile
issue, and with it the recommendation to convert the profile, is present exactly when
`hasICCProfile` is true and `iccProfile` is set, to a non-empty name that is not ISONewspaper or
Euroestándar (nor, for JPEG, CMYK Profile). -/
theorem profile_issue_iff :
    (∀ text sizes,
      (notOptimalIssue (analyzePDF text sizes).iccProfile ∈
          (analyzePDF text sizes).printability.issues ↔
        ((analyzePDF text sizes).hasICCProfile = true ∧
          ∃ name, (analyzePDF text sizes).iccProfile = some name ∧ name ≠ "" ∧
            name ∉ ["ISONewspaper", "Euroestándar"])) ∧
      ("Convertir a perfil ISONewspaper o Euroestándar" ∈ (analyzePDF text sizes).recommendations ↔
        ((analyzePDF text sizes).hasICCProfile = true ∧
          ∃ name, (analyzePDF text sizes).iccProfile = some name ∧ name ≠ "" ∧
            name ∉ ["ISONewspaper", "Euroestándar"]))) ∧
    (∀ r, JpgReturns r →
      (notOptimalIssue r.iccProfile ∈ r.printability.issues ↔
        (r.hasICCProfile = true ∧
          ∃ name, r.iccProfile = some name ∧ name ≠ "" ∧
            name ∉ ["ISONewspaper", "Euroestándar", "CMYK Profile"])) ∧
      ("Convertir a perfil ISONewspaper o Euroestándar" ∈ r.recommendations ↔
        (r.hasICCProfile = true ∧
          ∃ name, r.iccProfile = some name ∧ name ≠ "" ∧
            name ∉ ["ISONewspaper", "Euroestándar", "CMYK Profile"]))) := by
  constructor
  · intro text sizes
    have h := pdfPrintability_profile (pdfColorSpace text) (pdfICC text).1 (pdfICC text).2
      (pdfTextReadability sizes).isLegible
    rw [notOptimal_iff] at h
    exact h
  · intro r hr
    obtain ⟨s, rfl⟩ := jpgReturns_report hr
    have h := jpgPrintability_profile (max s.dpiX s.dpiY) s.colorSpace s.hasICCProfile
      s.iccProfile (rasterTextReadability (max s.dpiX s.dpiY)).isLegible
    rw [notOptimal_iff] at h
    exact h

theorem profile_issue_iff_witness :
    JpgReturns (jpgReport cmykState) ∧
    (notOptimalIssue (jpgReport cmykState).iccProfile ∈ (jpgReport cmykState).printability.issues ↔
      ((jpgReport cmykState).hasICCProfile = true ∧
        ∃ name, (jpgReport cmykState).iccProfile = some name ∧ name ≠ "" ∧
          name ∉ ["ISONewspaper", "Euroestándar", "CMYK Profile"])) :=
  ⟨⟨10, cmykJpg, Or.inl (by decide)⟩,
    (profile_issue_iff.2 (jpgReport cmykState) ⟨10, cmykJpg, Or.inl (by decide)⟩).1⟩

/-! ### C12 to C15: resolution and dimensions -/

/-- C12 (fails on the code): a JFIF segment of unit 0 (aspect ratio 1 : 1) is reported by the
copy in `src` as 1 dpi with status `default`, where the copy in `docs` reports 72; and a TIFF
whose only entry is ResolutionUnit = 3 is reported by both copies as 183 dpi with status
`default`, the default 72 having gone through the conversion from centimetres. -/
theorem default_resolution_not_72 :
    ((Src.analyzeJPG 10 (jfifJpg 0 0 1 0 1)).report?.map fun r => r.resolution) =
      some { value := .dpi 1, status := .default } ∧
    ((Docs.analyzeJPG 10 (jfifJpg 0 0 1 0 1)).report?.map fun r => r.resolution) =
      some { value := .dpi 72, status := .default } ∧
    ((Src.analyzeTIFF (oneEntryTiff 0x28 0x01 3 3 0 0 0)).report?.map fun r => r.resolution) =
      some { value := .dpi 183, status := .default } ∧
    ((Docs.analyzeTIFF (oneEntryTiff 0x28 0x01 3 3 0 0 0)).report?.map fun r => r.resolution) =
      some { value := .dpi 183, status := .default } := by
  refine ⟨by decide, by decide, by decide, by decide⟩

/-- C13 (fails on the code): for a TIFF whose ImageWidth entry is the LONG `FF FF FF FF` both
copies of `analyzeTIFF` report the width -1. -/
theorem tiff_negative_width :
    ((Src.analyzeTIFF (oneEntryTiff 0x00 0x01 4 0xFF 0xFF 0xFF 0xFF)).report?.map
      fun r => r.width) = some (-1) ∧
    ((Docs.analyzeTIFF (oneEntryTiff 0x00 0x01 4 0xFF 0xFF 0xFF 0xFF)).report?.map
      fun r => r.width) = some (-1) := by
  refine ⟨by decide, by decide⟩

/-- C14: in every report of `analyzeJPG` and of `analyzeTIFF` (either copy)
`physicalDimensions` is present exactly when the resolution status is `detected`, and absent
when it is `default`. -/
theorem physicalDimensions_iff_detected (r : RasterReport) (h : JpgReturns r ∨ TiffReturns r) :
    (r.physicalDimensions.isSome = true ↔ r.resolution.status = .detected) ∧
    (r.resolution.status = .default → r.physicalDimensions = none) := by
  rcases h with h | h
  · obtain ⟨s, rfl⟩ := jpgReturns_report h
    cases hd : s.dpiDetected <;> simp [jpgReport, hd]
  · obtain ⟨s, rfl⟩ := tiffReturns_report h
    cases hd : s.dpiDetected <;> simp [tiffReport, hd]

theorem physicalDimensions_iff_detected_witness :
    (JpgReturns (jpgReport cmykState) ∨ TiffReturns (jpgReport cmykState)) ∧
    ((jpgReport cmykState).physicalDimensions.isSome = true ↔
      (jpgReport cmykState).resolution.status = .detected) ∧
    ((jpgReport cmykState).resolution.status = .default →
      (jpgReport cmykState).physicalDimensions = none) :=
  ⟨Or.inl ⟨10, cmykJpg, Or.inl (by decide)⟩,
    physicalDimensions_iff_detected (jpgReport cmykState)
      (Or.inl ⟨10, cmykJpg, Or.inl (by decide)⟩)⟩

/-- C15 (fails on the code): a JFIF segment of unit 1 with X density 300 and Y density 65535 is
reported by both copies with the detected resolution 65535: `src` validates neither density,
`docs` validates the X density only. -/
theorem jfif_density_above_range :
    ((Src.analyzeJPG 10 (jfifJpg 1 0x01 0x2C 0xFF 0xFF)).report?.map fun r => r.resolution) =
      some { value := .dpi 65535, status := .detected } ∧
    ((Docs.analyzeJPG 10 (jfifJpg 1 0x01 0x2C 0xFF 0xFF)).report?.map fun r => r.resolution) =
      some { value := .dpi 65535, status := .detected } ∧
    ((Src.analyzeJPG 10 (jfifJpg 1 0 0 0 0)).report?.map fun r => r.resolution) =
      some { value := .dpi 0, status := .detected } := by
  refine ⟨by decide, by decide, by decide⟩

/-! ### C16: EXIF against JFIF -/

/-- C16 (fails on the code): `exifJpg` carries a JFIF density of 300 and, after it, an Exif
block with X and Y resolution 72; the copy in `src` reports the JFIF value 300, the copy in
`docs` the EXIF value 72. -/
theorem exif_after_jfif :
    ((Src.analyzeJPG 10 exifJpg).report?.map fun r => r.resolution) =
      some { value := .dpi 300, status := .detected } ∧
    ((Docs.analyzeJPG 10 exifJpg).report?.map fun r => r.resolution) =
      some { value := .dpi 72, status := .detected } := by
  refine ⟨by decide, by decide⟩

/-- C16 (amended): in the copy in `src` the APP1 handler changes nothing once a density has been
detected, so a valid JFIF density that comes before the Exif block is kept; in the copy in
`docs` valid X and Y resolutions of an Exif block become `dpiX` and `dpiY` whatever was detected
before, so they override the JFIF density of a preceding APP0 segment. -/
theorem exif_precedence :
    (∀ bytes offset s, s.dpiDetected = true → Src.app1 bytes offset s = s) ∧
    (∀ bytes segmentStart segmentEnd s x y,
      Docs.exifDpi bytes segmentStart segmentEnd = (some x, some y) →
      inDpiRange x = true → inDpiRange y = true →
      Docs.app1 bytes segmentStart segmentEnd s =
        { s with dpiX := x.round, dpiY := y.round, dpiDetected := true }) := by
  constructor
  · intro bytes offset s hs
    unfold Src.app1
    simp [hs]
  · intro bytes segmentStart segmentEnd s x y he hx hy
    unfold Docs.app1
    rw [he]
    simp [applyDpi, hx, hy]

theorem exif_precedence_witness :
    (cmykState.dpiDetected = true ∧ Src.app1 exifJpg 20 cmykState = cmykState) ∧
    (Docs.exifDpi exifJpg 24 76 = (some ⟨5066549580791808, 46⟩, some ⟨5066549580791808, 46⟩) ∧
      inDpiRange ⟨5066549580791808, 46⟩ = true ∧
      Docs.app1 exifJpg 24 76 cmykState =
        { cmykState with dpiX := Dbl.round ⟨5066549580791808, 46⟩,
                         dpiY := Dbl.round ⟨5066549580791808, 46⟩, dpiDetected := true }) :=
  ⟨⟨rfl, exif_precedence.1 exifJpg 20 cmykState rfl⟩,
    by decide, by decide,
    exif_precedence.2 exifJpg 24 76 cmykState _ _ (by decide) (by decide) (by decide)⟩

/-! ### C17: fill bytes -/

/-- C17 (fails on the code of `src`): with one `FF` fill byte before the APP0 marker
(k = 1, d = 300) the copy in `src` takes `FF FF` for a marker with the segment length `E0 00`,
jumps past the end of the file and reports the default 72 dpi; the copy in `docs` skips the
fill byte and reports 300 dpi, detected. -/
theorem fill_byte_not_skipped :
    ((Src.analyzeJPG 10 fillJpg).report?.map fun r => r.resolution) =
      some { value := .dpi 72, status := .default } ∧
    ((Docs.analyzeJPG 10 fillJpg).report?.map fun r => r.resolution) =
      some { value := .dpi 300, status := .detected } ∧
    ((Src.analyzeJPG 10 (jfifJpg 1 0x01 0x2C 0x01 0x2C)).report?.map fun r => r.resolution) =
      some { value := .dpi 300, status := .detected } := by
  refine ⟨by decide, by decide, by decide⟩

/-! ### C19: text readability of raster files -/

/-- C19: in every report of `analyzeJPG` and of `analyzeTIFF` (either copy) the text
readability is a function of the resolution value: below 150 not legible with status
`no-legible`, from 150 to 199 legible with status `warning`, from 200 on legible with status
`legible`. -/
theorem raster_readability (r : RasterReport) (h : JpgReturns r ∨ TiffReturns r) :
    ∃ value, r.resolution.value = .dpi value ∧
      r.textReadability =
        (if value < 150 then { isLegible := false, status := .noLegible }
         else if value < 200 then { isLegible := true, status := .warning }
         else { isLegible := true, status := .legible }) := by
  rcases h with h | h
  · obtain ⟨s, rfl⟩ := jpgReturns_report h
    exact ⟨_, rfl, rfl⟩
  · obtain ⟨s, rfl⟩ := tiffReturns_report h
    exact ⟨_, rfl, rfl⟩

theorem raster_readability_witness :
    (JpgReturns (jpgReport jpgInit) ∨ TiffReturns (jpgReport jpgInit)) ∧
    ∃ value, (jpgReport jpgInit).resolution.value = .dpi value ∧
      (jpgReport jpgInit).textReadability =
        (if value < 150 then { isLegible := false, status := .noLegible }
         else if value < 200 then { isLegible := true, status := .warning }
         else { isLegible := true, status := .legible }) :=
  ⟨Or.inl ⟨10, emptyJpg, Or.inl (by decide)⟩,
    raster_readability (jpgReport jpgInit) (Or.inl ⟨10, emptyJpg, Or.inl (by decide)⟩)⟩

/-! ### C20: the colour space of a PDF -/

theorem startsWithCodes_iff (hay needle : List Nat) :
    startsWithCodes hay needle = true ↔ ∃ t, hay = needle ++ t := by
  induction needle generalizing hay with
  | nil => simp [startsWithCodes]
  | cons n ns ih =>
    cases hay with
    | nil => simp [startsWithCodes]
    | cons h hs =>
      simp only [startsWithCodes, Bool.and_eq_true, beq_iff_eq, ih, List.cons_append,
        List.cons.injEq]
      constructor
      · rintro ⟨rfl, t, rfl⟩
        exact ⟨t, rfl, rfl⟩
      · rintro ⟨t, rfl, rfl⟩
        exact ⟨rfl, t, rfl⟩

theorem includesCodes_iff (hay needle : List Nat) :
    includesCodes hay needle = true ↔ ∃ s t, hay = s ++ needle ++ t := by
  induction hay with
  | nil =>
    cases needle with
    | nil => simp [includesCodes]
    | cons n ns => simp [includesCodes]
  | cons h hs ih =>
    simp only [includesCodes, Bool.or_eq_true, startsWithCodes_iff, ih]
    constructor
    · rintro (⟨t, ht⟩ | ⟨s, t, ht⟩)
      · exact ⟨[], t, by simpa using ht⟩
      · exact ⟨h :: s, t, by simp [ht]⟩
    · rintro ⟨s, t, ht⟩
      cases s with
      | nil => exact Or.inl ⟨t, by simpa using ht⟩
      | cons a s =>
        simp only [List.cons_append, List.cons.injEq] at ht
        exact Or.inr ⟨s, t, ht.2⟩

theorem includes_iff (text : Bytes) (keyword : String) :
    includes text keyword = true ↔ Contains text keyword :=
  includesCodes_iff _ _

/-- C20: the colour space `analyzePDF` reports is CMYK when the text contains `/DeviceCMYK`, or
`/ICCBased` and `CMYK`; otherwise RGB when it contains `/DeviceRGB`; otherwise Grayscale when it
contains `/DeviceGray`; otherwise unknown.  A text with both `/DeviceRGB` and `/DeviceCMYK` is
CMYK, has no RGB issue and no `error` status. -/
theorem analyzePDF_colorSpace (text : Bytes) (sizes : List Dbl) :
    (Contains text "/DeviceCMYK" ∨ (Contains text "/ICCBased" ∧ Contains text "CMYK") →
      (analyzePDF text sizes).colorSpace = .CMYK) ∧
    (¬ (Contains text "/DeviceCMYK" ∨ (Contains text "/ICCBased" ∧ Contains text "CMYK")) →
      Contains text "/DeviceRGB" → (analyzePDF text sizes).colorSpace = .RGB) ∧
    (¬ (Contains text "/DeviceCMYK" ∨ (Contains text "/ICCBased" ∧ Contains text "CMYK")) →
      ¬ Contains text "/DeviceRGB" → Contains text "/DeviceGray" →
      (analyzePDF text sizes).colorSpace = .Grayscale) ∧
    (¬ (Contains text "/DeviceCMYK" ∨ (Contains text "/ICCBased" ∧ Contains text "CMYK")) →
      ¬ Contains text "/DeviceRGB" → ¬ Contains text "/DeviceGray" →
      (analyzePDF text sizes).colorSpace = .unknown) ∧
    (Contains text "/DeviceRGB" → Contains text "/DeviceCMYK" →
      (analyzePDF text sizes).colorSpace = .CMYK ∧
      "El archivo está en RGB, se requiere conversión a CMYK" ∉
        (analyzePDF text sizes).printability.issues ∧
      (analyzePDF text sizes).printability.status ≠ .error) := by
  have hcs : (analyzePDF text sizes).colorSpace = pdfColorSpace text := rfl
  have key : pdfColorSpace text =
      if includes text "/DeviceCMYK" = true ∨
          (includes text "/ICCBased" = true ∧ includes text "CMYK" = true) then
        ColorSpace.CMYK
      else if includes text "/DeviceRGB" = true then .RGB
      else if includes text "/DeviceGray" = true then .Grayscale
      else .unknown := by
    unfold pdfColorSpace
    simp only [Bool.or_eq_true, Bool.and_eq_true]
  simp only [← includes_iff]
  refine ⟨?_, ?_, ?_, ?_, ?_⟩
  · intro h
    rw [hcs, key, if_pos h]
  · intro h1 h2
    rw [hcs, key, if_neg h1, if_pos h2]
  · intro h1 h2 h3
    rw [hcs, key, if_neg h1, if_neg h2, if_pos h3]
  · intro h1 h2 h3
    rw [hcs, key, if_neg h1, if_neg h2, if_neg h3]
  · intro _ h2
    have hc : pdfColorSpace text = .CMYK := by rw [key, if_pos (Or.inl h2)]
    refine ⟨hc, ?_, ?_⟩
    · have hne := (notOptimalIssue_ne (pdfICC text).2
        "El archivo está en RGB, se requiere conversión a CMYK" (by decide)).symm
      show _ ∉ (pdfPrintability (pdfColorSpace text) (pdfICC text).1 (pdfICC text).2
        (pdfTextReadability sizes).isLegible).2.1
      rw [hc]
      cases (pdfICC text).1 <;> cases (pdfTextReadability sizes).isLegible <;>
        cases hn : notOptimal (pdfICC text).2 ["ISONewspaper", "Euroestándar"] <;>
        simp [pdfPrintability, hn, hne]
    · show (pdfPrintability (pdfColorSpace text) (pdfICC text).1 (pdfICC text).2
        (pdfTextReadability sizes).isLegible).1 ≠ .error
      rw [pdfPrintability_status, hc]
      simp
      split <;> simp

theorem analyzePDF_colorSpace_witness :
    (Contains (latin1 "/DeviceRGB /DeviceCMYK") "/DeviceRGB" ∧
      Contains (latin1 "/DeviceRGB /DeviceCMYK") "/DeviceCMYK") ∧
    (analyzePDF (latin1 "/DeviceRGB /DeviceCMYK") []).colorSpace = .CMYK ∧
    "El archivo está en RGB, se requiere conversión a CMYK" ∉
      (analyzePDF (latin1 "/DeviceRGB /DeviceCMYK") []).printability.issues ∧
    (analyzePDF (latin1 "/DeviceRGB /DeviceCMYK") []).printability.status ≠ .error :=
  ⟨⟨(includes_iff _ _).1 (by decide), (includes_iff _ _).1 (by decide)⟩,
    (analyzePDF_colorSpace (latin1 "/DeviceRGB /DeviceCMYK") []).2.2.2.2
      ((includes_iff _ _).1 (by decide)) ((includes_iff _ _).1 (by decide))⟩

/-! ### C18: the JFIF example of the spec -/

theorem src_walk_next {inner fuel : Nat} {bytes : Bytes} {offset offset1 : Int} {s s1 : Decoded}
    (hlt : offset < (bytes.length : Int) - 1)
    (h : Src.walkStep inner bytes offset s = some (.next offset1 s1)) :
    Src.walk inner (fuel + 1) bytes offset s = Src.walk inner fuel bytes offset1 s1 := by
  rw [Src.walk, if_pos hlt, h]

theorem src_walk_stop {inner fuel : Nat} {bytes : Bytes} {offset : Int} {s s1 : Decoded}
    (hlt : offset < (bytes.length : Int) - 1)
    (h : Src.walkStep inner bytes offset s = some (.stop s1)) :
    Src.walk inner (fuel + 1) bytes offset s = some s1 := by
  rw [Src.walk, if_pos hlt, h]

theorem docs_walk_next {inner fuel : Nat} {bytes : Bytes} {offset offset1 : Int} {s s1 : Decoded}
    (hlt : offset < (bytes.length : Int) - 1)
    (h : Docs.walkStep inner bytes offset s = some (.next offset1 s1)) :
    Docs.walk inner (fuel + 1) bytes offset s = Docs.walk inner fuel bytes offset1 s1 := by
  rw [Docs.walk, if_pos hlt, h]

theorem docs_walk_stop {inner fuel : Nat} {bytes : Bytes} {offset : Int} {s s1 : Decoded}
    (hlt : offset < (bytes.length : Int) - 1)
    (h : Docs.walkStep inner bytes offset s = some (.stop s1)) :
    Docs.walk inner (fuel + 1) bytes offset s = some s1 := by
  rw [Docs.walk, if_pos hlt, h]

theorem hiByte_loByte (n : Nat) (h : n < 65536) :
    ((hiByte n).val : Int) * 256 + ((loByte n).val : Int) = n := by
  simp only [hiByte, loByte, Fin.ofNat, Fin.val_mk]
  omega

theorem jfifSofBytes_lt (a b c e f g : Byte) (k : Int) (hk : k < 40) :
    k < ((jfifSofBytes a b c e f g).length : Int) - 1 := by
  have : (jfifSofBytes a b c e f g).length = 41 := rfl
  rw [this]
  omega

set_option maxHeartbeats 2000000 in
theorem src_step_app0 (inner : Nat) (a b c e f g : Byte) :
    Src.walkStep inner (jfifSofBytes a b c e f g) 2 jpgInit =
      some (.next 20 (Src.app0 (jfifSofBytes a b c e f g) 2 jpgInit)) := by
  rfl

set_option maxHeartbeats 2000000 in
theorem src_step_sof (inner : Nat) (a b c e f g : Byte) (s : Decoded) :
    Src.walkStep inner (jfifSofBytes a b c e f g) 20 s =
      some (.next 39 (Src.sof (jfifSofBytes a b c e f g) 20 s)) := by
  rfl

set_option maxHeartbeats 2000000 in
theorem src_step_eoi (inner : Nat) (a b c e f g : Byte) (s : Decoded) :
    Src.walkStep inner (jfifSofBytes a b c e f g) 39 s = some (.stop s) := by
  rfl

set_option maxHeartbeats 2000000 in
theorem src_state_jfifSof (a b c e f g : Byte) :
    Src.sof (jfifSofBytes a b c e f g) 20 (Src.app0 (jfifSofBytes a b c e f g) 2 jpgInit) =
      { width := (f.val : Int) * 256 + g.val, height := (c.val : Int) * 256 + e.val,
        dpiX := (a.val : Int) * 256 + b.val, dpiY := (a.val : Int) * 256 + b.val,
        colorSpace := .RGB, hasICCProfile := false, iccProfile := none,
        dpiDetected := true } := by
  rfl

/-- The state decoded from `jfifSofBytes` by the copy in `src`. -/
theorem src_walk_jfifSof (inner fuel : Nat) (a b c e f g : Byte) :
    Src.walk inner (fuel + 3) (jfifSofBytes a b c e f g) 2 jpgInit =
      some { width := (f.val : Int) * 256 + g.val, height := (c.val : Int) * 256 + e.val,
             dpiX := (a.val : Int) * 256 + b.val, dpiY := (a.val : Int) * 256 + b.val,
             colorSpace := .RGB, hasICCProfile := false, iccProfile := none,
             dpiDetected := true } := by
  rw [src_walk_next (jfifSofBytes_lt a b c e f g 2 (by decide)) (src_step_app0 inner a b c e f g),
    src_walk_next (jfifSofBytes_lt a b c e f g 20 (by decide)) (src_step_sof inner a b c e f g _),
    src_walk_stop (jfifSofBytes_lt a b c e f g 39 (by decide)) (src_step_eoi inner a b c e f g _),
    src_state_jfifSof]

theorem docs_app0_jfifSof (a b c e f g : Byte) (h0 : 0 < (a.val : Int) * 256 + b.val)
    (h1 : (a.val : Int) * 256 + b.val ≤ 10000) :
    Docs.app0 (jfifSofBytes a b c e f g) 6 jpgInit =
      { jpgInit with dpiX := (a.val : Int) * 256 + b.val, dpiY := (a.val : Int) * 256 + b.val,
                     dpiDetected := true } := by
  have hs : sigAt (jfifSofBytes a b c e f g) 6 (ascii "JFIF" ++ [0]) = true := rfl
  have hu : byteAt (jfifSofBytes a b c e f g) (6 + 7) = some 1 := rfl
  have hx : be16 (jfifSofBytes a b c e f g) (6 + 8) = (a.val : Int) * 256 + b.val := rfl
  have hy : be16 (jfifSofBytes a b c e f g) (6 + 10) = (a.val : Int) * 256 + b.val := rfl
  unfold Docs.app0
  simp only [hs, hu, hx, hy]
  simp [h0, h1]

set_option maxHeartbeats 2000000 in
theorem docs_step_app0 (inner : Nat) (a b c e f g : Byte) :
    Docs.walkStep (inner + 1) (jfifSofBytes a b c e f g) 2 jpgInit =
      some (.next 20 (Docs.app0 (jfifSofBytes a b c e f g) 6 jpgInit)) := by
  rfl

set_option maxHeartbeats 2000000 in
theorem docs_step_sof (inner : Nat) (a b c e f g : Byte) (s : Decoded) :
    Docs.walkStep (inner + 1) (jfifSofBytes a b c e f g) 20 s =
      some (.next 39 (Docs.sof (jfifSofBytes a b c e f g) 24 39 s)) := by
  rfl

set_option maxHeartbeats 2000000 in
theorem docs_step_eoi (inner : Nat) (a b c e f g : Byte) (s : Decoded) :
    Docs.walkStep (inner + 1) (jfifSofBytes a b c e f g) 39 s = some (.stop s) := by
  rfl

set_option maxHeartbeats 2000000 in
theorem docs_sof_jfifSof (a b c e f g : Byte) (x y : Int) :
    Docs.sof (jfifSofBytes a b c e f g) 24 39
      { jpgInit with dpiX := x, dpiY := y, dpiDetected := true } =
      { width := (f.val : Int) * 256 + g.val, height := (c.val : Int) * 256 + e.val,
        dpiX := x, dpiY := y, colorSpace := .RGB, hasICCProfile := false, iccProfile := none,
        dpiDetected := true } := by
  rfl

/-- The state decoded from `jfifSofBytes` by the copy in `docs`. -/
theorem docs_walk_jfifSof (inner fuel : Nat) (a b c e f g : Byte)
    (h0 : 0 < (a.val : Int) * 256 + b.val) (h1 : (a.val : Int) * 256 + b.val ≤ 10000) :
    Docs.walk (inner + 1) (fuel + 3) (jfifSofBytes a b c e f g) 2 jpgInit =
      some { width := (f.val : Int) * 256 + g.val, height := (c.val : Int) * 256 + e.val,
             dpiX := (a.val : Int) * 256 + b.val, dpiY := (a.val : Int) * 256 + b.val,
             colorSpace := .RGB, hasICCProfile := false, iccProfile := none,
             dpiDetected := true } := by
  rw [docs_walk_next (jfifSofBytes_lt a b c e f g 2 (by decide))
      (docs_step_app0 inner a b c e f g),
    docs_walk_next (jfifSofBytes_lt a b c e f g 20 (by decide))
      (docs_step_sof inner a b c e f g _),
    docs_walk_stop (jfifSofBytes_lt a b c e f g 39 (by decide))
      (docs_step_eoi inner a b c e f g _),
    docs_app0_jfifSof a b c e f g h0 h1, docs_sof_jfifSof]

/-- The report made from the state decoded from `jfifSofBytes`. -/
theorem jpgReport_jfifSof (d w h : Int) (h0 : 200 ≤ d) :
    jpgReport { width := w, height := h, dpiX := d, dpiY := d, colorSpace := .RGB,
                hasICCProfile := false, iccProfile := none, dpiDetected := true } =
      { fileType := "JPG"
        resolution := { value := .dpi d, status := .detected }
        colorSpace := .RGB
        hasICCProfile := false
        iccProfile := none
        textReadability := { isLegible := true, status := .legible }
        printability :=
          { status := .warning
            issues := ["El archivo está en RGB, se recomienda convertir a CMYK",
                       "No se detectó perfil ICC embebido"] }
        recommendations := ["Convertir a CMYK con perfil ISONewspaper o Euroestándar",
                            "Se recomienda embeber perfil ICC apropiado"]
        width := w
        height := h
        physicalDimensions := some (pxToMm w d, pxToMm h d) } := by
  have hd : ¬ d < 200 := by omega
  have hd2 : ¬ d < 150 := by omega
  simp [jpgReport, jpgPrintability, rasterTextReadability, hd, hd2]

/-! ### The accuracy of the double arithmetic of `pxToMm` -/

theorem bitLenAux_le (fuel : Nat) : ∀ n K : Nat, n < 2 ^ K → bitLenAux fuel n ≤ K := by
  induction fuel with
  | zero => intro n K _; exact Nat.zero_le _
  | succ f ih =>
    intro n K h
    unfold bitLenAux
    split_ifs with h0
    · exact Nat.zero_le _
    · cases K with
      | zero => simp at h; exact absurd h h0
      | succ K =>
        have : n / 2 < 2 ^ K := by
          rw [Nat.div_lt_iff_lt_mul (by norm_num)]
          rw [pow_succ] at h
          exact h
        have := ih (n / 2) K this
        omega

theorem bitLenAux_ge (fuel : Nat) : ∀ n m : Nat, 2 ^ m ≤ n → m < fuel →
    m + 1 ≤ bitLenAux fuel n := by
  induction fuel with
  | zero => intro n m _ h; omega
  | succ f ih =>
    intro n m h hm
    unfold bitLenAux
    have hn : n ≠ 0 := by
      have : 0 < 2 ^ m := by positivity
      omega
    rw [if_neg hn]
    cases m with
    | zero => omega
    | succ m =>
      have : 2 ^ m ≤ n / 2 := by
        rw [Nat.le_div_iff_mul_le (by norm_num)]
        rw [pow_succ] at h
        exact h
      have := ih (n / 2) m this (by omega)
      omega

theorem bitLen_le (n K : Nat) (h : n < 2 ^ K) : bitLen n ≤ K :=
  bitLenAux_le n n K h

theorem bitLen_pow (m : Nat) : m + 1 ≤ bitLen (2 ^ m) :=
  bitLenAux_ge (2 ^ m) (2 ^ m) m (le_refl _) (Nat.lt_two_pow m)

/-- The rounding of `roundNearest`: the result `q / 2 ^ ex` is within half a unit `1 / 2 ^ ex`
of `n / d`, and `ex + 1` is at least `53 + bitLen d - bitLen n`. -/
theorem roundNearest_spec (n d : Nat) (hd : 0 < d) :
    2 * (roundNearest n d).1 * d ≤ 2 * (n * 2 ^ (roundNearest n d).2) + d ∧
    2 * (n * 2 ^ (roundNearest n d).2) ≤ 2 * (roundNearest n d).1 * d + d ∧
    (n ≠ 0 → 53 + bitLen d ≤ (roundNearest n d).2 + 1 + bitLen n) := by
  unfold roundNearest
  by_cases h0 : n = 0
  · rw [if_pos h0, h0]
    simp
  · rw [if_neg h0]
    simp only []
    generalize hex : (if n * 2 ^ (53 + bitLen d - bitLen n) / d < 2 ^ 53 then
      53 + bitLen d - bitLen n else 53 + bitLen d - bitLen n - 1) = ex
    have hexp : 53 + bitLen d ≤ ex + 1 + bitLen n := by
      rw [← hex]
      split_ifs <;> omega
    have hdm := Nat.div_add_mod (n * 2 ^ ex) d
    have hmod := Nat.mod_lt (n * 2 ^ ex) hd
    set q := n * 2 ^ ex / d with hq
    set r := n * 2 ^ ex % d with hr
    have hqd : 2 * (n * 2 ^ ex) = 2 * (q * d) + 2 * r := by
      have : d * q = q * d := Nat.mul_comm _ _
      omega
    by_cases hup : (decide (d < 2 * r) || (decide (2 * r = d) && decide (q % 2 = 1))) = true
    · rw [if_pos hup]
      simp only [Bool.or_eq_true, Bool.and_eq_true, decide_eq_true_eq] at hup
      have h2r : d ≤ 2 * r := by
        rcases hup with h | ⟨h, _⟩ <;> omega
      refine ⟨?_, ?_, fun _ => hexp⟩
      · have : 2 * (q + 1) * d = 2 * (q * d) + 2 * d := by ring
        omega
      · have : 2 * (q + 1) * d = 2 * (q * d) + 2 * d := by ring
        omega
    · rw [if_neg hup]
      simp only [Bool.or_eq_true, Bool.and_eq_true, decide_eq_true_eq, not_or, not_and] at hup
      have h2r : 2 * r ≤ d := by omega
      refine ⟨?_, ?_, fun _ => hexp⟩
      · have : 2 * q * d = 2 * (q * d) := by ring
        omega
      · have : 2 * q * d = 2 * (q * d) := by ring
        omega

/-- The error of `roundNearest` as a rational bound: for `n < 2 ^ K` and
`L + K <= 53 + bitLen d` the result is within `1 / 2 ^ L` of `n / d`. -/
theorem roundNearest_err (n d K L : Nat) (hd : 0 < d) (hn : n < 2 ^ K)
    (hL : L + K ≤ 53 + bitLen d) :
    |((roundNearest n d).1 : ℚ) / 2 ^ (roundNearest n d).2 - (n : ℚ) / d| ≤ 1 / 2 ^ L := by
  obtain ⟨h1, h2, h3⟩ := roundNearest_spec n d hd
  by_cases h0 : n = 0
  · subst h0
    have : roundNearest 0 d = (0, 0) := by unfold roundNearest; simp
    rw [this]
    simp
  · have hexp := h3 h0
    have hK := bitLen_le n K hn
    set q := (roundNearest n d).1
    set e := (roundNearest n d).2
    have hLe : L ≤ e + 1 := by omega
    have hdq : (0 : ℚ) < d := by exact_mod_cast hd
    have hpe : (0 : ℚ) < 2 ^ e := by positivity
    have h1q : 2 * (q : ℚ) * d ≤ 2 * ((n : ℚ) * 2 ^ e) + d := by exact_mod_cast h1
    have h2q : 2 * ((n : ℚ) * 2 ^ e) ≤ 2 * (q : ℚ) * d + d := by exact_mod_cast h2
    have hhalf : |(q : ℚ) / 2 ^ e - (n : ℚ) / d| ≤ 1 / 2 ^ (e + 1) := by
      rw [abs_le]
      have e1 : (q : ℚ) / 2 ^ e - (n : ℚ) / d = ((q : ℚ) * d - n * 2 ^ e) / (2 ^ e * d) := by
        field_simp
        ring
      have e2 : (1 : ℚ) / 2 ^ (e + 1) = (d / 2) / (2 ^ e * d) := by
        rw [pow_succ]
        field_simp
        ring
      rw [e1, e2]
      have hpos : (0 : ℚ) < 2 ^ e * d := by positivity
      constructor
      · rw [neg_le, ← neg_div, div_le_div_iff_of_pos_right hpos]
        linarith
      · rw [div_le_div_iff_of_pos_right hpos]
        linarith
    refine le_trans hhalf ?_
    apply one_div_le_one_div_of_le (by positivity)
    exact pow_le_pow_right₀ (by norm_num) hLe

theorem toRat_mk (q : Int) (e : Nat) : (⟨q, e⟩ : Dbl).toRat = (q : ℚ) / 2 ^ e := rfl

theorem div_err (w d K L : Nat) (hd : 0 < d) (hw : w < 2 ^ K) (hL : L + K ≤ 53) :
    0 ≤ (Dbl.div w d).man ∧ |(Dbl.div w d).toRat - (w : ℚ) / d| ≤ 1 / 2 ^ L := by
  have e : Dbl.div (w : Int) (d : Int) =
      ⟨((roundNearest w d).1 : Int), (roundNearest w d).2⟩ := by
    unfold Dbl.div
    have hw0 : ¬ ((w : Int) < 0) := by omega
    have hd0 : ¬ ((d : Int) < 0) := by omega
    simp [hw0, hd0]
  rw [e]
  refine ⟨by positivity, ?_⟩
  rw [toRat_mk]
  rw [Int.cast_natCast]
  exact roundNearest_err w d K L hd hw (by omega)

theorem man_lt (x : Dbl) (hx : 0 ≤ x.man) (A : Nat) (h : x.toRat < 2 ^ A) :
    x.man.natAbs < 2 ^ (A + x.ex) := by
  unfold Dbl.toRat at h
  rw [div_lt_iff₀ (by positivity)] at h
  have h2 : (x.man : ℚ) < ((2 ^ (A + x.ex) : Nat) : ℚ) := by
    rw [pow_add]
    push_cast
    exact h
  have h3 : x.man < ((2 ^ (A + x.ex) : Nat) : Int) := by exact_mod_cast h2
  omega

theorem mul_err (x y : Dbl) (K L : Nat) (hx : 0 ≤ x.man) (hy : 0 ≤ y.man)
    (hn : x.man.natAbs * y.man.natAbs < 2 ^ (K + (x.ex + y.ex))) (hL : L + K ≤ 54) :
    0 ≤ (x.mul y).man ∧ |(x.mul y).toRat - x.toRat * y.toRat| ≤ 1 / 2 ^ L := by
  have e : x.mul y =
      ⟨((roundNearest (x.man.natAbs * y.man.natAbs) (2 ^ (x.ex + y.ex))).1 : Int),
        (roundNearest (x.man.natAbs * y.man.natAbs) (2 ^ (x.ex + y.ex))).2⟩ := by
    unfold Dbl.mul
    have hx0 : ¬ (x.man < 0) := by omega
    have hy0 : ¬ (y.man < 0) := by omega
    simp [hx0, hy0]
  rw [e]
  refine ⟨by positivity, ?_⟩
  rw [toRat_mk]
  have hb := bitLen_pow (x.ex + y.ex)
  have := roundNearest_err (x.man.natAbs * y.man.natAbs) (2 ^ (x.ex + y.ex))
    (K + (x.ex + y.ex)) L (by positivity) hn (by omega)
  have ev : x.toRat * y.toRat =
      ((x.man.natAbs * y.man.natAbs : Nat) : ℚ) / ((2 ^ (x.ex + y.ex) : Nat) : ℚ) := by
    unfold Dbl.toRat
    have h1 : ((x.man.natAbs : Nat) : ℚ) = x.man := by
      rw [← Int.cast_natCast, Int.natAbs_of_nonneg hx]
    have h2 : ((y.man.natAbs : Nat) : ℚ) = y.man := by
      rw [← Int.cast_natCast, Int.natAbs_of_nonneg hy]
    push_cast
    rw [h1, h2, pow_add]
    field_simp
  rw [ev, Int.cast_natCast]
  push_cast at this ⊢
  exact this

theorem round_spec (x : Dbl) :
    ((x.round : Int) : ℚ) ≤ x.toRat + 1 / 2 ∧ x.toRat + 1 / 2 < (x.round : ℚ) + 1 := by
  have hb : (0 : Int) < 2 ^ (x.ex + 1) := by positivity
  have e : x.round = (2 * x.man + 2 ^ x.ex) / 2 ^ (x.ex + 1) := by
    unfold Dbl.round
    exact Int.fdiv_eq_ediv _ (le_of_lt hb)
  have h1 := Int.ediv_mul_le (2 * x.man + 2 ^ x.ex) (ne_of_gt hb)
  have h2 := Int.lt_ediv_add_one_mul_self (2 * x.man + 2 ^ x.ex) hb
  rw [← e] at h1 h2
  have h1q : ((x.round : Int) : ℚ) * 2 ^ (x.ex + 1) ≤ 2 * x.man + 2 ^ x.ex := by
    exact_mod_cast h1
  have h2q : (2 : ℚ) * x.man + 2 ^ x.ex < ((x.round : ℚ) + 1) * 2 ^ (x.ex + 1) := by
    exact_mod_cast h2
  have hp : (0 : ℚ) < 2 ^ (x.ex + 1) := by positivity
  have ev : x.toRat + 1 / 2 = (2 * (x.man : ℚ) + 2 ^ x.ex) / 2 ^ (x.ex + 1) := by
    unfold Dbl.toRat
    rw [pow_succ]
    field_simp
    ring
  rw [ev]
  constructor
  · rw [le_div_iff₀ hp]
    exact h1q
  · rw [div_lt_iff₀ hp]
    exact h2q

theorem toRat_nonneg (x : Dbl) (hx : 0 ≤ x.man) : 0 ≤ x.toRat := by
  unfold Dbl.toRat
  have : (0 : ℚ) ≤ x.man := by exact_mod_cast hx
  positivity

/-- An integer `k` that rounds a value within `10 ^ -8` of `254 * w / d` is within one half of
`254 * w / d` itself: `2 * d * k - 508 * w` is an integer. -/
theorem nearest_of_close (w d : Nat) (k : Int) (T : ℚ) (hd0 : 0 < d) (hd1 : d ≤ 10000)
    (hk1 : (k : ℚ) ≤ T + 1 / 2) (hk2 : T + 1 / 2 < (k : ℚ) + 1)
    (hlo : -(1 / 100000000 : ℚ) ≤ T - 254 * ((w : ℚ) / d))
    (hhi : T - 254 * ((w : ℚ) / d) ≤ (1 / 100000000 : ℚ)) :
    |(k : ℚ) - 254 * w / d| ≤ 1 / 2 := by
  have hdq : (0 : ℚ) < d := by exact_mod_cast hd0
  have hdq1 : (d : ℚ) ≤ 10000 := by exact_mod_cast hd1
  have e : (2 : ℚ) * d * ((k : ℚ) - 254 * ((w : ℚ) / d)) = 2 * d * k - 508 * w := by
    field_simp
    ring
  have h1 : (k : ℚ) - 254 * ((w : ℚ) / d) ≤ 1 / 2 + 1 / 100000000 := by linarith
  have h2 : -(1 / 2 + 1 / 100000000 : ℚ) ≤ (k : ℚ) - 254 * ((w : ℚ) / d) := by linarith
  have h3 := mul_le_mul_of_nonneg_left h1 (le_of_lt (by positivity : (0 : ℚ) < 2 * d))
  have h4 := mul_le_mul_of_nonneg_left h2 (le_of_lt (by positivity : (0 : ℚ) < 2 * d))
  rw [e] at h3 h4
  have hz1 : ((2 * d * k - 508 * w : Int) : ℚ) < ((d + 1 : Int) : ℚ) := by
    push_cast
    linarith
  have hz2 : ((-(d + 1) : Int) : ℚ) < ((2 * d * k - 508 * w : Int) : ℚ) := by
    push_cast
    linarith
  have hz3 : (2 * d * k - 508 * w : Int) < d + 1 := by exact_mod_cast hz1
  have hz4 : -((d : Int) + 1) < (2 * d * k - 508 * w : Int) := by exact_mod_cast hz2
  have hz5 : (2 * d * k - 508 * w : Int) ≤ d := by omega
  have hz6 : -(d : Int) ≤ (2 * d * k - 508 * w : Int) := by omega
  have hz7 : ((2 * d * k - 508 * w : Int) : ℚ) ≤ ((d : Int) : ℚ) := by exact_mod_cast hz5
  have hz8 : ((-(d : Int) : Int) : ℚ) ≤ ((2 * d * k - 508 * w : Int) : ℚ) := by exact_mod_cast hz6
  push_cast at hz7 hz8
  have e2 : (k : ℚ) - 254 * w / d = (2 * d * k - 508 * w) / (2 * d) := by
    field_simp
    ring
  rw [abs_le, e2]
  constructor
  · rw [le_div_iff₀ (by positivity)]
    linarith
  · rw [div_le_iff₀ (by positivity)]
    linarith


/-- The value `pxToMm(w, d)` for a 16-bit `w` and `d` from 1 to 10000 is finite and within
`2 ^ -28` of `k / 10`, where `k` is an integer nearest to `254 * w / d`. -/
theorem pxToMm_spec (w d : Nat) (hw : w < 65536) (hd0 : 0 < d) (hd1 : d ≤ 10000) :
    ∃ (k : Int) (x : Dbl), pxToMm w d = .finite x ∧
      |(k : ℚ) - 254 * w / d| ≤ 1 / 2 ∧ |x.toRat - k / 10| ≤ 1 / 2 ^ 28 := by
  have hdq : (0 : ℚ) < d := by exact_mod_cast hd0
  have hdq1 : (d : ℚ) ≤ 10000 := by exact_mod_cast hd1
  have hwq : (w : ℚ) ≤ 65535 := by
    have : w ≤ 65535 := by omega
    exact_mod_cast this
  have hW0 : (0 : ℚ) ≤ (w : ℚ) / d := by positivity
  have hW1 : (w : ℚ) / d ≤ 65535 := by
    rw [div_le_iff₀ hdq]
    have : (1 : ℚ) ≤ d := by exact_mod_cast hd0
    nlinarith
  obtain ⟨ha0, ha⟩ := div_err w d 16 37 hd0 (by norm_num; omega) (by norm_num)
  generalize ea : Dbl.div (w : Int) (d : Int) = a at ha0 ha
  have ha1 := abs_le.mp ha
  have haA : a.toRat < 2 ^ 16 := by
    have : (1 : ℚ) / 2 ^ 37 < 1 := by norm_num
    norm_num
    linarith [ha1.2]
  have hc : (⟨3574732204225331, 47⟩ : Dbl).toRat = 3574732204225331 / 140737488355328 := by
    unfold Dbl.toRat
    norm_num
  have hn1 : a.man.natAbs * (⟨3574732204225331, 47⟩ : Dbl).man.natAbs <
      2 ^ (21 + (a.ex + (⟨3574732204225331, 47⟩ : Dbl).ex)) := by
    have h1 := man_lt a ha0 16 haA
    have h2 : (⟨3574732204225331, 47⟩ : Dbl).man.natAbs < 2 ^ 52 := by decide
    have h3 := Nat.mul_lt_mul_of_lt_of_le h1 (le_of_lt h2) (by positivity)
    rw [← pow_add] at h3
    have e : 16 + a.ex + 52 = 21 + (a.ex + (⟨3574732204225331, 47⟩ : Dbl).ex) := by
      show 16 + a.ex + 52 = 21 + (a.ex + 47)
      omega
    rw [e] at h3
    exact h3
  obtain ⟨hb0, hb⟩ := mul_err a ⟨3574732204225331, 47⟩ 21 33 ha0 (by decide) hn1 (by norm_num)
  rw [hc] at hb
  generalize eb : a.mul ⟨3574732204225331, 47⟩ = b at hb0 hb
  have hb1 := abs_le.mp hb
  have hbB : b.toRat < 2 ^ 21 := by
    norm_num at ha1 hb1 ⊢
    linarith [ha1.2, hb1.2]
  have hten : (Dbl.ofInt 10).toRat = 10 := by
    unfold Dbl.toRat Dbl.ofInt
    norm_num
  have hn2 : b.man.natAbs * (Dbl.ofInt 10).man.natAbs <
      2 ^ (25 + (b.ex + (Dbl.ofInt 10).ex)) := by
    have h1 := man_lt b hb0 21 hbB
    have h2 : (Dbl.ofInt 10).man.natAbs < 2 ^ 4 := by decide
    have h3 := Nat.mul_lt_mul_of_lt_of_le h1 (le_of_lt h2) (by positivity)
    rw [← pow_add] at h3
    have e : 21 + b.ex + 4 = 25 + (b.ex + (Dbl.ofInt 10).ex) := by
      show 21 + b.ex + 4 = 25 + (b.ex + 0)
      omega
    rw [e] at h3
    exact h3
  obtain ⟨ht0, ht⟩ := mul_err b (Dbl.ofInt 10) 25 29 hb0 (by decide) hn2 (by norm_num)
  rw [hten] at ht
  generalize et : b.mul (Dbl.ofInt 10) = t at ht0 ht
  have ht1 := abs_le.mp ht
  have htn := toRat_nonneg t ht0
  obtain ⟨hk1, hk2⟩ := round_spec t
  generalize ek : t.round = k at hk1 hk2
  -- the distance of `t` from `254 * w / d`
  have e254 : (254 : ℚ) * w / d = 254 * ((w : ℚ) / d) := by ring
  have hlo : -(1 / 100000000 : ℚ) ≤ t.toRat - 254 * ((w : ℚ) / d) := by
    norm_num at ha1 hb1 ht1 ⊢
    linarith [ha1.1, hb1.1, ht1.1]
  have hhi : t.toRat - 254 * ((w : ℚ) / d) ≤ (1 / 100000000 : ℚ) := by
    norm_num at ha1 hb1 ht1 ⊢
    linarith [ha1.2, hb1.2, ht1.2]
  have hk0 : 0 ≤ k := by
    have : (-1 : ℚ) < k := by linarith
    have : (-1 : Int) < k := by exact_mod_cast this
    omega
  have hkB : k.toNat < 2 ^ 25 := by
    have h1 : (k : ℚ) < 33554432 := by
      norm_num at ha1 hb1 ht1
      linarith [ha1.2, hb1.2, ht1.2]
    have h2 : k < 33554432 := by exact_mod_cast h1
    norm_num
    omega
  have hkn : ((k.toNat : Nat) : Int) = k := Int.toNat_of_nonneg hk0
  obtain ⟨-, hx⟩ := div_err k.toNat 10 25 28 (by norm_num) hkB (by norm_num)
  rw [hkn] at hx
  have hkq : ((k.toNat : Nat) : ℚ) = k := by
    rw [← Int.cast_natCast, hkn]
  rw [hkq] at hx
  refine ⟨k, Dbl.div k 10, ?_, nearest_of_close w d k t.toRat hd0 hd1 hk1 hk2 hlo hhi, hx⟩
  unfold pxToMm
  have hd : ¬ ((d : Int) = 0) := by omega
  rw [if_neg hd, ea, eb, et, ek]


/-- For every density d from 200 to 10000 and all 16-bit w and h, both copies report the
file `jfifSofJpg d w h` (given fuel for its three markers) with the resolution d, detected, the
colour space RGB, the pixel dimensions w x h, `physicalDimensions` present with the values
`pxToMm(w, d)` and `pxToMm(h, d)`, no ICC profile and the status `warning`. -/
theorem jfifSof_report (fuel d w h : Nat) (hd0 : 200 ≤ d) (hd1 : d ≤ 10000) (hw : w < 65536)
    (hh : h < 65536) :
    ∀ analyze ∈ [Src.analyzeJPG, Docs.analyzeJPG],
      analyze (fuel + 3) (jfifSofJpg d w h) = .returned
        { fileType := "JPG"
          resolution := { value := .dpi d, status := .detected }
          colorSpace := .RGB
          hasICCProfile := false
          iccProfile := none
          textReadability := { isLegible := true, status := .legible }
          printability :=
            { status := .warning
              issues := ["El archivo está en RGB, se recomienda convertir a CMYK",
                         "No se detectó perfil ICC embebido"] }
          recommendations := ["Convertir a CMYK con perfil ISONewspaper o Euroestándar",
                              "Se recomienda embeber perfil ICC apropiado"]
          width := w
          height := h
          physicalDimensions := some (pxToMm w d, pxToMm h d) } := by
  have ed := hiByte_loByte d (by omega)
  have ew := hiByte_loByte w hw
  have eh := hiByte_loByte h hh
  have hsig : ¬ (byteAt (jfifSofJpg d w h) 0 ≠ some 0xFF ∨ byteAt (jfifSofJpg d w h) 1 ≠ some 0xD8) := by
    rintro (h | h) <;> exact h rfl
  intro analyze ha
  simp only [List.mem_cons, List.mem_singleton, List.not_mem_nil, or_false] at ha
  rcases ha with rfl | rfl
  · unfold Src.analyzeJPG
    rw [if_neg hsig]
    unfold jfifSofJpg
    rw [src_walk_jfifSof, ed, ew, eh]
    simp only []
    rw [jpgReport_jfifSof _ _ _ (by omega)]
  · unfold Docs.analyzeJPG
    rw [if_neg hsig]
    unfold jfifSofJpg
    have := docs_walk_jfifSof (fuel + 2) fuel (hiByte d) (loByte d) (hiByte h) (loByte h)
      (hiByte w) (loByte w) (by rw [ed]; omega) (by rw [ed]; omega)
    rw [this, ed, ew, eh]
    simp only []
    rw [jpgReport_jfifSof _ _ _ (by omega)]

/-- C18 (fails on the code): two sizes whose exact millimetre value lies half-way between two
tenths.  At 200 dpi, 150 px are 19.05 mm and 550 px are 69.85 mm (`254 * px / 200` is 190.5 and
698.5).  On `jfifSofJpg 200 150 550` both copies report the width 19 mm, the lower tenth, and
the height 69.9 mm, the upper tenth: in doubles `(150 / 200) * 25.4 * 10` is just below 190.5 and
`(550 / 200) * 25.4 * 10` is 698.5, which `Math.round` takes up.  So the values are not the exact
quotient rounded to one decimal under any one rule for the half-way case. -/
theorem jfif_half_tenths :
    ((254 : ℚ) * 150 / 200 = 190 + 1 / 2 ∧ (254 : ℚ) * 550 / 200 = 698 + 1 / 2) ∧
    (∃ r, Src.analyzeJPG 3 (jfifSofJpg 200 150 550) = .returned r ∧
      r.physicalDimensions =
        some (.finite ⟨5348024557502464, 48⟩, .finite ⟨4918775218018714, 46⟩)) ∧
    (∃ r, Docs.analyzeJPG 3 (jfifSofJpg 200 150 550) = .returned r ∧
      r.physicalDimensions =
        some (.finite ⟨5348024557502464, 48⟩, .finite ⟨4918775218018714, 46⟩)) ∧
    ((((Dbl.div 150 200).mul ⟨3574732204225331, 47⟩).mul (Dbl.ofInt 10)).toRat < 190 + 1 / 2 ∧
      (((Dbl.div 550 200).mul ⟨3574732204225331, 47⟩).mul (Dbl.ofInt 10)).toRat = 698 + 1 / 2) ∧
    (Dbl.toRat ⟨5348024557502464, 48⟩ = 19 ∧
      |Dbl.toRat ⟨4918775218018714, 46⟩ - 699 / 10| ≤ 1 / 2 ^ 40) := by
  have e1 : ((Dbl.div 150 200).mul ⟨3574732204225331, 47⟩).mul (Dbl.ofInt 10) =
      ⟨6702622882922495, 45⟩ := by decide
  have e2 : ((Dbl.div 550 200).mul ⟨3574732204225331, 47⟩).mul (Dbl.ofInt 10) =
      ⟨6144070976012288, 43⟩ := by decide
  refine ⟨by constructor <;> norm_num, ⟨_, rfl, by decide⟩, ⟨_, rfl, by decide⟩, ?_, ?_⟩
  · rw [e1, e2]
    constructor <;> norm_num [Dbl.toRat]
  · constructor
    · norm_num [Dbl.toRat]
    · rw [abs_le]
      constructor <;> norm_num [Dbl.toRat]

/-- C18 (amended): for every density d from 200 to 10000 and all 16-bit w and h, both copies
report the file `jfifSofJpg d w h` (given fuel for its three markers) with the resolution d,
detected, the colour space RGB, the pixel dimensions w x h, no ICC profile, the status `warning`
and `physicalDimensions` present with the values `pxToMm(w, d)` and `pxToMm(h, d)`.  Each of
the two values is finite and within `2 ^ -28` of `k / 10` for an integer `k` that is nearest to
`254 * px / d`, that is, to ten times `px / d * 25.4`: the value is `px / d * 25.4` rounded to
one decimal, a half-way case going to either neighbour. -/
theorem jfif_example (fuel d w h : Nat) (hd0 : 200 ≤ d) (hd1 : d ≤ 10000) (hw : w < 65536)
    (hh : h < 65536) :
    (∀ analyze ∈ [Src.analyzeJPG, Docs.analyzeJPG],
      analyze (fuel + 3) (jfifSofJpg d w h) = .returned
        { fileType := "JPG"
          resolution := { value := .dpi d, status := .detected }
          colorSpace := .RGB
          hasICCProfile := false
          iccProfile := none
          textReadability := { isLegible := true, status := .legible }
          printability :=
            { status := .warning
              issues := ["El archivo está en RGB, se recomienda convertir a CMYK",
                         "No se detectó perfil ICC embebido"] }
          recommendations := ["Convertir a CMYK con perfil ISONewspaper o Euroestándar",
                              "Se recomienda embeber perfil ICC apropiado"]
          width := w
          height := h
          physicalDimensions := some (pxToMm w d, pxToMm h d) }) ∧
    (∃ (k : Int) (x : Dbl), pxToMm w d = .finite x ∧
      |(k : ℚ) - 254 * w / d| ≤ 1 / 2 ∧ |x.toRat - k / 10| ≤ 1 / 2 ^ 28) ∧
    (∃ (k : Int) (y : Dbl), pxToMm h d = .finite y ∧
      |(k : ℚ) - 254 * h / d| ≤ 1 / 2 ∧ |y.toRat - k / 10| ≤ 1 / 2 ^ 28) :=
  ⟨jfifSof_report fuel d w h hd0 hd1 hw hh, pxToMm_spec w d hw (by omega) hd1,
    pxToMm_spec h d hh (by omega) hd1⟩

/-- The instance of the spec, 1000 x 2000 px at 300 dpi: 84.7 mm by 169.3 mm, as the doubles
nearest to 84.7 and to 169.3; 847 and 1693 are the integers nearest to 846.67 and 1693.33. -/
theorem jfif_example_witness :
    (200 ≤ 300 ∧ 300 ≤ 10000 ∧ 1000 < 65536 ∧ 2000 < 65536) ∧
    ((∀ analyze ∈ [Src.analyzeJPG, Docs.analyzeJPG],
      analyze (0 + 3) (jfifSofJpg 300 1000 2000) = .returned
        { fileType := "JPG"
          resolution := { value := .dpi (300 : Nat), status := .detected }
          colorSpace := .RGB
          hasICCProfile := false
          iccProfile := none
          textReadability := { isLegible := true, status := .legible }
          printability :=
            { status := .warning
              issues := ["El archivo está en RGB, se recomienda convertir a CMYK",
                         "No se detectó perfil ICC embebido"] }
          recommendations := ["Convertir a CMYK con perfil ISONewspaper o Euroestándar",
                              "Se recomienda embeber perfil ICC apropiado"]
          width := (1000 : Nat)
          height := (2000 : Nat)
          physicalDimensions :=
            some (pxToMm (1000 : Nat) (300 : Nat), pxToMm (2000 : Nat) (300 : Nat)) }) ∧
      (∃ (k : Int) (x : Dbl), pxToMm (1000 : Nat) (300 : Nat) = .finite x ∧
        |(k : ℚ) - 254 * (1000 : Nat) / (300 : Nat)| ≤ 1 / 2 ∧ |x.toRat - k / 10| ≤ 1 / 2 ^ 28) ∧
      (∃ (k : Int) (y : Dbl), pxToMm (2000 : Nat) (300 : Nat) = .finite y ∧
        |(k : ℚ) - 254 * (2000 : Nat) / (300 : Nat)| ≤ 1 / 2 ∧
        |y.toRat - k / 10| ≤ 1 / 2 ^ 28)) ∧
    (pxToMm (1000 : Nat) (300 : Nat) = .finite ⟨5960232631848141, 46⟩ ∧
      pxToMm (2000 : Nat) (300 : Nat) = .finite ⟨5956714194639258, 45⟩) ∧
    (|Dbl.toRat ⟨5960232631848141, 46⟩ - 847 / 10| ≤ 1 / 2 ^ 40 ∧
      |Dbl.toRat ⟨5956714194639258, 45⟩ - 1693 / 10| ≤ 1 / 2 ^ 40) ∧
    (|((847 : Int) : ℚ) - 254 * (1000 : Nat) / (300 : Nat)| ≤ 1 / 2 ∧
      |((1693 : Int) : ℚ) - 254 * (2000 : Nat) / (300 : Nat)| ≤ 1 / 2) :=
  ⟨by decide, jfif_example 0 300 1000 2000 (by decide) (by decide) (by decide) (by decide),
    ⟨by decide, by decide⟩,
    ⟨by rw [abs_le]; constructor <;> norm_num [Dbl.toRat],
     by rw [abs_le]; constructor <;> norm_num [Dbl.toRat]⟩,
    ⟨by rw [abs_le]; constructor <;> norm_num, by rw [abs_le]; constructor <;> norm_num⟩⟩

/-! ### C28, C30: the TIFF reads and the Photoshop resolution -/

/-- C28 (fails on the code): reads that do not lie inside the buffer and do not give 0.  In
`src` the closures have no bounds check: on the 3 bytes `II*` the magic read `readUint16(2)`
gives 42, and on a header cut after 5 bytes `readUint32(4)` gives 8.  In `docs` the check is on
the end of the buffer only: with the IFD offset `FF FF FF FF`, which is read as -1, the entry
count `readUint16(-1)` is `0x4900`, made of the missing byte at -1 and the byte at 0. -/
theorem read_outside_not_zero :
    Src.readUint16 shortTiff true 2 = 42 ∧
    Src.readUint32 cutOffsetTiff true 4 = 8 ∧
    Docs.readUint32 cutOffsetTiff true 4 = 0 ∧
    Docs.readUint32 negativeIfdTiff true 4 = -1 ∧
    Docs.readUint16 negativeIfdTiff true (-1) = 18688 := by
  decide

/-- C30 (fails on the code): on `photoshopJpg`, whose Photoshop resource holds hRes = 72 and
vRes = 300 with both units 1, the copy in `src` reports 72 dots per inch and the copy in `docs`
300.  In `src` the vertical resolution is read at `dataStart + 10`, which is the width-unit field
followed by the first two bytes of vRes: it gets `00 01 01 2C`, about 1.0046, so `dpiY` is 1. -/
theorem photoshop_vertical_resolution :
    (∃ r, Src.analyzeJPG 100 photoshopJpg = .returned r ∧
      r.resolution = { value := .dpi 72, status := .detected }) ∧
    (∃ r, Docs.analyzeJPG 100 photoshopJpg = .returned r ∧
      r.resolution = { value := .dpi 300, status := .detected }) := by
  refine ⟨⟨_, rfl, ?_⟩, ⟨_, rfl, ?_⟩⟩ <;> decide

/-! ### C29: the entry loop of analyzeTIFF -/

theorem longTiff_zero (last : Bytes) (p : Int) (h1 : 10 ≤ p) (h2 : p < 1210) :
    u8 (longTiff last) p = 0 := by
  obtain ⟨n, rfl⟩ := Int.eq_ofNat_of_zero_le (by omega : 0 ≤ p)
  have hn1 : 10 ≤ n := by omega
  have hn2 : n < 1210 := by omega
  unfold u8 byteAt longTiff
  rw [if_neg (by omega)]
  simp only [Int.toNat_ofNat]
  rw [List.getElem?_append_left (by simp only [List.length_append, List.length_replicate, List.length_cons, List.length_nil]; omega),
    List.getElem?_append_left (by simp only [List.length_append, List.length_replicate, List.length_cons, List.length_nil]; omega),
    List.getElem?_append_right (by simp only [List.length_cons, List.length_nil]; omega)]
  simp only [List.length_cons, List.length_nil]
  rw [List.getElem?_replicate, if_pos (by omega)]
  rfl

theorem longTiff_tag_zero (last : Bytes) (i : Nat) (h : i < 100) :
    le16 (longTiff last) (8 + 2 + (i : Int) * 12) = 0 := by
  unfold le16
  rw [longTiff_zero last _ (by omega) (by omega), longTiff_zero last _ (by omega) (by omega)]
  rfl

theorem src_tiffEntry_skip (bytes : Bytes) (littleEndian : Bool) (ifdOffset : Int)
    (s : TiffDecoded) (i : Nat)
    (h : Src.readUint16 bytes littleEndian (ifdOffset + 2 + (i : Int) * 12) = 0) :
    Src.tiffEntry bytes littleEndian ifdOffset s i = s := by
  unfold Src.tiffEntry
  simp [h]

theorem docs_tiffEntry_skip (bytes : Bytes) (littleEndian : Bool) (entryOffset : Int)
    (s : TiffDecoded) (h : Docs.readUint16 bytes littleEndian entryOffset = 0) :
    Docs.tiffEntry bytes littleEndian entryOffset s = s := by
  unfold Docs.tiffEntry
  simp [h]

theorem foldl_skip {α β : Type} (f : α → β → α) (s : α) (l : List β)
    (h : ∀ i ∈ l, f s i = s) : l.foldl f s = s := by
  induction l with
  | nil => rfl
  | cons x xs ih =>
    rw [List.foldl_cons, h x (by simp)]
    exact ih (fun i hi => h i (by simp [hi]))

theorem docs_tiffEntries_skip (bytes : Bytes) (littleEndian : Bool) (ifdOffset : Int)
    (s : TiffDecoded) (remaining : Nat) :
    ∀ i : Nat, (∀ j : Nat, i ≤ j → j < i + remaining →
      Docs.readUint16 bytes littleEndian (ifdOffset + 2 + (j : Int) * 12) = 0) →
    Docs.tiffEntries bytes littleEndian ifdOffset remaining i s = s := by
  induction remaining with
  | zero => intro i _; rfl
  | succ n ih =>
    intro i h
    unfold Docs.tiffEntries
    simp only []
    split
    · rfl
    · rw [docs_tiffEntry_skip _ _ _ _ (h i (le_refl i) (by omega))]
      exact ih (i + 1) (fun j hj1 hj2 => h j (by omega) (by omega))

theorem u8_append_left (a b : Bytes) (i : Int) (h0 : 0 ≤ i) (h : i < a.length) :
    u8 (a ++ b) i = u8 a i := by
  obtain ⟨n, rfl⟩ := Int.eq_ofNat_of_zero_le h0
  unfold u8 byteAt
  rw [if_neg (by omega), if_neg (by omega)]
  simp only [Int.toNat_ofNat]
  rw [List.getElem?_append_left (by omega)]

/-- The first ten bytes of `longTiff`. -/
theorem longTiff_header (last : Bytes) (i : Int) (h0 : 0 ≤ i) (h : i < 10) :
    u8 (longTiff last) i =
      u8 [0x49, 0x49, 0x2A, 0x00, 0x08, 0x00, 0x00, 0x00, 0x65, 0x00] i := by
  unfold longTiff
  rw [List.append_assoc, List.append_assoc]
  exact u8_append_left _ _ i h0 (by simpa using h)

theorem longTiff_reads (last : Bytes) :
    be16 (longTiff last) 0 = 0x4949 ∧ le16 (longTiff last) 2 = 42 ∧
    le32 (longTiff last) 4 = 8 ∧ le16 (longTiff last) 8 = 101 := by
  unfold be16 le16 le32
  repeat rw [longTiff_header last _ (by omega) (by omega)]
  decide

theorem longTiff_length (last : Bytes) : (longTiff last).length = 1214 + last.length := by
  simp only [longTiff, List.length_append, List.length_replicate, List.length_cons,
    List.length_nil]
  omega

theorem src_analyzeTIFF_longTiff (last : Bytes) :
    Src.analyzeTIFF (longTiff last) =
      .returned (tiffReport (Src.tiffEntry (longTiff last) true 8 tiffInit 100)) := by
  obtain ⟨h1, h2, h3, h4⟩ := longTiff_reads last
  unfold Src.analyzeTIFF Src.readUint32 Src.readUint16
  simp only [h1, decide_True, if_true, h2, h3, h4, ne_eq, not_true_eq_false, if_false]
  have h5 : List.range (101 : Int).toNat = List.range 100 ++ [100] := by
    show List.range (100 + 1) = _
    rw [List.range_succ]
  rw [h5, List.foldl_append, foldl_skip _ tiffInit (List.range 100)]
  · simp only [List.foldl_cons, List.foldl_nil]
  · intro i hi
    apply src_tiffEntry_skip
    have hi1 : i < 100 := by simpa using hi
    unfold Src.readUint16
    rw [if_pos rfl]
    exact longTiff_tag_zero last i hi1

theorem docs_analyzeTIFF_longTiff (last : Bytes) :
    Docs.analyzeTIFF (longTiff last) = .returned (tiffReport tiffInit) := by
  obtain ⟨h1, h2, h3, h4⟩ := longTiff_reads last
  have hlen := longTiff_length last
  unfold Docs.analyzeTIFF
  simp only [h1, decide_True]
  have e2 : Docs.readUint16 (longTiff last) true 2 = 42 := by
    unfold Docs.readUint16; rw [if_neg (by rw [hlen]; omega), if_pos rfl]; exact h2
  have e3 : Docs.readUint32 (longTiff last) true 4 = 8 := by
    unfold Docs.readUint32; rw [if_neg (by rw [hlen]; omega), if_pos rfl]; exact h3
  have e4 : Docs.readUint16 (longTiff last) true 8 = 101 := by
    unfold Docs.readUint16; rw [if_neg (by rw [hlen]; omega), if_pos rfl]; exact h4
  simp only [e2, e3, e4, ne_eq, not_true_eq_false, if_false]
  have h5 : min (101 : Int).toNat 100 = 100 := rfl
  rw [h5, docs_tiffEntries_skip]
  intro j _ hj
  unfold Docs.readUint16
  split
  · rfl
  · rw [if_pos rfl]
    exact longTiff_tag_zero last j (by omega)

/-- C29 (fails on the code): the files `longTiff cmykEntry` and `longTiff zeroEntry` declare 101
entries and differ in the bytes of entry 100 only.  The copy in `src`, whose loop is
`for (let i = 0; i < numEntries; i++)`, reads entry 100 and reports CMYK for the first file and
`unknown` for the second; the copy in `docs`, whose loop stops at `i < 100`, gives both files the
same report. -/
theorem tiff_entry_100_read :
    (∀ last, longTiff last =
      [0x49, 0x49, 0x2A, 0x00, 0x08, 0x00, 0x00, 0x00, 0x65, 0x00] ++ List.replicate 1200 0
        ++ last ++ [0x00, 0x00, 0x00, 0x00]) ∧
    (∃ r, Src.analyzeTIFF (longTiff cmykEntry) = .returned r ∧ r.colorSpace = .CMYK) ∧
    (∃ r, Src.analyzeTIFF (longTiff zeroEntry) = .returned r ∧ r.colorSpace = .unknown) ∧
    Docs.analyzeTIFF (longTiff cmykEntry) = Docs.analyzeTIFF (longTiff zeroEntry) := by
  refine ⟨fun _ => rfl, ⟨_, src_analyzeTIFF_longTiff _, ?_⟩, ⟨_, src_analyzeTIFF_longTiff _, ?_⟩, ?_⟩
  · show (Src.tiffEntry (longTiff cmykEntry) true 8 tiffInit 100).colorSpace = .CMYK
    decide
  · show (Src.tiffEntry (longTiff zeroEntry) true 8 tiffInit 100).colorSpace = .unknown
    decide
  · rw [docs_analyzeTIFF_longTiff, docs_analyzeTIFF_longTiff]

/-! ### C25, C39: the text analyzers in the two copies -/

theorem jsSlice_full (bytes : Bytes) : jsSlice bytes 0 bytes.length = bytes := by
  unfold jsSlice sliceIndex
  rw [if_neg (by omega), if_neg (by omega)]
  simp

theorem docs_analyzePDF_eq (bytes : Bytes) : Docs.analyzePDF bytes = Src.analyzePDF bytes := by
  unfold Docs.analyzePDF Src.analyzePDF Docs.bytesToString
  rw [jsSlice_full]

theorem docs_analyzeEPS_eq (bytes : Bytes) : Docs.analyzeEPS bytes = Src.analyzeEPS bytes := by
  unfold Docs.analyzeEPS Src.analyzeEPS Docs.bytesToString
  rw [jsSlice_full]

theorem epsPrintability_status (cs : ColorSpace) :
    (epsPrintability cs).1 = if cs = .RGB ∨ cs = .unknown then .warning else .ready := by
  cases cs <;> simp [epsPrintability]

/-- C25: for every buffer, `analyzeEPS` (a total function, in both copies) reports legible text
with the status `legible`, the resolution `Vector` / `vector`, no ICC profile, and the status
`warning` exactly when the colour space is RGB or unknown, `ready` otherwise, never `error`. -/
theorem analyzeEPS_report (bytes : Bytes) :
    ∀ r ∈ [Src.analyzeEPS bytes, Docs.analyzeEPS bytes],
      r.textReadability = { isLegible := true, status := .legible } ∧
      r.resolution = { value := .vector, status := .vector } ∧
      r.hasICCProfile = false ∧
      (r.printability.status = .warning ↔ (r.colorSpace = .RGB ∨ r.colorSpace = .unknown)) ∧
      (r.printability.status = .ready ↔ ¬ (r.colorSpace = .RGB ∨ r.colorSpace = .unknown)) ∧
      r.printability.status ≠ .error := by
  intro r hr
  have h : r = Src.analyzeEPS bytes := by
    rcases List.mem_cons.mp hr with h | h
    · exact h
    · rw [List.mem_singleton.mp h, docs_analyzeEPS_eq]
  subst h
  refine ⟨rfl, rfl, rfl, ?_⟩
  show ((epsPrintability (epsColorSpace bytes)).1 = .warning ↔ _) ∧
    ((epsPrintability (epsColorSpace bytes)).1 = .ready ↔ _) ∧
    (epsPrintability (epsColorSpace bytes)).1 ≠ .error
  rw [epsPrintability_status]
  show (_ ↔ (epsColorSpace bytes = .RGB ∨ epsColorSpace bytes = .unknown)) ∧
    (_ ↔ ¬ (epsColorSpace bytes = .RGB ∨ epsColorSpace bytes = .unknown)) ∧ _
  by_cases hc : epsColorSpace bytes = .RGB ∨ epsColorSpace bytes = .unknown
  · simp [hc]
  · simp [hc]

/-- An EPS text that sets a CMYK colour: the report is ready, one without any colour operator
gets a warning. -/
theorem analyzeEPS_report_witness :
    (Src.analyzeEPS (latin1 "%!PS-Adobe-3.0 EPSF-3.0 0 0 0 1 setcmykcolor")).printability.status =
      .ready ∧
    (Docs.analyzeEPS (latin1 "%!PS-Adobe-3.0 EPSF-3.0")).printability.status = .warning :=
  ⟨((analyzeEPS_report (latin1 "%!PS-Adobe-3.0 EPSF-3.0 0 0 0 1 setcmykcolor") _
      (List.mem_cons_self _ _)).2.2.2.2.1).mpr (by decide),
   ((analyzeEPS_report (latin1 "%!PS-Adobe-3.0 EPSF-3.0") _
      (List.mem_cons_of_mem _ (List.mem_cons_self _ _))).2.2.2.1).mpr (by decide)⟩

/-- C39: for every buffer the two copies of `analyzePDF` return the same report, and so do the
two copies of `analyzeEPS`: the text `bytesToString(bytes, 0, bytes.length)` of the copy in `docs`
is the Latin-1 text of the copy in `src`. -/
theorem text_analyzers_agree (bytes : Bytes) :
    Docs.bytesToString bytes 0 bytes.length = bytes ∧
    Docs.analyzePDF bytes = Src.analyzePDF bytes ∧
    Docs.analyzeEPS bytes = Src.analyzeEPS bytes :=
  ⟨jsSlice_full bytes, docs_analyzePDF_eq bytes, docs_analyzeEPS_eq bytes⟩

/-! ### C31: the padded length of a resource name -/

/-- C31: for every name length `n` in 0..255 the padding formula of the copy in `docs`,
`(n + 1 + 1) & ~1`, and that of the copy in `src`, `n + (n % 2 === 0 ? 1 : 0) + 1`, give the same
number, which is even, at least `n + 1`, and the smallest such number. -/
theorem paddedNameLen_agree (n : Nat) (h : n ≤ 255) :
    Docs.paddedNameLen (some n) = Src.paddedNameLen n ∧
    Int.emod (Src.paddedNameLen n) 2 = 0 ∧
    (n : Int) + 1 ≤ Src.paddedNameLen n ∧
    ∀ m : Int, Int.emod m 2 = 0 → (n : Int) + 1 ≤ m → Src.paddedNameLen n ≤ m := by
  have e : ∀ a b : Int, Int.emod a b = a % b := fun _ _ => rfl
  unfold Docs.paddedNameLen Src.paddedNameLen clearBit0 toInt32
  simp only [e]
  refine ⟨?_, ?_, ?_, ?_⟩
  · split_ifs <;> omega
  · split_ifs <;> omega
  · split_ifs <;> omega
  · intro m hm hle
    split_ifs <;> omega

/-- A name of 4 bytes takes 6 bytes with its length byte and the padding. -/
theorem paddedNameLen_agree_witness :
    Docs.paddedNameLen (some 4) = Src.paddedNameLen 4 ∧ Src.paddedNameLen 4 = 6 :=
  ⟨(paddedNameLen_agree 4 (by decide)).1, by decide⟩

/-! ### C37: a ready verdict and the issues -/

theorem pdfPrintability_ready (cs : ColorSpace) (h : Bool) (icc : Option String) (leg : Bool) :
    ((pdfPrintability cs h icc leg).1 = .ready ↔ (pdfPrintability cs h icc leg).2.1 = []) ∧
    ((pdfPrintability cs h icc leg).1 = .ready →
      (pdfPrintability cs h icc leg).2.2 = ["Archivo listo para impresión en papel prensa"]) := by
  cases cs <;> cases h <;> cases leg <;>
    cases hn : notOptimal icc ["ISONewspaper", "Euroestándar"] <;>
    simp [pdfPrintability, hn]

theorem epsPrintability_ready (cs : ColorSpace) :
    ((epsPrintability cs).1 = .ready ↔ (epsPrintability cs).2.1 = []) ∧
    ((epsPrintability cs).1 = .ready →
      (epsPrintability cs).2.2 = ["Archivo vectorial listo para impresión"]) := by
  cases cs <;> simp [epsPrintability]

theorem jpgPrintability_ready (dpi : Int) (cs : ColorSpace) (h : Bool) (icc : Option String)
    (leg : Bool) :
    ((jpgPrintability dpi cs h icc leg).1 = .ready ↔ (jpgPrintability dpi cs h icc leg).2.1 = []) ∧
    ((jpgPrintability dpi cs h icc leg).1 = .ready →
      (jpgPrintability dpi cs h icc leg).2.2 =
        ["Archivo listo para impresión en papel prensa"]) := by
  by_cases hd : dpi < 200 <;> cases cs <;> cases h <;> cases leg <;>
    cases hn : notOptimal icc ["ISONewspaper", "Euroestándar", "CMYK Profile"] <;>
    simp [jpgPrintability, hn, hd]

theorem tiffPrintability_ready (dpi : Int) (cs : ColorSpace) (h : Bool) (leg : Bool) :
    ((tiffPrintability dpi cs h leg).1 = .ready ↔ (tiffPrintability dpi cs h leg).2.1 = []) ∧
    ((tiffPrintability dpi cs h leg).1 = .ready →
      (tiffPrintability dpi cs h leg).2.2 = ["Archivo listo para impresión en papel prensa"]) := by
  by_cases hd : dpi < 200 <;> cases cs <;> cases h <;> cases leg <;>
    simp [tiffPrintability, hd]

/-- C37: in every report that one of the four analyzers returns (either copy), the status is
`ready` if and only if the list of issues is empty, and then the recommendations are exactly the
one message that the file is ready: `Archivo vectorial listo para impresión` for an EPS,
`Archivo listo para impresión en papel prensa` for the other formats. -/
theorem ready_iff_no_issue (r : Report) (h : Returned r) :
    (r.printability.status = .ready ↔ r.printability.issues = []) ∧
    (r.printability.status = .ready →
      r.recommendations =
        [if r.fileType = "EPS" then "Archivo vectorial listo para impresión"
         else "Archivo listo para impresión en papel prensa"]) := by
  rcases h with ⟨text, sizes, rfl⟩ | ⟨text, rfl⟩ | ⟨rr, hj, rfl⟩ | ⟨rr, ht, rfl⟩
  · exact pdfPrintability_ready _ _ _ _
  · exact epsPrintability_ready _
  · obtain ⟨s, rfl⟩ := jpgReturns_report hj
    exact jpgPrintability_ready _ _ _ _ _
  · obtain ⟨s, rfl⟩ := tiffReturns_report ht
    exact tiffPrintability_ready _ _ _ _

/-- The report of `readyPdf` is ready, has no issue and the single recommendation. -/
theorem ready_iff_no_issue_witness :
    Returned (analyzePDF readyPdf []) ∧
    (analyzePDF readyPdf []).printability.status = .ready ∧
    (analyzePDF readyPdf []).printability.issues = [] ∧
    (analyzePDF readyPdf []).recommendations = ["Archivo listo para impresión en papel prensa"] :=
  ⟨Or.inl ⟨_, _, rfl⟩, by decide,
    (ready_iff_no_issue (analyzePDF readyPdf []) (Or.inl ⟨_, _, rfl⟩)).1.mp (by decide),
    (ready_iff_no_issue (analyzePDF readyPdf []) (Or.inl ⟨_, _, rfl⟩)).2 (by decide)⟩

/-! ### C21, C22: the smallest font size of a PDF -/

theorem mem_both {α : Type} {a b r : α} (h : r ∈ [a, b]) (hab : b = a) : r = a := by
  rcases List.mem_cons.mp h with h | h
  · exact h
  · rw [List.mem_singleton.mp h, hab]

theorem pdfTextReadability_cons (sizes : List Dbl) (first : Dbl) (rest : List Dbl)
    (h : sizes.filter (fun size => Dbl.lt (Dbl.ofInt 0) size && Dbl.lt size (Dbl.ofInt 200)) =
      first :: rest) :
    pdfTextReadability sizes =
      if Dbl.lt (minSize first rest) (Dbl.ofInt 6) then { isLegible := false, status := .noLegible }
      else { isLegible := true, status := .legible } := by
  unfold pdfTextReadability
  simp only [h]

theorem pdfMinFontSize_cons (sizes : List Dbl) (first : Dbl) (rest : List Dbl)
    (h : sizes.filter (fun size => Dbl.lt (Dbl.ofInt 0) size && Dbl.lt size (Dbl.ofInt 200)) =
      first :: rest) :
    pdfMinFontSize sizes = some (round1 (.fin (minSize first rest))) := by
  unfold pdfMinFontSize
  simp only [h]

theorem pdfPrintability_not_legible (cs : ColorSpace) (h : Bool) (icc : Option String) :
    "Texto con tamaño insuficiente para impresión en papel prensa" ∈
      (pdfPrintability cs h icc false).2.1 ∧
    (pdfPrintability cs h icc false).1 ≠ .ready := by
  cases cs <;> cases h <;> cases hn : notOptimal icc ["ISONewspaper", "Euroestándar"] <;>
    simp [pdfPrintability, hn]

theorem dbl_lt_iff (x y : Dbl) : Dbl.lt x y = true ↔ x.toRat < y.toRat := by
  unfold Dbl.lt Dbl.toRat
  rw [decide_eq_true_iff, div_lt_div_iff₀ (by positivity) (by positivity)]
  constructor
  · intro h
    exact_mod_cast h
  · intro h
    exact_mod_cast h

/-- The value `Math.min(...fontSizes)` is an element of the array and no element is smaller. -/
theorem minSize_smallest (first : Dbl) (rest : List Dbl) :
    minSize first rest ∈ first :: rest ∧
    ∀ s ∈ first :: rest, (minSize first rest).toRat ≤ s.toRat := by
  unfold minSize
  induction rest generalizing first with
  | nil => simp
  | cons x xs ih =>
    rw [List.foldl_cons]
    by_cases hx : Dbl.lt x first = true
    · rw [if_pos hx]
      obtain ⟨h1, h2⟩ := ih x
      have hlt := (dbl_lt_iff x first).mp hx
      refine ⟨List.mem_cons_of_mem _ h1, ?_⟩
      intro s hs
      rcases List.mem_cons.mp hs with rfl | hs
      · exact le_trans (h2 x (List.mem_cons_self _ _)) (le_of_lt hlt)
      · exact h2 s hs
    · rw [if_neg hx]
      obtain ⟨h1, h2⟩ := ih first
      have hge : first.toRat ≤ x.toRat := by
        by_contra hc
        exact hx ((dbl_lt_iff x first).mpr (lt_of_not_ge hc))
      refine ⟨?_, ?_⟩
      · rcases List.mem_cons.mp h1 with h | h
        · rw [h]; exact List.mem_cons_self _ _
        · exact List.mem_cons_of_mem _ (List.mem_cons_of_mem _ h)
      · intro s hs
        rcases List.mem_cons.mp hs with rfl | hs
        · exact h2 _ (List.mem_cons_self _ _)
        · rcases List.mem_cons.mp hs with rfl | hs
          · exact le_trans (h2 _ (List.mem_cons_self _ _)) hge
          · exact h2 s (List.mem_cons_of_mem _ hs)

/-- Every collected size lies in (0, 200). -/
theorem fontSizes_range (bytes : Bytes) :
    ∀ s ∈ fontSizes bytes, 0 < s.toRat ∧ s.toRat < 200 := by
  intro s hs
  unfold fontSizes at hs
  rw [List.mem_filter] at hs
  obtain ⟨_, h⟩ := hs
  rw [Bool.and_eq_true] at h
  have h0 := (dbl_lt_iff _ _).mp h.1
  have h2 := (dbl_lt_iff _ _).mp h.2
  constructor
  · simpa [Dbl.toRat, Dbl.ofInt] using h0
  · simpa [Dbl.toRat, Dbl.ofInt] using h2

/-- What `analyzePDF` does with a non-empty `fontSizes`, in terms of a smallest element `m`. -/
theorem pdf_smallest (bytes : Bytes) (m : Dbl) (hm : m ∈ fontSizes bytes)
    (hmin : ∀ s ∈ fontSizes bytes, m.toRat ≤ s.toRat) :
    (Src.analyzePDF bytes).textReadability =
      (if m.toRat < 6 then { isLegible := false, status := .noLegible }
       else { isLegible := true, status := .legible }) ∧
    ∃ m0 ∈ fontSizes bytes, m0.toRat = m.toRat ∧
      (Src.analyzePDF bytes).minFontSize = some (round1 (.fin m0)) := by
  obtain ⟨first, rest, hl⟩ : ∃ first rest, fontSizes bytes = first :: rest := by
    cases hl : fontSizes bytes with
    | nil => rw [hl] at hm; cases hm
    | cons first rest => exact ⟨first, rest, rfl⟩
  · obtain ⟨h1, h2⟩ := minSize_smallest first rest
    rw [← hl] at h1 h2
    have hv : (minSize first rest).toRat = m.toRat :=
      le_antisymm (h2 m hm) (hmin _ h1)
    have hl2 := hl
    unfold fontSizes at hl2
    constructor
    · have ht : (Src.analyzePDF bytes).textReadability =
          if Dbl.lt (minSize first rest) (Dbl.ofInt 6) then
            { isLegible := false, status := .noLegible }
          else { isLegible := true, status := .legible } := pdfTextReadability_cons _ _ _ hl2
      rw [ht]
      have h6 : (Dbl.ofInt 6).toRat = 6 := by simp [Dbl.toRat, Dbl.ofInt]
      by_cases hc : m.toRat < 6
      · rw [if_pos hc, if_pos ((dbl_lt_iff _ _).mpr (by rw [hv, h6]; exact hc))]
      · rw [if_neg hc, if_neg (fun h => hc (by have := (dbl_lt_iff _ _).mp h; rwa [hv, h6] at this))]
    · exact ⟨_, h1, hv, pdfMinFontSize_cons _ _ _ hl2⟩

/-- C21 (fails on the code): the PDF text `5.96 Tf` has the single font size 5.96.  Both copies
report `minFontSize` 6, the size rounded to one decimal, and yet `isLegible` false with the
status `no-legible`, because the test `minSize < 6` is on the size before it is rounded. -/
theorem rounded_six_not_legible :
    fontSizes (latin1 "5.96 Tf") = [⟨6710363444782039, 50⟩] ∧
    (Src.analyzePDF (latin1 "5.96 Tf")).minFontSize = some (.fin ⟨6, 0⟩) ∧
    (Src.analyzePDF (latin1 "5.96 Tf")).textReadability =
      { isLegible := false, status := .noLegible } ∧
    (Docs.analyzePDF (latin1 "5.96 Tf")).minFontSize = some (.fin ⟨6, 0⟩) ∧
    (Docs.analyzePDF (latin1 "5.96 Tf")).textReadability =
      { isLegible := false, status := .noLegible } := by
  decide

/-- C21 (amended): when `m` is a smallest of the font sizes that `analyzePDF` (either copy)
collects in (0, 200), `isLegible` is true if and only if `m` itself, before it is rounded, is at
least 6; below 6 the status is `no-legible`, otherwise `legible`; and `minFontSize` is a smallest
collected size rounded to one decimal. -/
theorem legible_iff_min_size (bytes : Bytes) (m : Dbl) (hm : m ∈ fontSizes bytes)
    (hmin : ∀ s ∈ fontSizes bytes, m.toRat ≤ s.toRat) :
    ∀ r ∈ [Src.analyzePDF bytes, Docs.analyzePDF bytes],
      (r.textReadability.isLegible = true ↔ 6 ≤ m.toRat) ∧
      (m.toRat < 6 → r.textReadability = { isLegible := false, status := .noLegible }) ∧
      (6 ≤ m.toRat → r.textReadability = { isLegible := true, status := .legible }) ∧
      ∃ m0 ∈ fontSizes bytes, m0.toRat = m.toRat ∧ r.minFontSize = some (round1 (.fin m0)) := by
  intro r hr
  rw [mem_both hr (docs_analyzePDF_eq bytes)]
  obtain ⟨ht, hf⟩ := pdf_smallest bytes m hm hmin
  refine ⟨?_, ?_, ?_, hf⟩
  · rw [ht]
    by_cases hc : m.toRat < 6
    · rw [if_pos hc]
      simp only [Bool.false_eq_true, false_iff, not_le]
      exact hc
    · rw [if_neg hc]
      simp only [true_iff]
      exact not_lt.mp hc
  · intro hc
    rw [ht, if_pos hc]
  · intro hc
    rw [ht, if_neg (not_lt.mpr hc)]

/-- The text `7.5 Tf 12 Tf`: the sizes 7.5 and 12, the smaller one first; legible, with
`minFontSize` 7.5. -/
theorem legible_iff_min_size_witness :
    fontSizes (latin1 "7.5 Tf 12 Tf") = [⟨15, 1⟩, ⟨12, 0⟩] ∧
    (Src.analyzePDF (latin1 "7.5 Tf 12 Tf")).textReadability.isLegible = true ∧
    (Docs.analyzePDF (latin1 "7.5 Tf 12 Tf")).textReadability =
      { isLegible := true, status := .legible } ∧
    (Src.analyzePDF (latin1 "7.5 Tf 12 Tf")).minFontSize = some (.fin ⟨15, 1⟩) := by
  have e : fontSizes (latin1 "7.5 Tf 12 Tf") = [⟨15, 1⟩, ⟨12, 0⟩] := by decide
  have hmin : ∀ s ∈ fontSizes (latin1 "7.5 Tf 12 Tf"), (⟨15, 1⟩ : Dbl).toRat ≤ s.toRat := by
    intro s hs
    rw [e] at hs
    simp only [List.mem_cons, List.mem_singleton, List.not_mem_nil, or_false] at hs
    rcases hs with rfl | rfl <;> norm_num [Dbl.toRat]
  have h6 : (6 : ℚ) ≤ (⟨15, 1⟩ : Dbl).toRat := by norm_num [Dbl.toRat]
  have hs := legible_iff_min_size (latin1 "7.5 Tf 12 Tf") ⟨15, 1⟩ (by decide) hmin _
    (List.mem_cons_self _ _)
  have hd := legible_iff_min_size (latin1 "7.5 Tf 12 Tf") ⟨15, 1⟩ (by decide) hmin _
    (List.mem_cons_of_mem _ (List.mem_cons_self _ _))
  exact ⟨e, hs.1.mpr h6, hd.2.2.1 h6, by decide⟩

/-- C22: when `m` is a smallest of the font sizes that `analyzePDF` (either copy) collects, from
the operands of `Tf` and from the `/FontSize` entries, in (0, 200), and `m` is below 6, the
report has `isLegible` false, the status `no-legible`, `minFontSize` equal to a smallest
collected size rounded to one decimal, the issue on the insufficient text size, and a status
other than `ready`. -/
theorem small_font_not_legible (bytes : Bytes) (m : Dbl) (hm : m ∈ fontSizes bytes)
    (hmin : ∀ s ∈ fontSizes bytes, m.toRat ≤ s.toRat) (hs : m.toRat < 6) :
    (0 < m.toRat ∧ m.toRat < 200) ∧
    ∀ r ∈ [Src.analyzePDF bytes, Docs.analyzePDF bytes],
      r.textReadability = { isLegible := false, status := .noLegible } ∧
      (∃ m0 ∈ fontSizes bytes, m0.toRat = m.toRat ∧
        r.minFontSize = some (round1 (.fin m0))) ∧
      "Texto con tamaño insuficiente para impresión en papel prensa" ∈ r.printability.issues ∧
      r.printability.status ≠ .ready := by
  refine ⟨fontSizes_range bytes m hm, ?_⟩
  intro r hr
  rw [mem_both hr (docs_analyzePDF_eq bytes)]
  obtain ⟨ht, hf⟩ := pdf_smallest bytes m hm hmin
  rw [if_pos hs] at ht
  refine ⟨ht, hf, ?_⟩
  have ht2 : pdfTextReadability (parsedSizes (bytes.map (fun b => b.val))) =
      { isLegible := false, status := .noLegible } := ht
  show _ ∈ (pdfPrintability (pdfColorSpace bytes) (pdfICC bytes).1 (pdfICC bytes).2
      (pdfTextReadability (parsedSizes (bytes.map (fun b => b.val)))).isLegible).2.1 ∧
    (pdfPrintability (pdfColorSpace bytes) (pdfICC bytes).1 (pdfICC bytes).2
      (pdfTextReadability (parsedSizes (bytes.map (fun b => b.val)))).isLegible).1 ≠ .ready
  rw [ht2]
  exact pdfPrintability_not_legible _ _ _

/-- Texts with small sizes.  `4 Tf` alone and `/FontSize 4.5` alone are collected; in
`12 Tf 4 Tf`, in `4 Tf 12 Tf` and in `12 Tf` followed by `/FontSize 5` the smaller size decides,
wherever it stands; in `0 Tf 250 Tf 5 Tf` the sizes 0 and 250 are left out; the size 4.26 is
reported as 4.3, and 5.55 from a `/FontSize` entry, next to `9 Tf`, as 5.6. -/
theorem small_font_not_legible_witness :
    (fontSizes (latin1 "4 Tf") = [⟨4, 0⟩] ∧
      (Src.analyzePDF (latin1 "4 Tf")).minFontSize = some (.fin ⟨4, 0⟩) ∧
      (Src.analyzePDF (latin1 "4 Tf")).textReadability =
        { isLegible := false, status := .noLegible } ∧
      (Docs.analyzePDF (latin1 "4 Tf")).printability.status ≠ .ready) ∧
    (fontSizes (latin1 "/FontSize 4.5") = [⟨9, 1⟩] ∧
      (Src.analyzePDF (latin1 "/FontSize 4.5")).minFontSize = some (.fin ⟨9, 1⟩) ∧
      (Src.analyzePDF (latin1 "/FontSize 4.5")).textReadability.isLegible = false) ∧
    (fontSizes (latin1 "12 Tf\n/FontSize 5 ") = [⟨12, 0⟩, ⟨5, 0⟩] ∧
      (Docs.analyzePDF (latin1 "12 Tf\n/FontSize 5 ")).minFontSize = some (.fin ⟨5, 0⟩) ∧
      (Docs.analyzePDF (latin1 "12 Tf\n/FontSize 5 ")).textReadability =
        { isLegible := false, status := .noLegible }) ∧
    (fontSizes (latin1 "12 Tf 4 Tf") = [⟨12, 0⟩, ⟨4, 0⟩] ∧
      (Src.analyzePDF (latin1 "12 Tf 4 Tf")).minFontSize = some (.fin ⟨4, 0⟩)) ∧
    (fontSizes (latin1 "4 Tf 12 Tf") = [⟨4, 0⟩, ⟨12, 0⟩] ∧
      (Src.analyzePDF (latin1 "4 Tf 12 Tf")).minFontSize = some (.fin ⟨4, 0⟩) ∧
      (Src.analyzePDF (latin1 "4 Tf 12 Tf")).textReadability.isLegible = false) ∧
    (fontSizes (latin1 "0 Tf 250 Tf 5 Tf") = [⟨5, 0⟩] ∧
      (Src.analyzePDF (latin1 "0 Tf 250 Tf 5 Tf")).minFontSize = some (.fin ⟨5, 0⟩)) ∧
    (fontSizes (latin1 "4.26 Tf") = [⟨2398166801574789, 49⟩] ∧
      (Src.analyzePDF (latin1 "4.26 Tf")).minFontSize =
        some (.fin ⟨4841369599423283, 50⟩) ∧
      |Dbl.toRat ⟨2398166801574789, 49⟩ - 426 / 100| ≤ 1 / 2 ^ 50 ∧
      |Dbl.toRat ⟨4841369599423283, 50⟩ - 43 / 10| ≤ 1 / 2 ^ 50) ∧
    (fontSizes (latin1 "/FontSize 5.55 9 Tf") = [⟨9, 0⟩, ⟨6248744482976563, 50⟩] ∧
      (Docs.analyzePDF (latin1 "/FontSize 5.55 9 Tf")).minFontSize =
        some (.fin ⟨3152519739159347, 49⟩) ∧
      (Docs.analyzePDF (latin1 "/FontSize 5.55 9 Tf")).textReadability =
        { isLegible := false, status := .noLegible } ∧
      |Dbl.toRat ⟨6248744482976563, 50⟩ - 555 / 100| ≤ 1 / 2 ^ 50 ∧
      |Dbl.toRat ⟨3152519739159347, 49⟩ - 56 / 10| ≤ 1 / 2 ^ 50) := by
  have e1 : fontSizes (latin1 "4 Tf") = [⟨4, 0⟩] := by decide
  have m1 : ∀ s ∈ fontSizes (latin1 "4 Tf"), (⟨4, 0⟩ : Dbl).toRat ≤ s.toRat := by
    intro s hs
    rw [e1] at hs
    simp only [List.mem_singleton] at hs
    rw [hs]
  have e3 : fontSizes (latin1 "12 Tf\n/FontSize 5 ") = [⟨12, 0⟩, ⟨5, 0⟩] := by decide
  have m3 : ∀ s ∈ fontSizes (latin1 "12 Tf\n/FontSize 5 "), (⟨5, 0⟩ : Dbl).toRat ≤ s.toRat := by
    intro s hs
    rw [e3] at hs
    simp only [List.mem_cons, List.mem_singleton, List.not_mem_nil, or_false] at hs
    rcases hs with rfl | rfl <;> norm_num [Dbl.toRat]
  have t1 := (small_font_not_legible (latin1 "4 Tf") ⟨4, 0⟩ (by decide) m1
    (by norm_num [Dbl.toRat])).2
  have t3 := (small_font_not_legible (latin1 "12 Tf\n/FontSize 5 ") ⟨5, 0⟩ (by decide) m3
    (by norm_num [Dbl.toRat])).2
  refine ⟨⟨e1, by decide, (t1 _ (List.mem_cons_self _ _)).1,
      (t1 _ (List.mem_cons_of_mem _ (List.mem_cons_self _ _))).2.2.2⟩,
    ⟨by decide, by decide, by decide⟩,
    ⟨e3, by decide, (t3 _ (List.mem_cons_of_mem _ (List.mem_cons_self _ _))).1⟩,
    ⟨by decide, by decide⟩, ⟨by decide, by decide, by decide⟩, ⟨by decide, by decide⟩,
    ⟨by decide, by decide, by rw [abs_le]; constructor <;> norm_num [Dbl.toRat],
      by rw [abs_le]; constructor <;> norm_num [Dbl.toRat]⟩,
    ⟨by decide, by decide, by decide, by rw [abs_le]; constructor <;> norm_num [Dbl.toRat],
      by rw [abs_le]; constructor <;> norm_num [Dbl.toRat]⟩⟩

/-! ### C23, C24: the dimensions of a PDF and of an EPS -/

theorem groups_of_map {f : List Nat → Number} {groups : List (List Nat)} {a b c d : Number}
    (h : groups.map f = [a, b, c, d]) :
    f (groups.getD 0 []) = a ∧ f (groups.getD 1 []) = b ∧ f (groups.getD 2 []) = c ∧
      f (groups.getD 3 []) = d := by
  match groups, h with
  | [g0, g1, g2, g3], h =>
    simp only [List.map_cons, List.map_nil, List.cons.injEq, and_true] at h
    exact h

theorem pdfPoints_a4 (text : List Nat) (h : A4Box text) :
    pdfPoints text = (.fin ⟨595, 0⟩, .fin ⟨842, 0⟩) := by
  unfold pdfPoints
  rcases h with h | ⟨m, hm, hg⟩
  · rw [h]; rfl
  · rw [hm]
    obtain ⟨h0, h1, h2, h3⟩ := groups_of_map hg
    simp only [h0, h1, h2, h3]
    decide

/-- C23: `analyzePDF` (either copy) reports the resolution 300 with the status `default` and the
unit `mm` for every buffer; when the text has no MediaBox match, or its first match reads
`[0 0 595 842]`, the width is the double 209.9 and the height 297, each `round(points *
0.352778, 1 decimal)` and within 0.1 of 210 and of 297. -/
theorem analyzePDF_dimensions (bytes : Bytes) :
    ∀ r ∈ [Src.analyzePDF bytes, Docs.analyzePDF bytes],
      r.resolution = { value := .dpi 300, status := .default } ∧ r.unit = "mm" ∧
      (A4Box (bytes.map (fun b => b.val)) →
        r.width = pointsToMm (.fin ⟨595, 0⟩) ∧ r.height = pointsToMm (.fin ⟨842, 0⟩) ∧
        r.width = .fin ⟨7385199701445837, 45⟩ ∧ r.height = .fin ⟨297, 0⟩ ∧
        |Dbl.toRat ⟨7385199701445837, 45⟩ - 210| ≤ 1 / 10 ∧
        |Dbl.toRat ⟨297, 0⟩ - 297| ≤ 1 / 10) := by
  intro r hr
  rw [mem_both hr (docs_analyzePDF_eq bytes)]
  refine ⟨rfl, rfl, fun h => ?_⟩
  have hp := pdfPoints_a4 _ h
  have hw : (Src.analyzePDF bytes).width = pointsToMm (.fin ⟨595, 0⟩) := by
    show pointsToMm (pdfPoints _).1 = _
    rw [hp]
  have hh : (Src.analyzePDF bytes).height = pointsToMm (.fin ⟨842, 0⟩) := by
    show pointsToMm (pdfPoints _).2 = _
    rw [hp]
  refine ⟨hw, hh, hw.trans (by decide), hh.trans (by decide), ?_, ?_⟩
  · unfold Dbl.toRat
    rw [abs_le]
    norm_num
  · unfold Dbl.toRat
    norm_num

/-- The text `/MediaBox [0 0 595 842]` gets 209.9 x 297 mm, and so does a text without a
MediaBox. -/
theorem analyzePDF_dimensions_witness :
    A4Box ((latin1 "/MediaBox [0 0 595 842]").map (fun b => b.val)) ∧
    (Src.analyzePDF (latin1 "/MediaBox [0 0 595 842]")).width = .fin ⟨7385199701445837, 45⟩ ∧
    (Src.analyzePDF (latin1 "/MediaBox [0 0 595 842]")).height = .fin ⟨297, 0⟩ ∧
    A4Box ((latin1 "%PDF-1.4").map (fun b => b.val)) ∧
    (Docs.analyzePDF (latin1 "%PDF-1.4")).width = .fin ⟨7385199701445837, 45⟩ :=
  ⟨Or.inr ⟨_, rfl, by decide⟩,
   ((analyzePDF_dimensions (latin1 "/MediaBox [0 0 595 842]") _ (List.mem_cons_self _ _)).2.2
      (Or.inr ⟨_, rfl, by decide⟩)).2.2.1,
   ((analyzePDF_dimensions (latin1 "/MediaBox [0 0 595 842]") _ (List.mem_cons_self _ _)).2.2
      (Or.inr ⟨_, rfl, by decide⟩)).2.2.2.1,
   Or.inl (by decide),
   ((analyzePDF_dimensions (latin1 "%PDF-1.4") _
      (List.mem_cons_of_mem _ (List.mem_cons_self _ _))).2.2 (Or.inl (by decide))).2.2.1⟩

/-- C24: in `analyzeEPS` (either copy), when the `%%HiResBoundingBox:` expression matches, the
dimensions come from its four numbers, whether or not (and wherever) a `%%BoundingBox:` comment
matches; when only the `%%BoundingBox:` expression matches they come from its four integers;
when neither matches they are 0 x 0. -/
theorem analyzeEPS_dimensions (bytes : Bytes) :
    ∀ r ∈ [Src.analyzeEPS bytes, Docs.analyzeEPS bytes],
      (∀ m, regexMatch hiResBoundingBoxRe (bytes.map (fun b => b.val)) = some m →
        (r.width, r.height) = boxMm parseFloat m.groups) ∧
      (regexMatch hiResBoundingBoxRe (bytes.map (fun b => b.val)) = none →
        ∀ m, regexMatch boundingBoxRe (bytes.map (fun b => b.val)) = some m →
          (r.width, r.height) = boxMm parseInt m.groups) ∧
      (regexMatch hiResBoundingBoxRe (bytes.map (fun b => b.val)) = none →
        regexMatch boundingBoxRe (bytes.map (fun b => b.val)) = none →
          r.width = .fin ⟨0, 0⟩ ∧ r.height = .fin ⟨0, 0⟩) := by
  intro r hr
  rw [mem_both hr (docs_analyzeEPS_eq bytes)]
  refine ⟨fun m hm => ?_, fun hn m hm => ?_, fun hn hb => ?_⟩
  · show (pointsToMm (epsPoints _).1, pointsToMm (epsPoints _).2) = _
    unfold epsPoints
    simp only [hm]
    rfl
  · show (pointsToMm (epsPoints _).1, pointsToMm (epsPoints _).2) = _
    unfold epsPoints
    simp only [hn, hm]
    rfl
  · show pointsToMm (epsPoints _).1 = _ ∧ pointsToMm (epsPoints _).2 = _
    unfold epsPoints
    simp only [hn, hb]
    decide

/-- The boxes `0 0 100 100` and `0 0 99.5 99.5` (high resolution), in either order, give the
size 35.1 mm of 99.5 points; the first box alone gives 35.3 mm. -/
theorem analyzeEPS_dimensions_witness :
    (Src.analyzeEPS
      (latin1 "%%BoundingBox: 0 0 100 100\n%%HiResBoundingBox: 0 0 99.5 99.5\n")).width =
      .fin ⟨4939885841272013, 47⟩ ∧
    (Docs.analyzeEPS
      (latin1 "%%HiResBoundingBox: 0 0 99.5 99.5\n%%BoundingBox: 0 0 100 100\n")).width =
      .fin ⟨4939885841272013, 47⟩ ∧
    (Src.analyzeEPS (latin1 "%%BoundingBox: 0 0 100 100\n")).width =
      .fin ⟨2484016669471539, 46⟩ :=
  ⟨(congrArg Prod.fst ((analyzeEPS_dimensions
      (latin1 "%%BoundingBox: 0 0 100 100\n%%HiResBoundingBox: 0 0 99.5 99.5\n") _
      (List.mem_cons_self _ _)).1 _ rfl)).trans (by decide),
   (congrArg Prod.fst ((analyzeEPS_dimensions
      (latin1 "%%HiResBoundingBox: 0 0 99.5 99.5\n%%BoundingBox: 0 0 100 100\n") _
      (List.mem_cons_of_mem _ (List.mem_cons_self _ _))).1 _ rfl)).trans (by decide),
   (congrArg Prod.fst ((analyzeEPS_dimensions (latin1 "%%BoundingBox: 0 0 100 100\n") _
      (List.mem_cons_self _ _)).2.1 (by decide) _ rfl)).trans (by decide)⟩

/-! ### C26, C27: the handler of analyze-file -/

theorem src_analyzeJPG_hang (fuel : Nat) : Src.analyzeJPG fuel hangJpg = .outOfFuel := by
  unfold Src.analyzeJPG
  rw [if_neg (by decide), src_walk_hang]

/-- C26 (fails on the code): the disk of `sampleHost []` holds no file, so the read of
`/tmp/missing.docx` fails and the handler answers with the message of the read error, not with
`Formato no soportado: docx`: the file is read before the extension is looked at. -/
theorem unreadable_file_error :
    extensionOf (sampleHost []) "/tmp/missing.docx" = "docx" ∧
    ∀ fuel : Nat, analyzeFile (sampleHost []) fuel "/tmp/missing.docx" =
      .returned (.failure
        "ENOENT: no such file or directory, open \x27/tmp/missing.docx\x27") := by
  constructor
  · decide
  · intro fuel
    rfl

/-- C26 (amended): the handler reads the file first.  When the read fails, the reply is the
failure with the message of the read error, whatever the extension.  When the file can be read,
the handler picks the analyzer from the lower-cased extension alone: `pdf` runs `analyzePDF`,
`jpg` and `jpeg` run `analyzeJPG`, `tif` and `tiff` run `analyzeTIFF`, `eps` runs `analyzeEPS`,
each on the buffer read and the base name of the path; for any other extension, the empty one
included, no analyzer runs and the reply is the failure `Formato no soportado: ` followed by
the extension. -/
theorem analyzeFile_dispatch (host : Host) (fuel : Nat) (filePath : String) :
    (∀ message, host.readFileSync filePath = .error message →
      analyzeFile host fuel filePath = .returned (.failure message)) ∧
    (∀ buffer, host.readFileSync filePath = .ok buffer →
      (extensionOf host filePath = "pdf" →
        analyzeFile host fuel filePath =
          .returned (.success (.pdf (host.basename filePath) (Src.analyzePDF buffer)))) ∧
      (extensionOf host filePath = "jpg" ∨ extensionOf host filePath = "jpeg" →
        analyzeFile host fuel filePath =
          rasterReply (.jpg (host.basename filePath)) (Src.analyzeJPG fuel buffer)) ∧
      (extensionOf host filePath = "tif" ∨ extensionOf host filePath = "tiff" →
        analyzeFile host fuel filePath =
          rasterReply (.tiff (host.basename filePath)) (Src.analyzeTIFF buffer)) ∧
      (extensionOf host filePath = "eps" →
        analyzeFile host fuel filePath =
          .returned (.success (.eps (host.basename filePath) (Src.analyzeEPS buffer)))) ∧
      (extensionOf host filePath ∉ ["pdf", "jpg", "jpeg", "tif", "tiff", "eps"] →
        analyzeFile host fuel filePath =
          .returned (.failure ("Formato no soportado: " ++ extensionOf host filePath)))) := by
  constructor
  · intro message h
    unfold analyzeFile
    simp only [h]
  intro buffer h
  unfold analyzeFile
  simp only [h]
  refine ⟨fun e => ?_, fun e => ?_, fun e => ?_, fun e => ?_, fun e => ?_⟩
  · rw [if_pos e]
  · rw [if_neg (by rcases e with e | e <;> rw [e] <;> decide), if_pos e]
  · rw [if_neg (by rcases e with e | e <;> rw [e] <;> decide),
      if_neg (by rcases e with e | e <;> rw [e] <;> decide), if_pos e]
  · rw [if_neg (by rw [e]; decide), if_neg (by rw [e]; decide), if_neg (by rw [e]; decide),
      if_pos e]
  · simp only [List.mem_cons, List.mem_singleton, List.mem_nil_iff, or_false, not_or] at e
    obtain ⟨e1, e2, e3, e4, e5, e6⟩ := e
    rw [if_neg e1, if_neg (by tauto), if_neg (by tauto), if_neg e6]

/-- The file `/tmp/Page.PDF` runs `analyzePDF`; `/tmp/notes.docx`, which can be read, is refused
for its extension; `/tmp/missing.pdf`, which cannot be read, gets the read error. -/
theorem analyzeFile_dispatch_witness :
    extensionOf (sampleHost [("/tmp/Page.PDF", latin1 "4 Tf")]) "/tmp/Page.PDF" = "pdf" ∧
    analyzeFile (sampleHost [("/tmp/Page.PDF", latin1 "4 Tf")]) 0 "/tmp/Page.PDF" =
      .returned (.success (.pdf "Page.PDF" (Src.analyzePDF (latin1 "4 Tf")))) ∧
    analyzeFile (sampleHost [("/tmp/notes.docx", [])]) 0 "/tmp/notes.docx" =
      .returned (.failure "Formato no soportado: docx") ∧
    analyzeFile (sampleHost [("/tmp/notes.docx", [])]) 0 "/tmp/missing.pdf" =
      .returned (.failure
        "ENOENT: no such file or directory, open \x27/tmp/missing.pdf\x27") :=
  ⟨by decide,
   ((analyzeFile_dispatch (sampleHost [("/tmp/Page.PDF", latin1 "4 Tf")]) 0
      "/tmp/Page.PDF").2 (latin1 "4 Tf") rfl).1 (by decide),
   (((analyzeFile_dispatch (sampleHost [("/tmp/notes.docx", [])]) 0 "/tmp/notes.docx").2 []
      rfl).2.2.2.2 (by decide)).trans rfl,
   (analyzeFile_dispatch (sampleHost [("/tmp/notes.docx", [])]) 0 "/tmp/missing.pdf").1 _ rfl⟩

/-- The handler never throws, and it passes on what the analyzer does: the message of an error
becomes a failure, a report becomes a success. -/
theorem analyzeFile_never_throws (host : Host) (fuel : Nat) (filePath : String) (msg : String) :
    analyzeFile host fuel filePath ≠ .threw msg := by
  unfold analyzeFile
  split
  · simp
  · simp only []
    split_ifs
    · simp
    · cases Src.analyzeJPG fuel _ <;> simp [rasterReply]
    · cases Src.analyzeTIFF _ <;> simp [rasterReply]
    · simp
    · simp

/-- C27 (fails on the code): for the readable file `/tmp/a.jpg` whose content is `hangJpg` the
handler neither returns a reply nor throws, with any amount of fuel: `analyzeJPG` does not
return on this file (the defect of C1), so the `try` block never ends. -/
theorem analyzeFile_hangs (fuel : Nat) :
    (sampleHost [("/tmp/a.jpg", hangJpg)]).readFileSync "/tmp/a.jpg" = .ok hangJpg ∧
    extensionOf (sampleHost [("/tmp/a.jpg", hangJpg)]) "/tmp/a.jpg" = "jpg" ∧
    analyzeFile (sampleHost [("/tmp/a.jpg", hangJpg)]) fuel "/tmp/a.jpg" = .outOfFuel := by
  refine ⟨rfl, by decide, ?_⟩
  unfold analyzeFile
  have h : (sampleHost [("/tmp/a.jpg", hangJpg)]).readFileSync "/tmp/a.jpg" = .ok hangJpg := rfl
  have e : extensionOf (sampleHost [("/tmp/a.jpg", hangJpg)]) "/tmp/a.jpg" = "jpg" := by decide
  simp only [h, e]
  rw [if_neg (by decide), if_pos (by decide), src_analyzeJPG_hang]
  rfl

/-! ### C32, C34, C35, C38: resolutions and profile names on sample files -/

/-- C32 (fails on the code): the TIFF `resolutionTiff 0x4A 0x02 10 3` holds XResolution =
YResolution = 586/10 dots per centimetre.  Both copies round the rational first (59) and
convert it at the end, `Math.round(59 * 2.54)`, which is 150; converting before rounding,
`round(58.6 * 2.54)`, gives 149. -/
theorem tiff_centimetres_rounded_twice :
    (∃ r, Src.analyzeTIFF (resolutionTiff 0x4A 0x02 10 3) = .returned r ∧
      r.resolution = { value := .dpi 150, status := .detected }) ∧
    (∃ r, Docs.analyzeTIFF (resolutionTiff 0x4A 0x02 10 3) = .returned r ∧
      r.resolution = { value := .dpi 150, status := .detected }) ∧
    ((Dbl.div 586 10).mul254).round = 149 := by
  refine ⟨⟨_, rfl, ?_⟩, ⟨_, rfl, ?_⟩, ?_⟩ <;> decide

/-- C34 (fails on the code): the JPEG made of SOI, a JFIF segment with the unit 0 and the
densities 300 x 300, and EOI.  The copy in `src` assigns both densities before it looks at the
unit, so it reports the value 300 with the status `default`; the copy in `docs` reports 72. -/
theorem jfif_unit_zero_kept :
    (∃ r, Src.analyzeJPG 10 (jfifJpg 0 0x01 0x2C 0x01 0x2C) = .returned r ∧
      r.resolution = { value := .dpi 300, status := .default }) ∧
    (∃ r, Docs.analyzeJPG 10 (jfifJpg 0 0x01 0x2C 0x01 0x2C) = .returned r ∧
      r.resolution = { value := .dpi 72, status := .default }) := by
  refine ⟨⟨_, rfl, ?_⟩, ⟨_, rfl, ?_⟩⟩ <;> decide

/-- C35 (fails on the code): on `displayP3Jpg`, whose ICC profile data are the text
`Display P3`, the copy in `src` sets `hasICCProfile` and leaves `iccProfile` unset, its keyword
chain having no `Display P3`; the copy in `docs` names the profile `Display P3`. -/
theorem display_p3_not_named :
    (∃ r, Src.analyzeJPG 10 displayP3Jpg = .returned r ∧
      r.hasICCProfile = true ∧ r.iccProfile = none) ∧
    (∃ r, Docs.analyzeJPG 10 displayP3Jpg = .returned r ∧
      r.hasICCProfile = true ∧ r.iccProfile = some "Display P3") := by
  refine ⟨⟨_, rfl, ?_⟩, ⟨_, rfl, ?_⟩⟩ <;> decide

/-- C38 (fails on the code): the TIFF `resolutionTiff 0 0 1 2` holds XResolution = YResolution
= 0/1.  Both copies take the value without a range test and set `dpiDetected`, so the report
has `physicalDimensions`, the resolution 0 and millimetre sizes that are not finite
(`pxToMm` divides by 0).  The copy of `analyzeJPG` in `src` does the same on a JFIF segment with
the unit 1 and the densities 0 x 0. -/
theorem zero_resolution_detected :
    (∃ r, Src.analyzeTIFF (resolutionTiff 0 0 1 2) = .returned r ∧
      r.resolution = { value := .dpi 0, status := .detected } ∧
      r.physicalDimensions = some (.notFinite, .notFinite)) ∧
    (∃ r, Docs.analyzeTIFF (resolutionTiff 0 0 1 2) = .returned r ∧
      r.resolution = { value := .dpi 0, status := .detected } ∧
      r.physicalDimensions = some (.notFinite, .notFinite)) ∧
    (∃ r, Src.analyzeJPG 10 (jfifJpg 1 0 0 0 0) = .returned r ∧
      r.resolution = { value := .dpi 0, status := .detected } ∧
      r.physicalDimensions = some (.notFinite, .notFinite)) := by
  refine ⟨⟨_, rfl, ?_⟩, ⟨_, rfl, ?_⟩, ⟨_, rfl, ?_⟩⟩ <;> decide

/-! ### C40: the two copies of analyzeTIFF on well-formed input -/

theorem readUint16_agree (bytes : Bytes) (littleEndian : Bool) (pos : Int)
    (h : pos + 2 ≤ bytes.length) :
    Docs.readUint16 bytes littleEndian pos = Src.readUint16 bytes littleEndian pos := by
  unfold Docs.readUint16 Src.readUint16
  rw [if_neg (by omega)]

theorem readUint32_agree (bytes : Bytes) (littleEndian : Bool) (pos : Int)
    (h : pos + 4 ≤ bytes.length) :
    Docs.readUint32 bytes littleEndian pos = Src.readUint32 bytes littleEndian pos := by
  unfold Docs.readUint32 Src.readUint32
  rw [if_neg (by omega)]

theorem sliceIndex_min (len : Nat) (e : Int) : sliceIndex len (min e len) = sliceIndex len e := by
  unfold sliceIndex
  by_cases h : e < 0
  · rw [if_pos h, if_pos (by omega), min_eq_left (by omega)]
  · rw [if_neg h, if_neg (by omega)]
    omega

theorem profile_slice_agree (bytes : Bytes) (profileOffset count : Int) :
    jsSlice bytes profileOffset
        (min (min (profileOffset + count) (profileOffset + 500)) (bytes.length : Int)) =
      jsSlice bytes profileOffset (profileOffset + min count 500) := by
  have e : profileOffset + min count 500 = min (profileOffset + count) (profileOffset + 500) := by
    omega
  unfold jsSlice
  rw [e, sliceIndex_min]

theorem tiffEntry_agree (bytes : Bytes) (littleEndian : Bool) (ifdOffset : Int) (s : TiffDecoded)
    (i : Nat) (hin : ifdOffset + 2 + (i : Int) * 12 + 12 ≤ bytes.length)
    (hres : Src.readUint16 bytes littleEndian (ifdOffset + 2 + (i : Int) * 12) = 282 ∨
        Src.readUint16 bytes littleEndian (ifdOffset + 2 + (i : Int) * 12) = 283 →
      Src.readUint32 bytes littleEndian (ifdOffset + 2 + (i : Int) * 12 + 8) + 8 ≤
        bytes.length) :
    Docs.tiffEntry bytes littleEndian (ifdOffset + 2 + (i : Int) * 12) s =
      Src.tiffEntry bytes littleEndian ifdOffset s i := by
  have r1 := readUint16_agree bytes littleEndian (ifdOffset + 2 + (i : Int) * 12) (by omega)
  have r2 := readUint16_agree bytes littleEndian (ifdOffset + 2 + (i : Int) * 12 + 2) (by omega)
  have r3 := readUint32_agree bytes littleEndian (ifdOffset + 2 + (i : Int) * 12 + 4) (by omega)
  have r4 := readUint16_agree bytes littleEndian (ifdOffset + 2 + (i : Int) * 12 + 8) (by omega)
  have r5 := readUint32_agree bytes littleEndian (ifdOffset + 2 + (i : Int) * 12 + 8) (by omega)
  unfold Docs.tiffEntry Src.tiffEntry
  simp only [r1, r2, r3, r4, r5, profile_slice_agree]
  by_cases h2 : Src.readUint16 bytes littleEndian (ifdOffset + 2 + (i : Int) * 12) = 282
  · have hv := hres (Or.inl h2)
    have e1 := readUint32_agree bytes littleEndian
      (Src.readUint32 bytes littleEndian (ifdOffset + 2 + (i : Int) * 12 + 8)) (by omega)
    have e2 := readUint32_agree bytes littleEndian
      (Src.readUint32 bytes littleEndian (ifdOffset + 2 + (i : Int) * 12 + 8) + 4) (by omega)
    simp only [h2, if_pos hv, e1, e2]
  · by_cases h3 : Src.readUint16 bytes littleEndian (ifdOffset + 2 + (i : Int) * 12) = 283
    · have hv := hres (Or.inr h3)
      have e1 := readUint32_agree bytes littleEndian
        (Src.readUint32 bytes littleEndian (ifdOffset + 2 + (i : Int) * 12 + 8)) (by omega)
      have e2 := readUint32_agree bytes littleEndian
        (Src.readUint32 bytes littleEndian (ifdOffset + 2 + (i : Int) * 12 + 8) + 4) (by omega)
      simp only [h3, if_pos hv, e1, e2]
    · simp only [h2, h3, if_false]

theorem tiffEntries_agree (bytes : Bytes) (littleEndian : Bool) (ifdOffset : Int) (k : Nat) :
    ∀ (i : Nat) (s : TiffDecoded),
      (∀ j : Nat, i ≤ j → j < i + k →
        ifdOffset + 2 + (j : Int) * 12 + 12 ≤ bytes.length ∧
        (Src.readUint16 bytes littleEndian (ifdOffset + 2 + (j : Int) * 12) = 282 ∨
          Src.readUint16 bytes littleEndian (ifdOffset + 2 + (j : Int) * 12) = 283 →
        Src.readUint32 bytes littleEndian (ifdOffset + 2 + (j : Int) * 12 + 8) + 8 ≤
          bytes.length)) →
      Docs.tiffEntries bytes littleEndian ifdOffset k i s =
        (List.range' i k).foldl (Src.tiffEntry bytes littleEndian ifdOffset) s := by
  induction k with
  | zero => intro i s _; rfl
  | succ n ih =>
    intro i s h
    obtain ⟨hin, hres⟩ := h i (le_refl i) (by omega)
    unfold Docs.tiffEntries
    simp only []
    rw [if_neg (by omega), tiffEntry_agree bytes littleEndian ifdOffset s i hin hres,
      List.range'_succ, List.foldl_cons]
    exact ih (i + 1) _ (fun j hj1 hj2 => h j (by omega) (by omega))

/-- C40: on a TIFF buffer of at least 8 bytes whose entry count is at most 100, whose IFD count
field and 12-byte entries end inside the buffer, and in which the 8 bytes at the value offset of
every entry with the tag 282 or 283 end inside the buffer, the copy of `analyzeTIFF` in `docs`
returns what the copy in `src` returns: the same report, or the same error.  (The header, the
count and the entries are those the copy in `src` reads; the equality needs no lower bound on
the offsets.) -/
theorem analyzeTIFF_agree (bytes : Bytes) (littleEndian : Bool) (ifdOffset numEntries : Int)
    (hlen : 8 ≤ bytes.length)
    (hle : littleEndian = decide (be16 bytes 0 = 0x4949))
    (hifd : ifdOffset = Src.readUint32 bytes littleEndian 4)
    (hnum : numEntries = Src.readUint16 bytes littleEndian ifdOffset)
    (hcount : ifdOffset + 2 ≤ bytes.length)
    (hmax : numEntries ≤ 100)
    (hentries : ifdOffset + 2 + numEntries * 12 ≤ bytes.length)
    (hres : ∀ i : Nat, (i : Int) < numEntries →
      Src.readUint16 bytes littleEndian (ifdOffset + 2 + (i : Int) * 12) = 282 ∨
        Src.readUint16 bytes littleEndian (ifdOffset + 2 + (i : Int) * 12) = 283 →
      0 ≤ Src.readUint32 bytes littleEndian (ifdOffset + 2 + (i : Int) * 12 + 8) ∧
      Src.readUint32 bytes littleEndian (ifdOffset + 2 + (i : Int) * 12 + 8) + 8 ≤
        bytes.length) :
    Docs.analyzeTIFF bytes = Src.analyzeTIFF bytes := by
  unfold Docs.analyzeTIFF Src.analyzeTIFF
  simp only [← hle]
  rw [readUint16_agree _ _ 2 (by omega), readUint32_agree _ _ 4 (by omega)]
  simp only [← hifd]
  rw [readUint16_agree _ _ ifdOffset (by omega)]
  simp only [← hnum]
  split
  · rfl
  · have hk : min numEntries.toNat 100 = numEntries.toNat := by omega
    rw [hk, List.range_eq_range', tiffEntries_agree]
    intro j _ hj
    have hj2 : (j : Int) < numEntries := by omega
    exact ⟨by omega, fun ht => (hres j hj2 ht).2⟩

/-- The file `cmykTiff` (four entries, among them the two resolutions and an ICC profile) is
well formed, and the two copies return the same report for it. -/
theorem analyzeTIFF_agree_witness : Docs.analyzeTIFF cmykTiff = Src.analyzeTIFF cmykTiff :=
  analyzeTIFF_agree cmykTiff true 8 4 (by decide) (by decide) (by decide) (by decide)
    (by decide) (by decide) (by decide)
    (fun i hi => by
      have h4 : i < 4 := by omega
      interval_cases i <;> decide)

/-! ### C36: the photometric interpretation of a TIFF -/

theorem twoPhotometricTiff_zero (p : Int) (h1 : 22 ≤ p) (h2 : p < 1210) :
    u8 twoPhotometricTiff p = 0 := by
  obtain ⟨n, rfl⟩ := Int.eq_ofNat_of_zero_le (by omega : 0 ≤ p)
  have hn1 : 22 ≤ n := by omega
  have hn2 : n < 1210 := by omega
  unfold u8 byteAt twoPhotometricTiff rgbEntry cmykEntry
  rw [if_neg (by omega)]
  simp only [Int.toNat_ofNat]
  rw [List.getElem?_append_left (by
        simp only [List.length_append, List.length_replicate, List.length_cons, List.length_nil]
        omega),
    List.getElem?_append_left (by
        simp only [List.length_append, List.length_replicate, List.length_cons, List.length_nil]
        omega),
    List.getElem?_append_right (by
        simp only [List.length_append, List.length_cons, List.length_nil]
        omega)]
  simp only [List.length_append, List.length_cons, List.length_nil]
  rw [List.getElem?_replicate, if_pos (by omega)]
  rfl

theorem twoPhotometricTiff_tag_zero (i : Nat) (h1 : 1 ≤ i) (h2 : i < 100) :
    le16 twoPhotometricTiff (8 + 2 + (i : Int) * 12) = 0 := by
  unfold le16
  rw [twoPhotometricTiff_zero _ (by omega) (by omega),
    twoPhotometricTiff_zero _ (by omega) (by omega)]
  rfl

theorem twoPhotometricTiff_length : twoPhotometricTiff.length = 1226 := by
  simp only [twoPhotometricTiff, rgbEntry, cmykEntry, List.length_append, List.length_replicate,
    List.length_cons, List.length_nil]

theorem src_analyzeTIFF_twoPhotometric :
    Src.analyzeTIFF twoPhotometricTiff =
      .returned (tiffReport (tiffWith .CMYK)) := by
  have h1 : be16 twoPhotometricTiff 0 = 0x4949 := by decide
  have h2 : Src.readUint16 twoPhotometricTiff true 2 = 42 := by decide
  have h3 : Src.readUint32 twoPhotometricTiff true 4 = 8 := by decide
  have h4 : Src.readUint16 twoPhotometricTiff true 8 = 101 := by decide
  have e0 : Src.tiffEntry twoPhotometricTiff true 8 tiffInit 0 =
      (tiffWith .RGB) := by decide
  have e100 : Src.tiffEntry twoPhotometricTiff true 8 (tiffWith .RGB) 100 =
      (tiffWith .CMYK) := by decide
  have h5 : List.range (101 : Int).toNat = 0 :: (List.range' 1 99 ++ [100]) := by decide
  unfold Src.analyzeTIFF
  simp only [h1, decide_True, h2, h3, h4, ne_eq, not_true_eq_false, if_false]
  rw [h5, List.foldl_cons, e0, List.foldl_append,
    foldl_skip _ (tiffWith .RGB) (List.range' 1 99)]
  · simp only [List.foldl_cons, List.foldl_nil, e100]
  · intro i hi
    apply src_tiffEntry_skip
    rw [List.mem_range'_1] at hi
    unfold Src.readUint16
    rw [if_pos rfl]
    exact twoPhotometricTiff_tag_zero i hi.1 (by omega)

theorem docs_analyzeTIFF_twoPhotometric :
    Docs.analyzeTIFF twoPhotometricTiff =
      .returned (tiffReport (tiffWith .RGB)) := by
  have hlen := twoPhotometricTiff_length
  have h1 : be16 twoPhotometricTiff 0 = 0x4949 := by decide
  have e2 : Docs.readUint16 twoPhotometricTiff true 2 = 42 := by
    unfold Docs.readUint16; rw [if_neg (by rw [hlen]; omega)]; decide
  have e3 : Docs.readUint32 twoPhotometricTiff true 4 = 8 := by
    unfold Docs.readUint32; rw [if_neg (by rw [hlen]; omega)]; decide
  have e4 : Docs.readUint16 twoPhotometricTiff true 8 = 101 := by
    unfold Docs.readUint16; rw [if_neg (by rw [hlen]; omega)]; decide
  have e0 : Docs.tiffEntry twoPhotometricTiff true (8 + 2 + ((0 : Nat) : Int) * 12) tiffInit =
      (tiffWith .RGB) := by
    unfold Docs.tiffEntry Docs.readUint16 Docs.readUint32
    simp only [hlen]
    decide
  have h5 : min (101 : Int).toNat 100 = 99 + 1 := rfl
  unfold Docs.analyzeTIFF
  simp only [h1, decide_True, e2, e3, e4, ne_eq, not_true_eq_false, if_false]
  rw [h5]
  unfold Docs.tiffEntries
  simp only []
  rw [if_neg (by rw [hlen]; omega), e0, docs_tiffEntries_skip]
  intro j hj1 hj2
  unfold Docs.readUint16
  split
  · rfl
  · rw [if_pos rfl]
    exact twoPhotometricTiff_tag_zero j (by omega) (by omega)

/-- C36 (fails on the code): in `twoPhotometricTiff` the first 100 entries hold one
PhotometricInterpretation entry, entry 0 with the value 2 (entries 1 to 99 have the tag 0), and
entry 100 is a second one with the value 5.  The copy in `docs` stops at entry 99 and reports
RGB; the copy in `src`, whose loop has no bound of 100, also reads entry 100 and reports
CMYK. -/
theorem photometric_beyond_100 :
    Src.readUint16 twoPhotometricTiff true 8 = 101 ∧
    Src.readUint16 twoPhotometricTiff true 10 = 262 ∧
    Src.readUint16 twoPhotometricTiff true 18 = 2 ∧
    (∀ i : Nat, 1 ≤ i → i < 100 →
      Src.readUint16 twoPhotometricTiff true (8 + 2 + (i : Int) * 12) = 0) ∧
    (∃ r, Src.analyzeTIFF twoPhotometricTiff = .returned r ∧ r.colorSpace = .CMYK) ∧
    (∃ r, Docs.analyzeTIFF twoPhotometricTiff = .returned r ∧ r.colorSpace = .RGB) := by
  refine ⟨by decide, by decide, by decide, fun i h1 h2 => ?_,
    ⟨_, src_analyzeTIFF_twoPhotometric, rfl⟩, ⟨_, docs_analyzeTIFF_twoPhotometric, rfl⟩⟩
  unfold Src.readUint16
  rw [if_pos rfl]
  exact twoPhotometricTiff_tag_zero i h1 h2

/-! ### C33: the frame header of a JPEG -/

theorem byteAt_append_left (a b : Bytes) (i : Int) (h0 : 0 ≤ i) (h : i < a.length) :
    byteAt (a ++ b) i = byteAt a i := by
  obtain ⟨n, rfl⟩ := Int.eq_ofNat_of_zero_le h0
  unfold byteAt
  rw [if_neg (by omega), if_neg (by omega)]
  simp only [Int.toNat_ofNat]
  rw [List.getElem?_append_left (by omega)]

theorem byteAt_append_right (a b : Bytes) (k : Nat) :
    byteAt (a ++ b) ((a.length : Int) + k) = byteAt b k := by
  unfold byteAt
  rw [if_neg (by omega), if_neg (by omega)]
  have e : ((a.length : Int) + k).toNat = a.length + k := by omega
  rw [e, List.getElem?_append_right (by omega)]
  simp

theorem frameJpg_length (m hHi hLo wHi wLo c : Byte) (comps : Bytes) :
    ((frameJpg m hHi hLo wHi wLo c comps).length : Int) = 14 + comps.length := by
  simp only [frameJpg, List.length_append, List.length_cons, List.length_nil]
  omega

theorem frameJpg_head (m hHi hLo wHi wLo c : Byte) (comps : Bytes) (i : Int) (h0 : 0 ≤ i)
    (h : i < 12) :
    byteAt (frameJpg m hHi hLo wHi wLo c comps) i =
      byteAt [0xFF, 0xD8, 0xFF, m, hiByte (8 + comps.length), loByte (8 + comps.length),
        0x08, hHi, hLo, wHi, wLo, c] i := by
  unfold frameJpg
  rw [List.append_assoc]
  exact byteAt_append_left _ _ i h0 (by simpa using h)

theorem frameJpg_tail (m hHi hLo wHi wLo c : Byte) (comps : Bytes) :
    byteAt (frameJpg m hHi hLo wHi wLo c comps) (12 + comps.length) = some 0xFF ∧
    byteAt (frameJpg m hHi hLo wHi wLo c comps) (12 + comps.length + 1) = some 0xD9 := by
  unfold frameJpg
  have e : ∀ k : Nat, ((12 : Int) + comps.length + k) =
      (([0xFF, 0xD8, 0xFF, m, hiByte (8 + comps.length), loByte (8 + comps.length),
        0x08, hHi, hLo, wHi, wLo, c] ++ comps : Bytes).length : Int) + k := by
    intro k
    simp only [List.length_append, List.length_cons, List.length_nil]
    omega
  constructor
  · have := e 0
    simp only [Nat.cast_zero, add_zero] at this
    rw [this]
    have h := byteAt_append_right ([0xFF, 0xD8, 0xFF, m, hiByte (8 + comps.length),
      loByte (8 + comps.length), 0x08, hHi, hLo, wHi, wLo, c] ++ comps) [0xFF, 0xD9] 0
    simp only [Nat.cast_zero, add_zero] at h
    rw [h]
    rfl
  · have := e 1
    simp only [Nat.cast_one] at this
    rw [this]
    have h := byteAt_append_right ([0xFF, 0xD8, 0xFF, m, hiByte (8 + comps.length),
      loByte (8 + comps.length), 0x08, hHi, hLo, wHi, wLo, c] ++ comps) [0xFF, 0xD9] 1
    simp only [Nat.cast_one] at h
    rw [h]
    rfl

/-- What `analyzeJPG` reads from `frameJpg`. -/
theorem frameJpg_reads (m hHi hLo wHi wLo c : Byte) (comps : Bytes)
    (hL : 8 + comps.length < 65536) :
    byteAt (frameJpg m hHi hLo wHi wLo c comps) 0 = some 0xFF ∧
    byteAt (frameJpg m hHi hLo wHi wLo c comps) 1 = some 0xD8 ∧
    byteAt (frameJpg m hHi hLo wHi wLo c comps) 2 = some 0xFF ∧
    byteAt (frameJpg m hHi hLo wHi wLo c comps) 3 = some m.val ∧
    be16 (frameJpg m hHi hLo wHi wLo c comps) 4 = 8 + comps.length ∧
    be16 (frameJpg m hHi hLo wHi wLo c comps) 7 = (hHi.val : Int) * 256 + hLo.val ∧
    be16 (frameJpg m hHi hLo wHi wLo c comps) 9 = (wHi.val : Int) * 256 + wLo.val ∧
    byteAt (frameJpg m hHi hLo wHi wLo c comps) 11 = some c.val := by
  have hb := hiByte_loByte (8 + comps.length) hL
  unfold be16 u8
  simp only [frameJpg_head m hHi hLo wHi wLo c comps _ (by omega : (0:Int) ≤ 0) (by omega),
    frameJpg_head m hHi hLo wHi wLo c comps _ (by omega : (0:Int) ≤ 1) (by omega),
    frameJpg_head m hHi hLo wHi wLo c comps _ (by omega : (0:Int) ≤ 2) (by omega),
    frameJpg_head m hHi hLo wHi wLo c comps _ (by omega : (0:Int) ≤ 3) (by omega),
    frameJpg_head m hHi hLo wHi wLo c comps _ (by omega : (0:Int) ≤ 4) (by omega),
    frameJpg_head m hHi hLo wHi wLo c comps _ (by omega : (0:Int) ≤ 4 + 1) (by omega),
    frameJpg_head m hHi hLo wHi wLo c comps _ (by omega : (0:Int) ≤ 7) (by omega),
    frameJpg_head m hHi hLo wHi wLo c comps _ (by omega : (0:Int) ≤ 7 + 1) (by omega),
    frameJpg_head m hHi hLo wHi wLo c comps _ (by omega : (0:Int) ≤ 9) (by omega),
    frameJpg_head m hHi hLo wHi wLo c comps _ (by omega : (0:Int) ≤ 9 + 1) (by omega),
    frameJpg_head m hHi hLo wHi wLo c comps _ (by omega : (0:Int) ≤ 11) (by omega)]
  refine ⟨rfl, rfl, rfl, rfl, ?_, rfl, rfl, rfl⟩
  exact_mod_cast hb


theorem marker_cases (m : Byte) (hm : 0xC0 ≤ m.val ∧ m.val ≤ 0xCF) :
    m.val = 0xC0 ∨ m.val = 0xC1 ∨ m.val = 0xC2 ∨ m.val = 0xC3 ∨ m.val = 0xC4 ∨ m.val = 0xC5 ∨
    m.val = 0xC6 ∨ m.val = 0xC7 ∨ m.val = 0xC8 ∨ m.val = 0xC9 ∨ m.val = 0xCA ∨ m.val = 0xCB ∨
    m.val = 0xCC ∨ m.val = 0xCD ∨ m.val = 0xCE ∨ m.val = 0xCF := by
  omega

theorem componentsColorSpace_rgb (c : Nat) :
    componentsColorSpace (some c) .RGB =
      if c = 1 then .Grayscale else if c = 4 then .CMYK else .RGB := by
  unfold componentsColorSpace
  simp only [Option.some.injEq]
  split_ifs <;> first | rfl | omega

theorem src_step_frame (inner : Nat) (m hHi hLo wHi wLo c : Byte) (comps : Bytes)
    (hm : 0xC0 ≤ m.val ∧ m.val ≤ 0xCF) (hL : 8 + comps.length < 65536) :
    Src.walkStep inner (frameJpg m hHi hLo wHi wLo c comps) 2 jpgInit =
      some (.next (12 + comps.length) (frameState m hHi hLo wHi wLo c)) := by
  obtain ⟨_, _, r2, r3, r4, r7, r9, r11⟩ := frameJpg_reads m hHi hLo wHi wLo c comps hL
  unfold Src.walkStep Src.sof frameState
  simp only [show (2 : Int) + 1 = 3 from rfl, show (2 : Int) + 2 = 4 from rfl,
    show (2 : Int) + 5 = 7 from rfl, show (2 : Int) + 7 = 9 from rfl,
    show (2 : Int) + 9 = 11 from rfl, r2, r3, r4, r7, r9, r11, componentsColorSpace_rgb]
  have e : (4 : Int) + (8 + (comps.length : Int)) = 12 + comps.length := by omega
  rcases marker_cases m hm with h | h | h | h | h | h | h | h | h | h | h | h | h | h | h | h <;>
    simp [h, isStandalone, isSOF, jpgInit, e, componentsColorSpace_rgb]

theorem src_step_frame_eoi (inner : Nat) (m hHi hLo wHi wLo c : Byte) (comps : Bytes)
    (s : Decoded) :
    Src.walkStep inner (frameJpg m hHi hLo wHi wLo c comps) (12 + comps.length) s =
      some (.stop s) := by
  obtain ⟨t0, t1⟩ := frameJpg_tail m hHi hLo wHi wLo c comps
  unfold Src.walkStep
  simp [t0, t1]

theorem src_walk_frame (inner fuel : Nat) (m hHi hLo wHi wLo c : Byte) (comps : Bytes)
    (hm : 0xC0 ≤ m.val ∧ m.val ≤ 0xCF) (hL : 8 + comps.length < 65536) :
    Src.walk inner (fuel + 2) (frameJpg m hHi hLo wHi wLo c comps) 2 jpgInit =
      some (frameState m hHi hLo wHi wLo c) := by
  have hlen := frameJpg_length m hHi hLo wHi wLo c comps
  rw [src_walk_next (by omega) (src_step_frame inner m hHi hLo wHi wLo c comps hm hL),
    src_walk_stop (by omega) (src_step_frame_eoi inner m hHi hLo wHi wLo c comps _)]

theorem docs_skipFill_frame (k : Nat) (m hHi hLo wHi wLo c : Byte) (comps : Bytes)
    (hm : 0xC0 ≤ m.val ∧ m.val ≤ 0xCF) (hL : 8 + comps.length < 65536) :
    Docs.skipFill (k + 1) (frameJpg m hHi hLo wHi wLo c comps) 2 = some 2 ∧
    Docs.skipFill (k + 1) (frameJpg m hHi hLo wHi wLo c comps) (12 + comps.length) =
      some ((12 : Int) + comps.length) := by
  obtain ⟨_, _, _, r3, _⟩ := frameJpg_reads m hHi hLo wHi wLo c comps hL
  obtain ⟨_, t1⟩ := frameJpg_tail m hHi hLo wHi wLo c comps
  constructor
  · unfold Docs.skipFill
    rw [if_neg]
    rw [show (2 : Int) + 1 = 3 from rfl, r3]
    simp only [Option.some.injEq, not_and]
    omega
  · unfold Docs.skipFill
    rw [if_neg]
    rw [t1]
    simp only [Option.some.injEq, not_and]
    omega

theorem docs_step_frame (k : Nat) (m hHi hLo wHi wLo c : Byte) (comps : Bytes)
    (hm : 0xC0 ≤ m.val ∧ m.val ≤ 0xCF) (hL : 8 + comps.length < 65536) :
    Docs.walkStep (k + 1) (frameJpg m hHi hLo wHi wLo c comps) 2 jpgInit =
      some (.next (12 + comps.length) (frameState m hHi hLo wHi wLo c)) := by
  obtain ⟨_, _, r2, r3, r4, r7, r9, r11⟩ := frameJpg_reads m hHi hLo wHi wLo c comps hL
  have hlen := frameJpg_length m hHi hLo wHi wLo c comps
  unfold Docs.walkStep Docs.sof frameState
  simp only [(docs_skipFill_frame k m hHi hLo wHi wLo c comps hm hL).1,
    show (2 : Int) + 1 = 3 from rfl, show (2 : Int) + 2 = 4 from rfl,
    show (2 : Int) + 4 = 6 from rfl, show (2 : Int) + 3 = 5 from rfl,
    show (6 : Int) + 1 = 7 from rfl, show (6 : Int) + 3 = 9 from rfl,
    show (6 : Int) + 5 = 11 from rfl, show (6 : Int) + 6 = 12 from rfl,
    r2, r3, r4, r7, r9, r11, hlen]
  have e : (4 : Int) + (8 + (comps.length : Int)) = 12 + comps.length := by omega
  have e2 : min ((12 : Int) + comps.length) (14 + comps.length) = 12 + comps.length := by omega
  have n1 : ¬ ((2 : Int) ≥ 14 + (comps.length : Int) - 1) := by omega
  have n2 : ¬ ((5 : Int) ≥ 14 + (comps.length : Int)) := by omega
  have n3 : ¬ ((8 : Int) + (comps.length : Int) < 2) := by omega
  have n4 : (12 : Int) + (comps.length : Int) ≥ 12 := by omega
  rcases marker_cases m hm with h | h | h | h | h | h | h | h | h | h | h | h | h | h | h | h <;>
    simp [h, isStandalone, isSOF, jpgInit, e, e2, n1, n2, n3, n4, componentsColorSpace_rgb]

theorem docs_step_frame_eoi (k : Nat) (m hHi hLo wHi wLo c : Byte) (comps : Bytes)
    (hm : 0xC0 ≤ m.val ∧ m.val ≤ 0xCF) (hL : 8 + comps.length < 65536) (s : Decoded) :
    Docs.walkStep (k + 1) (frameJpg m hHi hLo wHi wLo c comps) (12 + comps.length) s =
      some (.stop s) := by
  obtain ⟨t0, t1⟩ := frameJpg_tail m hHi hLo wHi wLo c comps
  have hlen := frameJpg_length m hHi hLo wHi wLo c comps
  unfold Docs.walkStep
  simp [(docs_skipFill_frame k m hHi hLo wHi wLo c comps hm hL).2, t0, t1, hlen]

theorem docs_walk_frame (k fuel : Nat) (m hHi hLo wHi wLo c : Byte) (comps : Bytes)
    (hm : 0xC0 ≤ m.val ∧ m.val ≤ 0xCF) (hL : 8 + comps.length < 65536) :
    Docs.walk (k + 1) (fuel + 2) (frameJpg m hHi hLo wHi wLo c comps) 2 jpgInit =
      some (frameState m hHi hLo wHi wLo c) := by
  have hlen := frameJpg_length m hHi hLo wHi wLo c comps
  rw [docs_walk_next (by omega) (docs_step_frame k m hHi hLo wHi wLo c comps hm hL),
    docs_walk_stop (by omega) (docs_step_frame_eoi k m hHi hLo wHi wLo c comps hm hL _)]

/-- C33: on the JPEG made of SOI, one segment with the content of a frame header (height `h`,
width `w`, `c` components, any component specifications) and EOI, both copies of `analyzeJPG`
return, with two iterations of the marker loop.  When the marker is one of C0-C3, C5-C7, C9-CB,
CD-CF the report has the width `w` and the height `h`, read big-endian, and the colour space
Grayscale for `c = 1`, CMYK for `c = 4` and RGB otherwise; when the marker is C4, C8 or CC the
frame is not read: width and height stay 0 and the colour space stays RGB. -/
theorem frame_header_report (fuel : Nat) (m hHi hLo wHi wLo c : Byte) (comps : Bytes)
    (hm : 0xC0 ≤ m.val ∧ m.val ≤ 0xCF) (hL : 8 + comps.length < 65536) :
    ∃ r, Src.analyzeJPG (fuel + 2) (frameJpg m hHi hLo wHi wLo c comps) = .returned r ∧
      Docs.analyzeJPG (fuel + 2) (frameJpg m hHi hLo wHi wLo c comps) = .returned r ∧
      (m.val ≠ 0xC4 ∧ m.val ≠ 0xC8 ∧ m.val ≠ 0xCC →
        r.width = (wHi.val : Int) * 256 + wLo.val ∧
        r.height = (hHi.val : Int) * 256 + hLo.val ∧
        r.colorSpace = if c.val = 1 then .Grayscale else if c.val = 4 then .CMYK else .RGB) ∧
      (m.val = 0xC4 ∨ m.val = 0xC8 ∨ m.val = 0xCC →
        r.width = 0 ∧ r.height = 0 ∧ r.colorSpace = .RGB) := by
  obtain ⟨r0, r1, _⟩ := frameJpg_reads m hHi hLo wHi wLo c comps hL
  refine ⟨jpgReport (frameState m hHi hLo wHi wLo c), ?_, ?_, ?_, ?_⟩
  · unfold Src.analyzeJPG
    rw [if_neg (by rw [r0, r1]; simp), src_walk_frame _ _ m hHi hLo wHi wLo c comps hm hL]
  · unfold Docs.analyzeJPG
    rw [if_neg (by rw [r0, r1]; simp), docs_walk_frame _ _ m hHi hLo wHi wLo c comps hm hL]
  · intro hne
    show (frameState m hHi hLo wHi wLo c).width = _ ∧ (frameState m hHi hLo wHi wLo c).height = _ ∧
      (frameState m hHi hLo wHi wLo c).colorSpace = _
    have hs : isSOF (some m.val) = true := by
      rcases marker_cases m hm with h | h | h | h | h | h | h | h | h | h | h | h | h | h | h | h <;>
        first
        | (rw [h]; decide)
        | exact absurd h hne.1
        | exact absurd h hne.2.1
        | exact absurd h hne.2.2
    unfold frameState
    rw [if_pos hs]
    exact ⟨rfl, rfl, rfl⟩
  · intro hq
    show (frameState m hHi hLo wHi wLo c).width = _ ∧ (frameState m hHi hLo wHi wLo c).height = _ ∧
      (frameState m hHi hLo wHi wLo c).colorSpace = _
    have hs : isSOF (some m.val) = false := by
      rcases hq with h | h | h <;> rw [h] <;> decide
    unfold frameState
    rw [hs]
    exact ⟨rfl, rfl, rfl⟩

/-- A 200 x 100 frame with 4 components and the marker C0 is reported as 200 x 100, CMYK. -/
theorem frame_header_report_witness :
    ∃ r, Src.analyzeJPG 2 (frameJpg 0xC0 0 100 0 200 4 []) = .returned r ∧
      Docs.analyzeJPG 2 (frameJpg 0xC0 0 100 0 200 4 []) = .returned r ∧
      r.width = 200 ∧ r.height = 100 ∧ r.colorSpace = .CMYK := by
  obtain ⟨r, h1, h2, h3, _⟩ :=
    frame_header_report 0 0xC0 0 100 0 200 4 [] (by decide) (by decide)
  obtain ⟨hw, hh, hc⟩ := h3 (by decide)
  exact ⟨r, h1, h2, hw.trans (by decide), hh.trans (by decide), hc.trans (by decide)⟩

end Prepress
